import Mathlib

/-! Oxylus engine: render queue ordering, packed GPU words, entity serialization.

A shallow embedding of parts of the Oxylus engine sources:

* `Render/DefaultRenderPipeline.hpp`: `RenderBatch` (sort keys), `RenderQueue`,
  `MeshInstancePointer`, `LightData`;
* `Utils/OxMath.hpp`: `pack_u16`, `unpack_u32_low`, `unpack_u32_high`;
* `Scene/EntitySerializer.cpp`: `serialize_entity`, `deserialize_entity`;
* `Core/App.hpp`: `AppCommandLineArgs`, the system registry of `App`;
* `Utils/OxMath.hpp`: `smooth_damp`.

Conventions. Unsigned machine integers (`uint16_t`, `uint32_t`, `uint64_t`) are natural
numbers; a store into a narrower integer is written `% 2 ^ w`. A `float` is identified by
its IEEE-754 binary32 bit pattern (a natural number below `2 ^ 32`), which is what
`glm::floatBitsToUint` returns; a `double` by its binary64 bit pattern, with the conversions
`f32_to_f64` (widening) and `f64_to_f32` (the `(float)` cast) between the two.
-/

namespace ox

/-! ## Floats as bit patterns -/

/-- A C++ `float`, given by its IEEE-754 binary32 bit pattern. -/
abbrev f32 := Nat

/-- The float is finite and has a clear sign bit (`+0`, subnormal or normal, not `inf`/`nan`). -/
def f32.finite_nonneg (x : f32) : Prop := x < 0x7F800000

instance (x : f32) : Decidable (f32.finite_nonneg x) := by
  unfold f32.finite_nonneg; infer_instance

/-- Real value of a finite non-negative float: biased exponent `e = x / 2^23`, fraction
`m = x % 2^23`; the value is `m * 2^(-149)` when `e = 0` (subnormal) and
`(2^23 + m) * 2^(e - 150)` otherwise. -/
def f32.value (x : f32) : ℚ :=
  if x / 2 ^ 23 = 0 then ((x % 2 ^ 23 : Nat) : ℚ) / 2 ^ 149
  else ((2 ^ 23 + x % 2 ^ 23 : Nat) : ℚ) * 2 ^ (x / 2 ^ 23 - 1) / 2 ^ 149

/-- The float is a signalling NaN: exponent all ones, non-zero fraction, quiet bit (bit 22)
clear. -/
def f32.is_signaling_nan (x : f32) : Prop :=
  x / 2 ^ 23 % 2 ^ 8 = 255 ∧ x % 2 ^ 23 ≠ 0 ∧ x / 2 ^ 22 % 2 = 0

instance (x : f32) : Decidable (f32.is_signaling_nan x) := by
  unfold f32.is_signaling_nan; infer_instance

/-- The value is a `float` bit pattern (32 bits) other than a signalling NaN. -/
def f32.not_signaling (x : f32) : Prop := x < 2 ^ 32 ∧ ¬ f32.is_signaling_nan x

instance (x : f32) : Decidable (f32.not_signaling x) := by
  unfold f32.not_signaling; infer_instance

/-! ## `std::sort` -/

/-- Insertion of `x` into a list sorted by the strict comparator `comp`: `x` goes before the
first element that does not strictly precede it. -/
def std_sort_insert {α : Type} (comp : α → α → Bool) (x : α) : List α → List α
  | [] => [x]
  | y :: ys => if comp y x then y :: std_sort_insert comp x ys else x :: y :: ys

/-- Model of `std::sort(first, last, comp)` for a strict comparator `comp`: insertion sort.
The standard only fixes the postcondition (the result is a permutation in which no later
element strictly precedes an earlier one); this is one algorithm that meets it. -/
def std_sort {α : Type} (comp : α → α → Bool) : List α → List α
  | [] => []
  | x :: xs => std_sort_insert comp x (std_sort comp xs)

/-! ## `DefaultRenderPipeline::RenderBatch` and `RenderQueue` -/

/-- The struct `DefaultRenderPipeline::RenderBatch`. -/
structure RenderBatch where
  mesh_index : Nat
  component_index : Nat
  instance_index : Nat
  distance : Nat
  camera_mask : Nat
  sort_bits : Nat
deriving DecidableEq, Repr

/-- The fields hold values of their C++ types: `uint32_t` for `mesh_index`,
`component_index`, `instance_index`, `sort_bits`; `uint16_t` for `distance`, `camera_mask`. -/
def RenderBatch.wf (b : RenderBatch) : Prop :=
  b.mesh_index < 2 ^ 32 ∧ b.component_index < 2 ^ 32 ∧ b.instance_index < 2 ^ 32 ∧
  b.distance < 2 ^ 16 ∧ b.camera_mask < 2 ^ 16 ∧ b.sort_bits < 2 ^ 32

instance (b : RenderBatch) : Decidable b.wf := by
  unfold RenderBatch.wf; infer_instance

/-- The method `RenderBatch::create`. The parameter `distance` is a `float`;
`uint16_t(glm::floatBitsToUint(distance))` keeps the low 16 bits of its bit pattern. -/
def RenderBatch.create (mesh_idx component_idx instance_idx : Nat) (distance : f32)
    (sort_bits : Nat) (camera_mask : Nat) : RenderBatch :=
  { mesh_index := mesh_idx
    component_index := component_idx
    instance_index := instance_idx
    distance := distance % 2 ^ 16
    sort_bits := sort_bits
    camera_mask := camera_mask }

/-- The `SortKey` union of `operator<`, read through `value`: bit-fields are allocated from
the least significant bit in declaration order, `distance : 16`, `mesh_index : 16`,
`sort_bits : 32`; a store into a bit-field keeps the low bits of the stored value. -/
def RenderBatch.sort_key_less (b : RenderBatch) : Nat :=
  b.distance % 2 ^ 16 + (b.mesh_index % 2 ^ 16) * 2 ^ 16 + (b.sort_bits % 2 ^ 32) * 2 ^ 32

/-- The method `RenderBatch::operator<` (used for sorting the solid, non-blended batches). -/
def RenderBatch.less (a other : RenderBatch) : Bool :=
  decide (a.sort_key_less < other.sort_key_less)

/-- The `SortKey` union of `operator>`, read through `value`: `mesh_index : 16`,
`sort_bits : 32`, `distance : 16` from the least significant bit. -/
def RenderBatch.sort_key_greater (b : RenderBatch) : Nat :=
  b.mesh_index % 2 ^ 16 + (b.sort_bits % 2 ^ 32) * 2 ^ 16 + (b.distance % 2 ^ 16) * 2 ^ 48

/-- The method `RenderBatch::operator>` (transparent sorting). -/
def RenderBatch.greater (a other : RenderBatch) : Bool :=
  decide (a.sort_key_greater > other.sort_key_greater)

/-- The struct `RenderQueue`: its `batches` vector. -/
abbrev RenderQueue := List RenderBatch

/-- The method `RenderQueue::add` (the overload that creates the batch in place). -/
def RenderQueue.add (q : RenderQueue) (mesh_index component_index instance_index : Nat)
    (distance : f32) (sort_bits : Nat) (camera_mask : Nat) : RenderQueue :=
  q ++ [RenderBatch.create mesh_index component_index instance_index distance sort_bits camera_mask]

/-- The method `RenderQueue::sort_transparent`: `std::sort` with `std::greater<RenderBatch>`,
which calls `operator>`. -/
def RenderQueue.sort_transparent (q : RenderQueue) : RenderQueue :=
  std_sort RenderBatch.greater q

/-- The method `RenderQueue::sort_opaque`: `std::sort` with `std::less<RenderBatch>`, which
calls `operator<`. -/
def RenderQueue.sort_opaque (q : RenderQueue) : RenderQueue :=
  std_sort RenderBatch.less q

/-! ## `DefaultRenderPipeline::MeshInstancePointer` -/

/-- The struct `MeshInstancePointer`: one `uint32_t` word. -/
structure MeshInstancePointer where
  data : Nat
deriving DecidableEq, Repr

/-- The method `MeshInstancePointer::create`. The third argument `dither_x15` is the value of
the C++ expression `uint32_t(dither * 15.0f)`, a 32-bit unsigned integer; for the default
`dither = 0` it is `0`. The defaults of the C++ signature are `camera_index = 0`,
`dither = 0`. Every shift is written with the `uint32_t` wrap-around. -/
def MeshInstancePointer.create (instance_index camera_index dither_x15 : Nat) :
    MeshInstancePointer :=
  let data := 0
  let data := data ||| (instance_index &&& 0xFFFFFF)
  let data := data ||| (((camera_index &&& 0xF) <<< 24) % 2 ^ 32)
  let data := data ||| (((dither_x15 % 2 ^ 32 &&& 0xF) <<< 28) % 2 ^ 32)
  { data := data }

/-! ## `DefaultRenderPipeline::LightData` -/

/-- The GLSL-style vector `uint2` (two `uint32` lanes). -/
structure uint2 where
  x : Nat
  y : Nat
deriving DecidableEq, Repr

/-- The struct `LightData`, restricted to its packed integer members; the plain float
members (`position`, `rotation`, `shadow_atlas_mul_add`) and the padding are not touched
by any of the setters below. -/
structure LightData where
  type8_flags8_range16 : Nat
  direction16_cone_angle_cos16 : uint2
  color : uint2
  radius16_length16 : Nat
  matrix_index : Nat
  remap : Nat
deriving DecidableEq, Repr

/-- The `uint32` members hold 32-bit values. -/
def LightData.wf (l : LightData) : Prop :=
  l.type8_flags8_range16 < 2 ^ 32 ∧ l.direction16_cone_angle_cos16.x < 2 ^ 32 ∧
  l.direction16_cone_angle_cos16.y < 2 ^ 32 ∧ l.color.x < 2 ^ 32 ∧ l.color.y < 2 ^ 32 ∧
  l.radius16_length16 < 2 ^ 32 ∧ l.matrix_index < 2 ^ 32 ∧ l.remap < 2 ^ 32

instance (l : LightData) : Decidable l.wf := by
  unfold LightData.wf; infer_instance

/-- The value `glm::packHalf1x16(value)` for a half-float encoder `packHalf1x16` (a glm
library function, taken as a parameter): its return type is `uint16`, so the 16 low bits. -/
def half16 (packHalf1x16 : f32 → Nat) (value : f32) : Nat := packHalf1x16 value % 2 ^ 16

/-- The method `LightData::set_type`. -/
def LightData.set_type (l : LightData) (type : Nat) : LightData :=
  { l with type8_flags8_range16 := l.type8_flags8_range16 ||| (type &&& 0xFF) }

/-- The method `LightData::set_flags`. -/
def LightData.set_flags (l : LightData) (flags : Nat) : LightData :=
  { l with type8_flags8_range16 := l.type8_flags8_range16 ||| ((flags &&& 0xFF) <<< 8) }

/-- The method `LightData::set_range`. -/
def LightData.set_range (packHalf1x16 : f32 → Nat) (l : LightData) (value : f32) : LightData :=
  { l with type8_flags8_range16 :=
      l.type8_flags8_range16 ||| (half16 packHalf1x16 value <<< 16) }

/-- The method `LightData::set_radius`. -/
def LightData.set_radius (packHalf1x16 : f32 → Nat) (l : LightData) (value : f32) : LightData :=
  { l with radius16_length16 := l.radius16_length16 ||| half16 packHalf1x16 value }

/-- The method `LightData::set_length`. -/
def LightData.set_length (packHalf1x16 : f32 → Nat) (l : LightData) (value : f32) : LightData :=
  { l with radius16_length16 := l.radius16_length16 ||| (half16 packHalf1x16 value <<< 16) }

/-- The method `LightData::set_direction`, for the vector `(vx, vy, vz)`. -/
def LightData.set_direction (packHalf1x16 : f32 → Nat) (l : LightData) (vx vy vz : f32) :
    LightData :=
  let d := l.direction16_cone_angle_cos16
  let x := d.x ||| half16 packHalf1x16 vx
  let x := x ||| (half16 packHalf1x16 vy <<< 16)
  let y := d.y ||| half16 packHalf1x16 vz
  { l with direction16_cone_angle_cos16 := { x := x, y := y } }

/-- The method `LightData::set_cone_angle_cos`. -/
def LightData.set_cone_angle_cos (packHalf1x16 : f32 → Nat) (l : LightData) (value : f32) :
    LightData :=
  { l with direction16_cone_angle_cos16 :=
      { x := l.direction16_cone_angle_cos16.x
        y := l.direction16_cone_angle_cos16.y ||| (half16 packHalf1x16 value <<< 16) } }

/-- The method `LightData::set_shadow_cascade_count`. -/
def LightData.set_shadow_cascade_count (l : LightData) (value : Nat) : LightData :=
  { l with direction16_cone_angle_cos16 :=
      { x := l.direction16_cone_angle_cos16.x
        y := l.direction16_cone_angle_cos16.y ||| ((value &&& 0xFFFF) <<< 16) } }

/-- The method `LightData::set_indices`. -/
def LightData.set_indices (l : LightData) (indices : Nat) : LightData :=
  { l with matrix_index := indices }

/-- The layout the member name `type8_flags8_range16` states, for a word `w`: bits 0-7 hold
`t`, bits 8-15 hold `f`, bits 16-31 hold `h`. -/
def type8_flags8_range16_layout (w t f h : Nat) : Prop :=
  w &&& 0xFF = t ∧ (w >>> 8) &&& 0xFF = f ∧ w >>> 16 = h

/-! ## `ox::math` packing helpers -/

/-- The function `ox::math::pack_u16`. The parameters are `uint16`; `high << 16u` is computed
after integer promotion and converted to `uint32` by the `|=`. -/
def pack_u16 (low high : Nat) : Nat :=
  let result := 0
  let result := result ||| low
  let result := result ||| ((high <<< 16) % 2 ^ 32)
  result

/-- The function `ox::math::unpack_u32_low`; the `uint16` return type keeps 16 bits. -/
def unpack_u32_low (packed : Nat) : Nat := (packed &&& 0xFFFF) % 2 ^ 16

/-- The function `ox::math::unpack_u32_high`; the `uint16` return type keeps 16 bits. -/
def unpack_u32_high (packed : Nat) : Nat := ((packed >>> 16) &&& 0xFFFF) % 2 ^ 16

/-! ## Scene components

The component structs as `EntitySerializer.cpp` uses them, restricted to the members it reads
or writes. Enumerations (`LightType`, `ShadowQualityType`, `BodyType`) are given by their
underlying `int` value; a shared pointer to an asset is given by the path of that asset. -/

/-- The vector type `Vec3` (`glm::vec3`). -/
structure Vec3 where
  x : f32
  y : f32
  z : f32
deriving DecidableEq, Repr

/-- The struct `TagComponent`. -/
structure TagComponent where
  tag : String
  enabled : Bool
deriving DecidableEq, Repr

/-- The struct `RelationshipComponent`; `UUID` is a `uint64_t`. -/
structure RelationshipComponent where
  parent : Nat
  children : List Nat
deriving DecidableEq, Repr

/-- The struct `TransformComponent`. -/
structure TransformComponent where
  position : Vec3
  rotation : Vec3
  scale : Vec3
deriving DecidableEq, Repr

/-- The struct `MeshComponent`; `mesh_base` is the path of the mesh asset. -/
structure MeshComponent where
  mesh_base : String
  node_index : Nat
  cast_shadows : Bool
deriving DecidableEq, Repr

/-- The struct `LightComponent`. -/
structure LightComponent where
  type : Int
  color_temperature_mode : Bool
  temperature : Nat
  color : Vec3
  intensity : f32
  range : f32
  cut_off_angle : f32
  outer_cut_off_angle : f32
  cast_shadows : Bool
  shadow_quality : Int
deriving DecidableEq, Repr

/-- The struct `SkyLightComponent`; `cubemap` is the path of the cubemap texture, `none` for a
null pointer. -/
structure SkyLightComponent where
  cubemap : Option String
  intensity : f32
  rotation : f32
  lod_bias : f32
deriving DecidableEq, Repr

/-- The struct `PostProcessProbe`. -/
structure PostProcessProbe where
  vignette_enabled : Bool
  vignette_intensity : f32
  film_grain_enabled : Bool
  film_grain_intensity : f32
  chromatic_aberration_enabled : Bool
  chromatic_aberration_intensity : f32
  sharpen_enabled : Bool
  sharpen_intensity : f32
deriving DecidableEq, Repr

/-- The struct `CameraComponent`: the three values of its camera that are serialized. -/
structure CameraComponent where
  fov : f32
  near : f32
  far : f32
deriving DecidableEq, Repr

/-- The struct `RigidbodyComponent`. -/
structure RigidbodyComponent where
  type : Int
  mass : f32
  linear_drag : f32
  angular_drag : f32
  gravity_scale : f32
  allow_sleep : Bool
  awake : Bool
  continuous : Bool
  interpolation : Bool
  is_sensor : Bool
deriving DecidableEq, Repr

/-- The struct `BoxColliderComponent`. -/
structure BoxColliderComponent where
  size : Vec3
  offset : Vec3
  density : f32
  friction : f32
  restitution : f32
deriving DecidableEq, Repr

/-- The struct `SphereColliderComponent`. -/
structure SphereColliderComponent where
  radius : f32
  offset : Vec3
  density : f32
  friction : f32
  restitution : f32
deriving DecidableEq, Repr

/-- The struct `CapsuleColliderComponent`. -/
structure CapsuleColliderComponent where
  height : f32
  radius : f32
  offset : Vec3
  density : f32
  friction : f32
  restitution : f32
deriving DecidableEq, Repr

/-- The struct `TaperedCapsuleColliderComponent`. -/
structure TaperedCapsuleColliderComponent where
  height : f32
  top_radius : f32
  bottom_radius : f32
  offset : Vec3
  density : f32
  friction : f32
  restitution : f32
deriving DecidableEq, Repr

/-- The struct `CylinderColliderComponent`. -/
structure CylinderColliderComponent where
  height : f32
  radius : f32
  offset : Vec3
  density : f32
  friction : f32
  restitution : f32
deriving DecidableEq, Repr

/-- The struct `MeshColliderComponent`. -/
structure MeshColliderComponent where
  offset : Vec3
  friction : f32
  restitution : f32
deriving DecidableEq, Repr

/-- The struct `CharacterControllerComponent`. -/
structure CharacterControllerComponent where
  character_height_standing : f32
  character_radius_standing : f32
  character_height_crouching : f32
  character_radius_crouching : f32
  control_movement_during_jump : Bool
  jump_force : f32
  friction : f32
  collision_tolerance : f32
deriving DecidableEq, Repr

/-- The struct `LuaScriptComponent`; `lua_system` is the path of the script, `none` for a null
pointer. -/
structure LuaScriptComponent where
  lua_system : Option String
deriving DecidableEq, Repr

/-- An entity of the registry: its UUID (`IDComponent`) and, per component type, the component
it has, if any. -/
structure Entity where
  uuid : Nat
  tag : Option TagComponent
  relationship : Option RelationshipComponent
  transform : Option TransformComponent
  mesh : Option MeshComponent
  light : Option LightComponent
  sky_light : Option SkyLightComponent
  post_process_probe : Option PostProcessProbe
  camera : Option CameraComponent
  rigidbody : Option RigidbodyComponent
  box_collider : Option BoxColliderComponent
  sphere_collider : Option SphereColliderComponent
  capsule_collider : Option CapsuleColliderComponent
  tapered_capsule_collider : Option TaperedCapsuleColliderComponent
  cylinder_collider : Option CylinderColliderComponent
  mesh_collider : Option MeshColliderComponent
  character_controller : Option CharacterControllerComponent
  lua_script : Option LuaScriptComponent
deriving DecidableEq, Repr

/-- The value is an `int` (32 bits, two's complement). -/
def is_int32 (i : Int) : Prop := -2 ^ 31 ≤ i ∧ i < 2 ^ 31

instance (i : Int) : Decidable (is_int32 i) := by
  unfold is_int32; infer_instance

/-- The integer members of the entity hold values of their C++ types: `uint64_t` UUIDs,
`uint32_t` for `temperature` and `node_index`, `int` for the enumerations. -/
def Entity.wf (e : Entity) : Prop :=
  e.uuid < 2 ^ 64 ∧
  (∀ rc, e.relationship = some rc → rc.parent < 2 ^ 64 ∧ ∀ c ∈ rc.children, c < 2 ^ 64) ∧
  (∀ mc, e.mesh = some mc → mc.node_index < 2 ^ 32) ∧
  (∀ lc, e.light = some lc →
    is_int32 lc.type ∧ lc.temperature < 2 ^ 32 ∧ is_int32 lc.shadow_quality) ∧
  (∀ rb, e.rigidbody = some rb → is_int32 rb.type)

/-- The three `float` members of a `Vec3`. -/
def Vec3.floats (v : Vec3) : List f32 := [v.x, v.y, v.z]

/-- The `float` members of a `TransformComponent`. -/
def TransformComponent.floats (c : TransformComponent) : List f32 :=
  c.position.floats ++ c.rotation.floats ++ c.scale.floats

/-- The `float` members of a `LightComponent`. -/
def LightComponent.floats (c : LightComponent) : List f32 :=
  c.color.floats ++ [c.intensity, c.range, c.cut_off_angle, c.outer_cut_off_angle]

/-- The `float` members of a `PostProcessProbe`. -/
def PostProcessProbe.floats (c : PostProcessProbe) : List f32 :=
  [c.vignette_intensity, c.film_grain_intensity, c.chromatic_aberration_intensity,
   c.sharpen_intensity]

/-- The `float` members of a `RigidbodyComponent`. -/
def RigidbodyComponent.floats (c : RigidbodyComponent) : List f32 :=
  [c.mass, c.linear_drag, c.angular_drag, c.gravity_scale]

/-- The `float` members of a `BoxColliderComponent`. -/
def BoxColliderComponent.floats (c : BoxColliderComponent) : List f32 :=
  c.size.floats ++ c.offset.floats ++ [c.density, c.friction, c.restitution]

/-- The `float` members of a `SphereColliderComponent`. -/
def SphereColliderComponent.floats (c : SphereColliderComponent) : List f32 :=
  c.offset.floats ++ [c.radius, c.density, c.friction, c.restitution]

/-- The `float` members of a `CapsuleColliderComponent`. -/
def CapsuleColliderComponent.floats (c : CapsuleColliderComponent) : List f32 :=
  c.offset.floats ++ [c.height, c.radius, c.density, c.friction, c.restitution]

/-- The `float` members of a `CylinderColliderComponent`. -/
def CylinderColliderComponent.floats (c : CylinderColliderComponent) : List f32 :=
  c.offset.floats ++ [c.height, c.radius, c.density, c.friction, c.restitution]

/-- The `float` members of a `MeshColliderComponent`. -/
def MeshColliderComponent.floats (c : MeshColliderComponent) : List f32 :=
  c.offset.floats ++ [c.friction, c.restitution]

/-- The `float` members of a `CharacterControllerComponent`. -/
def CharacterControllerComponent.floats (c : CharacterControllerComponent) : List f32 :=
  [c.character_height_standing, c.character_radius_standing, c.character_height_crouching,
   c.character_radius_crouching, c.jump_force, c.friction, c.collision_tolerance]

/-- No `float` member of a plain-data component of the entity holds a signalling NaN (each is
a 32-bit pattern other than a signalling NaN). -/
def Entity.no_signaling_nan (e : Entity) : Prop :=
  (∀ c, e.transform = some c → ∀ x ∈ c.floats, f32.not_signaling x) ∧
  (∀ c, e.light = some c → ∀ x ∈ c.floats, f32.not_signaling x) ∧
  (∀ c, e.post_process_probe = some c → ∀ x ∈ c.floats, f32.not_signaling x) ∧
  (∀ c, e.rigidbody = some c → ∀ x ∈ c.floats, f32.not_signaling x) ∧
  (∀ c, e.box_collider = some c → ∀ x ∈ c.floats, f32.not_signaling x) ∧
  (∀ c, e.sphere_collider = some c → ∀ x ∈ c.floats, f32.not_signaling x) ∧
  (∀ c, e.capsule_collider = some c → ∀ x ∈ c.floats, f32.not_signaling x) ∧
  (∀ c, e.cylinder_collider = some c → ∀ x ∈ c.floats, f32.not_signaling x) ∧
  (∀ c, e.mesh_collider = some c → ∀ x ∈ c.floats, f32.not_signaling x) ∧
  (∀ c, e.character_controller = some c → ∀ x ∈ c.floats, f32.not_signaling x)

/-! ## toml++ values -/

/-- A C++ `double`, given by its IEEE-754 binary64 bit pattern. toml++ stores every
floating-point value as a `double`. -/
abbrev f64 := Nat

/-- The position of the highest set bit of `n` among its lowest `bits` bits (`0` when none of
them is set). -/
def highest_bit : Nat → Nat → Nat
  | 0, _ => 0
  | bits + 1, n => if 2 ^ bits ≤ n then bits else highest_bit bits n

/-- The implicit conversion `float → double`. Finite values and infinities are converted
exactly (a subnormal float becomes a normal double); a NaN keeps its sign and payload and
comes out quiet (bit 51 set), so a signalling NaN is quieted. -/
def f32_to_f64 (x : f32) : f64 :=
  let sign := x / 2 ^ 31 % 2
  let exponent := x / 2 ^ 23 % 2 ^ 8
  let fraction := x % 2 ^ 23
  if exponent = 255 then
    if fraction = 0 then sign * 2 ^ 63 + 0x7FF0000000000000
    else sign * 2 ^ 63 + 0x7FF8000000000000 + fraction % 2 ^ 22 * 2 ^ 29
  else if exponent = 0 then
    if fraction = 0 then sign * 2 ^ 63
    else
      let k := highest_bit 23 fraction
      sign * 2 ^ 63 + (k + 874) * 2 ^ 52 + (fraction - 2 ^ k) * 2 ^ (52 - k)
  else sign * 2 ^ 63 + (exponent + 896) * 2 ^ 52 + fraction * 2 ^ 29

/-- The quotient `significand / 2 ^ shift` rounded to the nearest integer, ties to even. -/
def round_shift (significand shift : Nat) : Nat :=
  let quotient := significand / 2 ^ shift
  let remainder := significand % 2 ^ shift
  if 2 ^ shift < 2 * remainder ∨ (2 * remainder = 2 ^ shift ∧ quotient % 2 = 1) then
    quotient + 1
  else quotient

/-- The conversion `(float)` of a `double`, rounding to nearest, ties to even. A NaN keeps
its sign and the upper 22 payload bits and comes out quiet (bit 22 set); a zero or subnormal
double gives a zero; a normal double with biased exponent `e` is rounded to 24 significant
bits (`shift = 29`) or, below the normal range of `float`, to a multiple of `2 ^ (-149)`
(`shift = 926 - e`), and a magnitude that reaches `2 ^ 128` gives an infinity. -/
def f64_to_f32 (d : f64) : f32 :=
  let sign := d / 2 ^ 63 % 2
  let exponent := d / 2 ^ 52 % 2 ^ 11
  let fraction := d % 2 ^ 52
  if exponent = 2047 then
    if fraction = 0 then sign * 2 ^ 31 + 0x7F800000
    else sign * 2 ^ 31 + 0x7FC00000 + fraction / 2 ^ 29 % 2 ^ 22
  else if exponent = 0 then sign * 2 ^ 31
  else
    let shift := max 29 (926 - exponent)
    let magnitude := (exponent - 897) * 2 ^ 23 + round_shift (2 ^ 52 + fraction) shift
    sign * 2 ^ 31 + min magnitude 0x7F800000

/-- A `toml::node`: a string, integer (`int64_t`), floating-point or boolean value, an array
or a table (its key/value pairs). -/
inductive toml.node where
  | string (s : String)
  | integer (i : Int)
  | floating_point (d : f64)
  | boolean (b : Bool)
  | array (elems : List toml.node)
  | table (entries : List (String × toml.node))

/-- How a call fails to return: a null pointer is dereferenced, `std::stoull` throws
`std::invalid_argument` or `std::out_of_range`, or `registry.emplace` is called for a
component the entity already has (an assertion of the registry). -/
inductive Fault where
  | null_dereference
  | invalid_argument
  | out_of_range
  | emplace_existing
deriving DecidableEq, Repr

/-- Dereference of a pointer (`none` is `nullptr`). -/
def deref {α : Type} : Option α → Except Fault α
  | some a => .ok a
  | none => .error .null_dereference

/-- The accessor `node::as_table()`: the table, or `nullptr`. -/
def toml.node.as_table : toml.node → Option (List (String × toml.node))
  | .table entries => some entries
  | _ => none

/-- The accessor `node::as_array()`. -/
def toml.node.as_array : toml.node → Option (List toml.node)
  | .array elems => some elems
  | _ => none

/-- The accessor `node::as_string()`, followed by `get()`. -/
def toml.node.as_string : toml.node → Option String
  | .string s => some s
  | _ => none

/-- The accessor `node::as_integer()`, followed by `get()`. -/
def toml.node.as_integer : toml.node → Option Int
  | .integer i => some i
  | _ => none

/-- The accessor `node::as_floating_point()`, followed by `get()`. -/
def toml.node.as_floating_point : toml.node → Option f64
  | .floating_point d => some d
  | _ => none

/-- The accessor `node::as_boolean()`, followed by `get()`. -/
def toml.node.as_boolean : toml.node → Option Bool
  | .boolean b => some b
  | _ => none

/-- The lookup `table::get(key)`: the node stored under `key`, or `nullptr`. -/
def toml.table_get : List (String × toml.node) → String → Option toml.node
  | [], _ => none
  | (k, v) :: rest, key => if k = key then some v else toml.table_get rest key

/-- The lookup `array::get(index)`: the element, or `nullptr` when out of range. -/
def toml.array_get : List toml.node → Nat → Option toml.node
  | [], _ => none
  | n :: _, 0 => some n
  | _ :: rest, i + 1 => toml.array_get rest i

/-- The macro `GET_STRING(node, name)`. -/
def GET_STRING (node : toml.node) (name : String) : Except Fault String := do
  let t ← deref node.as_table
  let v ← deref (toml.table_get t name)
  deref v.as_string

/-- The macro `GET_FLOAT(node, name)`, with its `(float)` cast. -/
def GET_FLOAT (node : toml.node) (name : String) : Except Fault f32 := do
  let t ← deref node.as_table
  let v ← deref (toml.table_get t name)
  let d ← deref v.as_floating_point
  pure (f64_to_f32 d)

/-- The conversion `(uint32_t)` of an `int64_t`. -/
def uint32_of_int64 (i : Int) : Nat := (i % 2 ^ 32).toNat

/-- The conversion of a `uint32_t` to an enumeration with underlying type `int`. -/
def int32_of_uint32 (u : Nat) : Int := if u % 2 ^ 32 < 2 ^ 31 then u % 2 ^ 32 else u % 2 ^ 32 - 2 ^ 32

/-- The macro `GET_UINT32(node, name)`, with its `(uint32_t)` cast. -/
def GET_UINT32 (node : toml.node) (name : String) : Except Fault Nat := do
  let t ← deref node.as_table
  let v ← deref (toml.table_get t name)
  let i ← deref v.as_integer
  pure (uint32_of_int64 i)

/-- The macro `GET_BOOL(node, name)`. -/
def GET_BOOL (node : toml.node) (name : String) : Except Fault Bool := do
  let t ← deref node.as_table
  let v ← deref (toml.table_get t name)
  deref v.as_boolean

/-- The macro `GET_ARRAY(node, name)`: a `toml::array*`, null when the node is not an array. -/
def GET_ARRAY (node : toml.node) (name : String) : Except Fault (Option (List toml.node)) := do
  let t ← deref node.as_table
  let v ← deref (toml.table_get t name)
  pure v.as_array

/-! ## `std::to_string` and `std::stoull` -/

/-- The character of the decimal digit `d`. -/
def digit_char (d : Nat) : Char := Char.ofNat (48 + d)

/-- The decimal digits of `n`, most significant first; `fuel` bounds their number. -/
def decimal_digits : Nat → Nat → List Char
  | 0, _ => []
  | fuel + 1, n =>
    if n < 10 then [digit_char n] else decimal_digits fuel (n / 10) ++ [digit_char (n % 10)]

/-- The function `std::to_string` on a `uint64_t`: decimal, no sign, no leading zeros. A
64-bit value has at most 20 digits. -/
def std_to_string (n : Nat) : String := String.mk (decimal_digits 20 n)

/-- Whitespace as `isspace` sees it in the C locale. -/
def is_space (c : Char) : Bool := c.toNat = 32 || (9 ≤ c.toNat && c.toNat ≤ 13)

/-- A decimal digit. -/
def is_digit (c : Char) : Bool := 48 ≤ c.toNat && c.toNat ≤ 57

/-- The value of a run of decimal digits. -/
def digits_value (ds : List Char) : Nat := ds.foldl (fun acc c => acc * 10 + (c.toNat - 48)) 0

/-- The function `std::stoull(str)` (base 10): leading whitespace is skipped, an optional
sign is read, then the longest run of digits. No digit: `std::invalid_argument`; a value
above `ULLONG_MAX`: `std::out_of_range`; a minus sign negates in `unsigned long long`. -/
def std_stoull (str : String) : Except Fault Nat :=
  let cs := str.data.dropWhile is_space
  let signed : Bool × List Char :=
    match cs with
    | [] => (false, [])
    | c :: rest =>
      if c.toNat = 43 then (false, rest) else if c.toNat = 45 then (true, rest) else (false, c :: rest)
  let ds := signed.2.takeWhile is_digit
  if ds.isEmpty then .error .invalid_argument
  else if 2 ^ 64 ≤ digits_value ds then .error .out_of_range
  else .ok (if signed.1 then (2 ^ 64 - digits_value ds) % 2 ^ 64 else digits_value ds)

/-! ## Code that `EntitySerializer.cpp` calls and that lies outside the sources at hand -/

/-- The helpers `get_toml_array(const Vec3&)` (returns a `toml::array`),
`get_vec3_toml_array(toml::array*)` (returns a `Vec3`; its argument may be null),
`App::get_relative` and `App::get_absolute`. They are taken as parameters. -/
structure Externals where
  get_toml_array : Vec3 → List toml.node
  get_vec3_toml_array : Option (List toml.node) → Except Fault Vec3
  get_relative : String → String
  get_absolute : String → String

/-- The part of `Scene` that `deserialize_entity` uses: the methods `create_entity(name)` and
`create_entity_with_uuid(uuid, name)`, each given by the entity it creates in the registry. -/
structure Scene where
  create_entity : String → Entity
  create_entity_with_uuid : Nat → String → Entity

/-- The new entities of the scene carry none of the components that `deserialize_entity`
adds with `registry.emplace`, and a relationship component of a new entity has no children. -/
def Scene.creates_plain (sc : Scene) : Prop :=
  ∀ e : Entity, ((∃ name, e = sc.create_entity name) ∨
      (∃ uuid name, e = sc.create_entity_with_uuid uuid name)) →
    e.mesh = none ∧ e.light = none ∧ e.sky_light = none ∧ e.post_process_probe = none ∧
    e.camera = none ∧ e.rigidbody = none ∧ e.box_collider = none ∧ e.sphere_collider = none ∧
    e.capsule_collider = none ∧ e.tapered_capsule_collider = none ∧
    e.cylinder_collider = none ∧ e.mesh_collider = none ∧ e.character_controller = none ∧
    e.lua_script = none ∧ (∀ rc, e.relationship = some rc → rc.children = [])

/-- A reference instance of the external helpers: a `Vec3` is stored as the array of its three
components, each widened to `double`, and read back with the `(float)` cast; paths are kept
as they are. -/
def Externals.reference : Externals where
  get_toml_array := fun v =>
    [.floating_point (f32_to_f64 v.x), .floating_point (f32_to_f64 v.y),
     .floating_point (f32_to_f64 v.z)]
  get_vec3_toml_array := fun a => do
    let elems ← deref a
    let x ← deref ((← deref (toml.array_get elems 0)).as_floating_point)
    let y ← deref ((← deref (toml.array_get elems 1)).as_floating_point)
    let z ← deref ((← deref (toml.array_get elems 2)).as_floating_point)
    pure { x := f64_to_f32 x, y := f64_to_f32 y, z := f64_to_f32 z }
  get_relative := fun path => path
  get_absolute := fun path => path

/-- A reference scene: a new entity has the given UUID (`0` when none is given) and an empty
tag, relationship and transform component. -/
def Scene.reference : Scene where
  create_entity := fun name =>
    { uuid := 0, tag := some { tag := name, enabled := true },
      relationship := some { parent := 0, children := [] },
      transform := some { position := ⟨0, 0, 0⟩, rotation := ⟨0, 0, 0⟩,
                          scale := ⟨0x3F800000, 0x3F800000, 0x3F800000⟩ },
      mesh := none, light := none, sky_light := none, post_process_probe := none,
      camera := none, rigidbody := none, box_collider := none, sphere_collider := none,
      capsule_collider := none, tapered_capsule_collider := none, cylinder_collider := none,
      mesh_collider := none, character_controller := none, lua_script := none }
  create_entity_with_uuid := fun uuid name =>
    { uuid := uuid, tag := some { tag := name, enabled := true },
      relationship := some { parent := 0, children := [] },
      transform := some { position := ⟨0, 0, 0⟩, rotation := ⟨0, 0, 0⟩,
                          scale := ⟨0x3F800000, 0x3F800000, 0x3F800000⟩ },
      mesh := none, light := none, sky_light := none, post_process_probe := none,
      camera := none, rigidbody := none, box_collider := none, sphere_collider := none,
      capsule_collider := none, tapered_capsule_collider := none, cylinder_collider := none,
      mesh_collider := none, character_controller := none, lua_script := none }

/-! ## `EntitySerializer::serialize_entity` -/

/-- A `float` member stored in a table: toml++ widens it to `double`. -/
def toml_float (x : f32) : toml.node := .floating_point (f32_to_f64 x)

/-- A `uint32_t` member stored in a table: toml++ stores it as an `int64_t`. -/
def toml_uint32 (n : Nat) : toml.node := .integer (Int.ofNat n)

/-- The statement `entities->push_back(toml::table{{key, table}})`. -/
def push_component (entities : List toml.node) (key : String)
    (table : List (String × toml.node)) : List toml.node :=
  entities ++ [.table [(key, .table table)]]

/-- The table built for a `TagComponent`. -/
def tag_component_table (tag : TagComponent) : List (String × toml.node) :=
  [("tag", .string tag.tag), ("enabled", .boolean tag.enabled)]

/-- The table built for a `RelationshipComponent`. -/
def relationship_component_table (rc : RelationshipComponent) : List (String × toml.node) :=
  [("parent", .string (std_to_string rc.parent)),
   ("children", .array (rc.children.map (fun child => .string (std_to_string child))))]

/-- The table built for a `TransformComponent`. -/
def transform_component_table (X : Externals) (tc : TransformComponent) :
    List (String × toml.node) :=
  [("position", .array (X.get_toml_array tc.position)),
   ("rotation", .array (X.get_toml_array tc.rotation)),
   ("scale", .array (X.get_toml_array tc.scale))]

/-- The table built for a `MeshComponent`. -/
def mesh_component_table (X : Externals) (mrc : MeshComponent) : List (String × toml.node) :=
  [("mesh_path", .string (X.get_relative mrc.mesh_base)),
   ("node_index", toml_uint32 mrc.node_index),
   ("cast_shadows", .boolean mrc.cast_shadows)]

/-- The table built for a `LightComponent`. -/
def light_component_table (X : Externals) (light : LightComponent) :
    List (String × toml.node) :=
  [("type", .integer light.type),
   ("color_temperature_mode", .boolean light.color_temperature_mode),
   ("temperature", toml_uint32 light.temperature),
   ("color", .array (X.get_toml_array light.color)),
   ("intensity", toml_float light.intensity),
   ("range", toml_float light.range),
   ("cut_off_angle", toml_float light.cut_off_angle),
   ("outer_cut_off_angle", toml_float light.outer_cut_off_angle),
   ("cast_shadows", .boolean light.cast_shadows),
   ("shadow_quality", .integer light.shadow_quality)]

/-- The table built for a `SkyLightComponent`. -/
def sky_light_component_table (X : Externals) (light : SkyLightComponent) :
    List (String × toml.node) :=
  [("cubemap_path", .string (match light.cubemap with
      | some path => X.get_relative path
      | none => "")),
   ("intensity", toml_float light.intensity),
   ("rotation", toml_float light.rotation),
   ("lod_bias", toml_float light.lod_bias)]

/-- The table built for a `PostProcessProbe`. -/
def post_process_probe_table (probe : PostProcessProbe) : List (String × toml.node) :=
  [("vignette_enabled", .boolean probe.vignette_enabled),
   ("vignette_intensity", toml_float probe.vignette_intensity),
   ("film_grain_enabled", .boolean probe.film_grain_enabled),
   ("film_grain_intensity", toml_float probe.film_grain_intensity),
   ("chromatic_aberration_enabled", .boolean probe.chromatic_aberration_enabled),
   ("chromatic_aberration_intensity", toml_float probe.chromatic_aberration_intensity),
   ("sharpen_enabled", .boolean probe.sharpen_enabled),
   ("sharpen_intensity", toml_float probe.sharpen_intensity)]

/-- The table built for a `CameraComponent`. -/
def camera_component_table (camera : CameraComponent) : List (String × toml.node) :=
  [("fov", toml_float camera.fov), ("near", toml_float camera.near),
   ("far", toml_float camera.far)]

/-- The table built for a `RigidbodyComponent`. -/
def rigidbody_component_table (rb : RigidbodyComponent) : List (String × toml.node) :=
  [("type", .integer rb.type),
   ("mass", toml_float rb.mass),
   ("linear_drag", toml_float rb.linear_drag),
   ("angular_drag", toml_float rb.angular_drag),
   ("gravity_scale", toml_float rb.gravity_scale),
   ("allow_sleep", .boolean rb.allow_sleep),
   ("awake", .boolean rb.awake),
   ("continuous", .boolean rb.continuous),
   ("interpolation", .boolean rb.interpolation),
   ("is_sensor", .boolean rb.is_sensor)]

/-- The table built for a `BoxColliderComponent`. -/
def box_collider_component_table (X : Externals) (bc : BoxColliderComponent) :
    List (String × toml.node) :=
  [("size", .array (X.get_toml_array bc.size)),
   ("offset", .array (X.get_toml_array bc.offset)),
   ("density", toml_float bc.density),
   ("friction", toml_float bc.friction),
   ("restitution", toml_float bc.restitution)]

/-- The table built for a `SphereColliderComponent`. -/
def sphere_collider_component_table (X : Externals) (sc : SphereColliderComponent) :
    List (String × toml.node) :=
  [("radius", toml_float sc.radius),
   ("offset", .array (X.get_toml_array sc.offset)),
   ("density", toml_float sc.density),
   ("friction", toml_float sc.friction),
   ("restitution", toml_float sc.restitution)]

/-- The table built for a `CapsuleColliderComponent`. -/
def capsule_collider_component_table (X : Externals) (cc : CapsuleColliderComponent) :
    List (String × toml.node) :=
  [("height", toml_float cc.height),
   ("radius", toml_float cc.radius),
   ("offset", .array (X.get_toml_array cc.offset)),
   ("density", toml_float cc.density),
   ("friction", toml_float cc.friction),
   ("restitution", toml_float cc.restitution)]

/-- The table built for a `TaperedCapsuleColliderComponent`. -/
def tapered_capsule_collider_component_table (X : Externals)
    (tcc : TaperedCapsuleColliderComponent) : List (String × toml.node) :=
  [("height", toml_float tcc.height),
   ("top_radius", toml_float tcc.top_radius),
   ("offset", .array (X.get_toml_array tcc.offset)),
   ("density", toml_float tcc.density),
   ("friction", toml_float tcc.friction),
   ("restitution", toml_float tcc.restitution)]

/-- The table built for a `CylinderColliderComponent`. -/
def cylinder_collider_component_table (X : Externals) (cc : CylinderColliderComponent) :
    List (String × toml.node) :=
  [("height", toml_float cc.height),
   ("radius", toml_float cc.radius),
   ("offset", .array (X.get_toml_array cc.offset)),
   ("density", toml_float cc.density),
   ("friction", toml_float cc.friction),
   ("restitution", toml_float cc.restitution)]

/-- The table built for a `MeshColliderComponent`. -/
def mesh_collider_component_table (X : Externals) (mc : MeshColliderComponent) :
    List (String × toml.node) :=
  [("offset", .array (X.get_toml_array mc.offset)),
   ("friction", toml_float mc.friction),
   ("restitution", toml_float mc.restitution)]

/-- The table built for a `CharacterControllerComponent`. -/
def character_controller_component_table (component : CharacterControllerComponent) :
    List (String × toml.node) :=
  [("character_height_standing", toml_float component.character_height_standing),
   ("character_radius_standing", toml_float component.character_radius_standing),
   ("character_radius_crouching", toml_float component.character_radius_crouching),
   ("character_height_crouching", toml_float component.character_height_crouching),
   ("control_movement_during_jump", .boolean component.control_movement_during_jump),
   ("jump_force", toml_float component.jump_force),
   ("friction", toml_float component.friction),
   ("collision_tolerance", toml_float component.collision_tolerance)]

/-- The statement `if (registry.all_of<C>(entity)) entities->push_back(...)` for one component
type: the table is appended when the entity has the component. -/
def push_if_present {C : Type} (entities : List toml.node) (component : Option C) (key : String)
    (table : C → List (String × toml.node)) : List toml.node :=
  match component with
  | some c => push_component entities key (table c)
  | none => entities

/-- The function `EntitySerializer::serialize_entity(entities, scene, entity)`: the array
`entities` after the call. It fails only where the source dereferences the script pointer of
a `LuaScriptComponent`. -/
def serialize_entity (X : Externals) (entities : List toml.node) (entity : Entity) :
    Except Fault (List toml.node) := do
  let entities := entities ++ [.table [("uuid", .string (std_to_string entity.uuid))]]
  let entities := push_if_present entities entity.tag "tag_component" tag_component_table
  let entities := push_if_present entities entity.relationship "relationship_component"
    relationship_component_table
  let entities := push_if_present entities entity.transform "transform_component"
    (transform_component_table X)
  let entities := push_if_present entities entity.mesh "mesh_component" (mesh_component_table X)
  let entities := push_if_present entities entity.light "light_component"
    (light_component_table X)
  let entities := push_if_present entities entity.sky_light "sky_light_component"
    (sky_light_component_table X)
  let entities := push_if_present entities entity.post_process_probe "post_process_probe"
    post_process_probe_table
  let entities := push_if_present entities entity.camera "camera_component"
    camera_component_table
  let entities := push_if_present entities entity.rigidbody "rigidbody_component"
    rigidbody_component_table
  let entities := push_if_present entities entity.box_collider "box_collider_component"
    (box_collider_component_table X)
  let entities := push_if_present entities entity.sphere_collider "sphere_collider_component"
    (sphere_collider_component_table X)
  let entities := push_if_present entities entity.capsule_collider "capsule_collider_component"
    (capsule_collider_component_table X)
  let entities := push_if_present entities entity.tapered_capsule_collider
    "tapered_capsule_collider_component" (tapered_capsule_collider_component_table X)
  let entities := push_if_present entities entity.cylinder_collider
    "cylinder_collider_component" (cylinder_collider_component_table X)
  let entities := push_if_present entities entity.mesh_collider "mesh_collider_component"
    (mesh_collider_component_table X)
  let entities := push_if_present entities entity.character_controller
    "character_controller_component" character_controller_component_table
  match entity.lua_script with
  | some component =>
    let system ← deref component.lua_system
    pure (push_component entities "lua_script_component"
      [("path", .string (X.get_relative system))])
  | none => pure entities

/-! ## `EntitySerializer::deserialize_entity` -/

/-- The statement `registry.emplace<C>(entity)`: the registry asserts that the entity does not
have a `C` yet. -/
def emplace_check {C : Type} (component : Option C) : Except Fault Unit :=
  match component with
  | none => .ok ()
  | some _ => .error .emplace_existing

/-- The `relationship_component` branch; `rc` is the component that
`get_or_emplace<RelationshipComponent>` returned. -/
def read_relationship_component (rc : RelationshipComponent) (relation_node : toml.node) :
    Except Fault RelationshipComponent := do
  let parent ← std_stoull (← GET_STRING relation_node "parent")
  let children_node ← deref (← GET_ARRAY relation_node "children")
  let children ← children_node.mapM (fun child => do std_stoull (← deref child.as_string))
  pure { parent := parent, children := rc.children ++ children }

/-- The `transform_component` branch. -/
def read_transform_component (X : Externals) (transform_node : toml.node) :
    Except Fault TransformComponent := do
  let position ← X.get_vec3_toml_array (← GET_ARRAY transform_node "position")
  let rotation ← X.get_vec3_toml_array (← GET_ARRAY transform_node "rotation")
  let scale ← X.get_vec3_toml_array (← GET_ARRAY transform_node "scale")
  pure { position := position, rotation := rotation, scale := scale }

/-- The `mesh_component` branch. -/
def read_mesh_component (X : Externals) (existing : Option MeshComponent)
    (mesh_node : toml.node) : Except Fault MeshComponent := do
  let path := X.get_absolute (← GET_STRING mesh_node "mesh_path")
  emplace_check existing
  let node_index ← GET_UINT32 mesh_node "node_index"
  let cast_shadows ← GET_BOOL mesh_node "cast_shadows"
  pure { mesh_base := path, node_index := node_index, cast_shadows := cast_shadows }

/-- The `light_component` branch. -/
def read_light_component (X : Externals) (existing : Option LightComponent)
    (light_node : toml.node) : Except Fault LightComponent := do
  emplace_check existing
  let type := int32_of_uint32 (← GET_UINT32 light_node "type")
  let color_temperature_mode ← GET_BOOL light_node "color_temperature_mode"
  let temperature ← GET_UINT32 light_node "temperature"
  let color ← X.get_vec3_toml_array (← GET_ARRAY light_node "color")
  let intensity ← GET_FLOAT light_node "intensity"
  let range ← GET_FLOAT light_node "range"
  let cut_off_angle ← GET_FLOAT light_node "cut_off_angle"
  let outer_cut_off_angle ← GET_FLOAT light_node "outer_cut_off_angle"
  let cast_shadows ← GET_BOOL light_node "cast_shadows"
  let shadow_quality := int32_of_uint32 (← GET_UINT32 light_node "shadow_quality")
  pure { type := type, color_temperature_mode := color_temperature_mode,
         temperature := temperature, color := color, intensity := intensity, range := range,
         cut_off_angle := cut_off_angle, outer_cut_off_angle := outer_cut_off_angle,
         cast_shadows := cast_shadows, shadow_quality := shadow_quality }

/-- The `sky_light_component` branch. -/
def read_sky_light_component (X : Externals) (existing : Option SkyLightComponent)
    (sky_node : toml.node) : Except Fault SkyLightComponent := do
  emplace_check existing
  let path := X.get_absolute (← GET_STRING sky_node "path")
  let rotation ← GET_FLOAT sky_node "rotation"
  let intensity ← GET_FLOAT sky_node "intensity"
  let lod_bias ← GET_FLOAT sky_node "lod_bias"
  pure { cubemap := some path, intensity := intensity, rotation := rotation,
         lod_bias := lod_bias }

/-- The `post_process_probe` branch. -/
def read_post_process_probe (existing : Option PostProcessProbe) (pp_node : toml.node) :
    Except Fault PostProcessProbe := do
  emplace_check existing
  let vignette_enabled ← GET_BOOL pp_node "vignette_enabled"
  let vignette_intensity ← GET_FLOAT pp_node "vignette_intensity"
  let film_grain_enabled ← GET_BOOL pp_node "film_grain_enabled"
  let film_grain_intensity ← GET_FLOAT pp_node "film_grain_intensity"
  let chromatic_aberration_enabled ← GET_BOOL pp_node "chromatic_aberration_enabled"
  let chromatic_aberration_intensity ← GET_FLOAT pp_node "chromatic_aberration_intensity"
  let sharpen_enabled ← GET_BOOL pp_node "sharpen_enabled"
  let sharpen_intensity ← GET_FLOAT pp_node "sharpen_intensity"
  pure { vignette_enabled := vignette_enabled, vignette_intensity := vignette_intensity,
         film_grain_enabled := film_grain_enabled, film_grain_intensity := film_grain_intensity,
         chromatic_aberration_enabled := chromatic_aberration_enabled,
         chromatic_aberration_intensity := chromatic_aberration_intensity,
         sharpen_enabled := sharpen_enabled, sharpen_intensity := sharpen_intensity }

/-- The `camera_component` branch. -/
def read_camera_component (existing : Option CameraComponent) (camera_node : toml.node) :
    Except Fault CameraComponent := do
  emplace_check existing
  let fov ← GET_FLOAT camera_node "fov"
  let near ← GET_FLOAT camera_node "near"
  let far ← GET_FLOAT camera_node "far"
  pure { fov := fov, near := near, far := far }

/-- The `rigidbody_component` branch. -/
def read_rigidbody_component (existing : Option RigidbodyComponent) (rb_node : toml.node) :
    Except Fault RigidbodyComponent := do
  emplace_check existing
  let type := int32_of_uint32 (← GET_UINT32 rb_node "type")
  let mass ← GET_FLOAT rb_node "mass"
  let linear_drag ← GET_FLOAT rb_node "linear_drag"
  let angular_drag ← GET_FLOAT rb_node "angular_drag"
  let gravity_scale ← GET_FLOAT rb_node "gravity_scale"
  let allow_sleep ← GET_BOOL rb_node "allow_sleep"
  let awake ← GET_BOOL rb_node "awake"
  let continuous ← GET_BOOL rb_node "continuous"
  let interpolation ← GET_BOOL rb_node "interpolation"
  let is_sensor ← GET_BOOL rb_node "is_sensor"
  pure { type := type, mass := mass, linear_drag := linear_drag, angular_drag := angular_drag,
         gravity_scale := gravity_scale, allow_sleep := allow_sleep, awake := awake,
         continuous := continuous, interpolation := interpolation, is_sensor := is_sensor }

/-- The `box_collider_component` branch. -/
def read_box_collider_component (X : Externals) (existing : Option BoxColliderComponent)
    (bc_node : toml.node) : Except Fault BoxColliderComponent := do
  emplace_check existing
  let size ← X.get_vec3_toml_array (← GET_ARRAY bc_node "size")
  let offset ← X.get_vec3_toml_array (← GET_ARRAY bc_node "offset")
  let density ← GET_FLOAT bc_node "density"
  let friction ← GET_FLOAT bc_node "friction"
  let restitution ← GET_FLOAT bc_node "restitution"
  pure { size := size, offset := offset, density := density, friction := friction,
         restitution := restitution }

/-- The `sphere_collider_component` branch. -/
def read_sphere_collider_component (X : Externals) (existing : Option SphereColliderComponent)
    (sc_node : toml.node) : Except Fault SphereColliderComponent := do
  emplace_check existing
  let radius ← GET_FLOAT sc_node "radius"
  let offset ← X.get_vec3_toml_array (← GET_ARRAY sc_node "offset")
  let density ← GET_FLOAT sc_node "density"
  let friction ← GET_FLOAT sc_node "friction"
  let restitution ← GET_FLOAT sc_node "restitution"
  pure { radius := radius, offset := offset, density := density, friction := friction,
         restitution := restitution }

/-- The `capsule_collider_component` branch. -/
def read_capsule_collider_component (X : Externals)
    (existing : Option CapsuleColliderComponent) (cc_node : toml.node) :
    Except Fault CapsuleColliderComponent := do
  emplace_check existing
  let height ← GET_FLOAT cc_node "height"
  let radius ← GET_FLOAT cc_node "radius"
  let offset ← X.get_vec3_toml_array (← GET_ARRAY cc_node "offset")
  let density ← GET_FLOAT cc_node "density"
  let friction ← GET_FLOAT cc_node "friction"
  let restitution ← GET_FLOAT cc_node "restitution"
  pure { height := height, radius := radius, offset := offset, density := density,
         friction := friction, restitution := restitution }

/-- The `tapered_capsule_collider_component` branch. -/
def read_tapered_capsule_collider_component (X : Externals)
    (existing : Option TaperedCapsuleColliderComponent) (tcc_node : toml.node) :
    Except Fault TaperedCapsuleColliderComponent := do
  emplace_check existing
  let height ← GET_FLOAT tcc_node "height"
  let top_radius ← GET_FLOAT tcc_node "radius"
  let bottom_radius ← GET_FLOAT tcc_node "radius"
  let offset ← X.get_vec3_toml_array (← GET_ARRAY tcc_node "offset")
  let density ← GET_FLOAT tcc_node "density"
  let friction ← GET_FLOAT tcc_node "friction"
  let restitution ← GET_FLOAT tcc_node "restitution"
  pure { height := height, top_radius := top_radius, bottom_radius := bottom_radius,
         offset := offset, density := density, friction := friction,
         restitution := restitution }

/-- The `cylinder_collider_component` branch. -/
def read_cylinder_collider_component (X : Externals)
    (existing : Option CylinderColliderComponent) (ccc_node : toml.node) :
    Except Fault CylinderColliderComponent := do
  emplace_check existing
  let height ← GET_FLOAT ccc_node "height"
  let radius ← GET_FLOAT ccc_node "radius"
  let offset ← X.get_vec3_toml_array (← GET_ARRAY ccc_node "offset")
  let density ← GET_FLOAT ccc_node "density"
  let friction ← GET_FLOAT ccc_node "friction"
  let restitution ← GET_FLOAT ccc_node "restitution"
  pure { height := height, radius := radius, offset := offset, density := density,
         friction := friction, restitution := restitution }

/-- The `mesh_collider_component` branch. -/
def read_mesh_collider_component (X : Externals) (existing : Option MeshColliderComponent)
    (mc_node : toml.node) : Except Fault MeshColliderComponent := do
  emplace_check existing
  let offset ← X.get_vec3_toml_array (← GET_ARRAY mc_node "offset")
  let friction ← GET_FLOAT mc_node "friction"
  let restitution ← GET_FLOAT mc_node "restitution"
  pure { offset := offset, friction := friction, restitution := restitution }

/-- The `character_controller_component` branch. -/
def read_character_controller_component (existing : Option CharacterControllerComponent)
    (chc_node : toml.node) : Except Fault CharacterControllerComponent := do
  emplace_check existing
  let character_height_standing ← GET_FLOAT chc_node "character_height_standing"
  let character_radius_standing ← GET_FLOAT chc_node "character_radius_standing"
  let character_height_crouching ← GET_FLOAT chc_node "character_height_crouching"
  let character_radius_crouching ← GET_FLOAT chc_node "character_radius_crouching"
  let control_movement_during_jump ← GET_BOOL chc_node "control_movement_during_jump"
  let jump_force ← GET_FLOAT chc_node "jump_force"
  let friction ← GET_FLOAT chc_node "friction"
  let collision_tolerance ← GET_FLOAT chc_node "collision_tolerance"
  pure { character_height_standing := character_height_standing,
         character_radius_standing := character_radius_standing,
         character_height_crouching := character_height_crouching,
         character_radius_crouching := character_radius_crouching,
         control_movement_during_jump := control_movement_during_jump,
         jump_force := jump_force, friction := friction,
         collision_tolerance := collision_tolerance }

/-- The `lua_script_component` branch. -/
def read_lua_script_component (X : Externals) (existing : Option LuaScriptComponent)
    (lua_node : toml.node) : Except Fault LuaScriptComponent := do
  emplace_check existing
  let path := X.get_absolute (← GET_STRING lua_node "path")
  pure { lua_system := if path.isEmpty then none else some path }

/-- The body of the loop `for (auto& ent : *entity_arr)` of `deserialize_entity`: the chain of
`if`/`else if` on the key that the table `ent` holds, applied to the entity `d` under
construction. -/
def deserialize_component (X : Externals) (d : Entity) (ent : toml.node) :
    Except Fault Entity := do
  let t ← deref ent.as_table
  if let some relation_node := toml.table_get t "relationship_component" then
    let rc ← read_relationship_component
      (d.relationship.getD { parent := 0, children := [] }) relation_node
    pure { d with relationship := some rc }
  else if let some transform_node := toml.table_get t "transform_component" then
    let tc ← read_transform_component X transform_node
    pure { d with transform := some tc }
  else if let some mesh_node := toml.table_get t "mesh_component" then
    let mc ← read_mesh_component X d.mesh mesh_node
    pure { d with mesh := some mc }
  else if let some light_node := toml.table_get t "light_component" then
    let lc ← read_light_component X d.light light_node
    pure { d with light := some lc }
  else if let some sky_node := toml.table_get t "sky_light_component" then
    let sc ← read_sky_light_component X d.sky_light sky_node
    pure { d with sky_light := some sc }
  else if let some pp_node := toml.table_get t "post_process_probe" then
    let pp ← read_post_process_probe d.post_process_probe pp_node
    pure { d with post_process_probe := some pp }
  else if let some camera_node := toml.table_get t "camera_component" then
    let cc ← read_camera_component d.camera camera_node
    pure { d with camera := some cc }
  else if let some rb_node := toml.table_get t "rigidbody_component" then
    let rb ← read_rigidbody_component d.rigidbody rb_node
    pure { d with rigidbody := some rb }
  else if let some bc_node := toml.table_get t "box_collider_component" then
    let bc ← read_box_collider_component X d.box_collider bc_node
    pure { d with box_collider := some bc }
  else if let some sc_node := toml.table_get t "sphere_collider_component" then
    let sc ← read_sphere_collider_component X d.sphere_collider sc_node
    pure { d with sphere_collider := some sc }
  else if let some cc_node := toml.table_get t "capsule_collider_component" then
    let cc ← read_capsule_collider_component X d.capsule_collider cc_node
    pure { d with capsule_collider := some cc }
  else if let some tcc_node := toml.table_get t "tapered_capsule_collider_component" then
    let tcc ← read_tapered_capsule_collider_component X d.tapered_capsule_collider tcc_node
    pure { d with tapered_capsule_collider := some tcc }
  else if let some ccc_node := toml.table_get t "cylinder_collider_component" then
    let ccc ← read_cylinder_collider_component X d.cylinder_collider ccc_node
    pure { d with cylinder_collider := some ccc }
  else if let some mc_node := toml.table_get t "mesh_collider_component" then
    let mc ← read_mesh_collider_component X d.mesh_collider mc_node
    pure { d with mesh_collider := some mc }
  else if let some chc_node := toml.table_get t "character_controller_component" then
    let chc ← read_character_controller_component d.character_controller chc_node
    pure { d with character_controller := some chc }
  else if let some lua_node := toml.table_get t "lua_script_component" then
    let lsc ← read_lua_script_component X d.lua_script lua_node
    pure { d with lua_script := some lsc }
  else
    pure d

/-- The function `EntitySerializer::deserialize_entity(entity_arr, scene, preserve_uuid)`: the
entity it creates in the registry of `scene`, with the components it loads; the C++ function
returns the `uuid` of that entity. -/
def deserialize_entity (X : Externals) (scene : Scene) (entity_arr : List toml.node)
    (preserve_uuid : Bool) : Except Fault Entity := do
  let uuid_table ← deref (← deref (toml.array_get entity_arr 0)).as_table
  let uuid ← std_stoull (← deref (← deref (toml.table_get uuid_table "uuid")).as_string)
  let tag_table ← deref (← deref (toml.array_get entity_arr 1)).as_table
  let tag_node ← deref (← deref (toml.table_get tag_table "tag_component")).as_table
  let name ← deref (← deref (toml.table_get tag_node "tag")).as_string
  let deserialized_entity :=
    if preserve_uuid then scene.create_entity_with_uuid uuid name
    else scene.create_entity name
  let enabled ← deref (← deref (toml.table_get tag_node "enabled")).as_boolean
  let deserialized_entity :=
    { deserialized_entity with tag := some { tag := name, enabled := enabled } }
  entity_arr.foldlM (deserialize_component X) deserialized_entity

/-! ## `App`: the system registry -/

/-- Run-time type information that `App.hpp` relies on, taken as parameters. Types are named
by natural numbers; `hash_code T` is `typeid(T).hash_code()` (a `size_t`), `is_base_of B D`
says that `B` is a proper base class of `D`. -/
structure TypeInfo where
  hash_code : Nat → Nat
  is_base_of : Nat → Nat → Bool

/-- A system object (an `ESystem` or an object of a class derived from it), given by its
dynamic type. -/
structure ESystem where
  dynamic_type : Nat
deriving DecidableEq, Repr

/-- The type `SystemRegistry`, a hash map from `size_t` to `Shared<ESystem>`: the shared
pointer stored under a key (`none` inside for a null pointer), or `none` for an absent key. -/
abbrev SystemRegistry := Nat → Option (Option ESystem)

/-- The method `contains(key)` of the map. -/
def SystemRegistry.contains (r : SystemRegistry) (key : Nat) : Bool := (r key).isSome

/-- The method `emplace(key, value)` of the map: inserts unless the key is present. -/
def SystemRegistry.emplace (r : SystemRegistry) (key : Nat) (value : Option ESystem) :
    SystemRegistry :=
  if r.contains key then r else fun k => if k = key then some value else r k

/-- The method `erase(key)` of the map. -/
def SystemRegistry.erase (r : SystemRegistry) (key : Nat) : SystemRegistry :=
  fun k => if k = key then none else r k

/-- The result of `registry[key].get()`: the raw pointer stored under `key`, null when the key
is absent (a null pointer is then inserted) or the stored pointer is null. -/
def SystemRegistry.index_get (r : SystemRegistry) (key : Nat) : Option ESystem :=
  match r key with
  | some value => value
  | none => none

/-- The cast `dynamic_cast<T*>(p)`: `p` when it points to an object whose dynamic type is `T`
or derived from `T`, null otherwise. -/
def dynamic_cast (ti : TypeInfo) (T : Nat) (p : Option ESystem) : Option ESystem :=
  match p with
  | some s => if s.dynamic_type = T || ti.is_base_of T s.dynamic_type then some s else none
  | none => none

/-- The class `App`, restricted to its member `system_registry`. -/
structure App where
  system_registry : SystemRegistry

/-- The function `App::register_system<T>()`: `none` when `OX_ASSERT` fails, otherwise the
application with the system created by `create_shared<T>` emplaced under the key of `T`. -/
def App.register_system (ti : TypeInfo) (T : Nat) (app : App) : Option App :=
  let typeName := ti.hash_code T
  if app.system_registry.contains typeName then none
  else
    let system : Option ESystem := some { dynamic_type := T }
    some { app with system_registry := app.system_registry.emplace typeName system }

/-- The function `App::unregister_system<T>()`. -/
def App.unregister_system (ti : TypeInfo) (T : Nat) (app : App) : App :=
  let typeName := ti.hash_code T
  if app.system_registry.contains typeName then
    { app with system_registry := app.system_registry.erase typeName }
  else app

/-- The function `App::get_system<T>()`: the pointer it returns (`none` is `nullptr`). -/
def App.get_system (ti : TypeInfo) (T : Nat) (app : App) : Option ESystem :=
  let typeName := ti.hash_code T
  if app.system_registry.contains typeName then
    dynamic_cast ti T (app.system_registry.index_get typeName)
  else none

/-- The function `App::has_system<T>()`. -/
def App.has_system (ti : TypeInfo) (T : Nat) (app : App) : Bool :=
  app.system_registry.contains (ti.hash_code T)

/-! ## `AppCommandLineArgs` -/

/-- The struct `AppCommandLineArgs::Arg`; `arg_index` is a `uint32`. -/
structure AppCommandLineArgs.Arg where
  arg_str : String
  arg_index : Nat
deriving DecidableEq, Repr

/-- The struct `AppCommandLineArgs`: its vector `args`. -/
structure AppCommandLineArgs where
  args : List AppCommandLineArgs.Arg
deriving DecidableEq, Repr

/-- The constructor `AppCommandLineArgs(argc, argv)`: the loop
`for (int i = 0; i < argc; i++)` appends `Arg{argv[i], (uint32)i}`. The array `argv` is given
by the string at each index. -/
def AppCommandLineArgs.create (argc : Int) (argv : Nat → String) : AppCommandLineArgs :=
  { args := (List.range argc.toNat).map
      (fun i => { arg_str := argv i, arg_index := i % 2 ^ 32 }) }

/-- The loop of `AppCommandLineArgs::contains` over the remaining arguments. -/
def AppCommandLineArgs.contains_from : List AppCommandLineArgs.Arg → String → Bool
  | [], _ => false
  | a :: rest, arg => if a.arg_str = arg then true
      else AppCommandLineArgs.contains_from rest arg

/-- The method `AppCommandLineArgs::contains`. -/
def AppCommandLineArgs.contains (self : AppCommandLineArgs) (arg : String) : Bool :=
  AppCommandLineArgs.contains_from self.args arg

/-- The method `std::vector::at`: throws `std::out_of_range` for an index that is not below
the size. -/
def vector_at {α : Type} (v : List α) (index : Nat) : Except Fault α :=
  match v[index]? with
  | some a => .ok a
  | none => .error .out_of_range

/-- The method `AppCommandLineArgs::get`: the `try` block returns `args.at(index)`, the
handler `catch (std::exception&)` returns `std::nullopt`. An `.error` result would be an
exception that leaves the method. -/
def AppCommandLineArgs.get (self : AppCommandLineArgs) (index : Nat) :
    Except Fault (Option AppCommandLineArgs.Arg) :=
  match vector_at self.args index with
  | .ok a => .ok (some a)
  | .error _ => .ok none

/-- The loop of `AppCommandLineArgs::get_index` over the remaining arguments. -/
def AppCommandLineArgs.get_index_from : List AppCommandLineArgs.Arg → String → Option Nat
  | [], _ => none
  | a :: rest, arg => if a.arg_str = arg then some a.arg_index
      else AppCommandLineArgs.get_index_from rest arg

/-- The method `AppCommandLineArgs::get_index`. -/
def AppCommandLineArgs.get_index (self : AppCommandLineArgs) (arg : String) : Option Nat :=
  AppCommandLineArgs.get_index_from self.args arg

/-! ## `ox::math::smooth_damp` -/

/-- The function `glm::length2` on a vector with `n` components: the squared length. -/
def length2 {K : Type} [LinearOrderedField K] {n : Nat} (v : Fin n → K) : K :=
  Finset.univ.sum (fun i => v i * v i)

/-- The function `glm::compAdd`: the sum of the components. -/
def compAdd {K : Type} [LinearOrderedField K] {n : Nat} (v : Fin n → K) : K :=
  Finset.univ.sum (fun i => v i)

/-- The function template `ox::math::smooth_damp` for a vector type `T` with `n` components,
in exact arithmetic over an ordered field `K`; `sqrt` stands for `glm::sqrt`. The result is
the returned vector together with the final value of the reference parameter
`current_velocity`. -/
def smooth_damp {K : Type} [LinearOrderedField K] {n : Nat} (sqrt : K → K)
    (current target current_velocity : Fin n → K) (smooth_time max_speed delta_time : K) :
    (Fin n → K) × (Fin n → K) :=
  let smooth_time := max (1 / 10000) smooth_time
  let omega := 2 / smooth_time
  let x := omega * delta_time
  let exp := 1 / (1 + x + 48 / 100 * x * x + 235 / 1000 * x * x * x)
  let change : Fin n → K := fun i => current i - target i
  let original_to := target
  let max_change := max_speed * smooth_time
  let max_change_sq := max_change * max_change
  let sq_dist := length2 change
  let change : Fin n → K :=
    if sq_dist > max_change_sq then fun i => change i / sqrt sq_dist * max_change else change
  let new_target : Fin n → K := fun i => current i - change i
  let temp : Fin n → K := fun i => (current_velocity i + omega * change i) * delta_time
  let current_velocity : Fin n → K := fun i => (current_velocity i - omega * temp i) * exp
  let output : Fin n → K := fun i => new_target i + (change i + temp i) * exp
  let orig_minus_current : Fin n → K := fun i => original_to i - current i
  let out_minus_orig : Fin n → K := fun i => output i - original_to i
  if compAdd (fun i => orig_minus_current i * out_minus_orig i) > 0 then
    let output := original_to
    (output, fun i => (output i - original_to i) / delta_time)
  else (output, current_velocity)

/-! ## `DefaultRenderPipeline::CameraData` and the camera history -/

/-- The vector type `Vec2`. -/
structure Vec2 where
  x : f32
  y : f32
deriving DecidableEq, Repr

/-- The vector type `Vec4`. -/
structure Vec4 where
  x : f32
  y : f32
  z : f32
  w : f32
deriving DecidableEq, Repr

/-- The matrix type `Mat4`: its sixteen floats, column by column. -/
structure Mat4 where
  elements : List f32
deriving DecidableEq, Repr

/-- The struct `DefaultRenderPipeline::CameraData`. -/
structure CameraData where
  position : Vec4
  projection : Mat4
  inv_projection : Mat4
  view : Mat4
  inv_view : Mat4
  projection_view : Mat4
  inv_projection_view : Mat4
  previous_projection : Mat4
  previous_inv_projection : Mat4
  previous_view : Mat4
  previous_inv_view : Mat4
  previous_projection_view : Mat4
  previous_inv_projection_view : Mat4
  temporalaa_jitter : Vec2
  temporalaa_jitter_prev : Vec2
  frustum_planes : List Vec4
  up : Vec3
  near_clip : f32
  forward : Vec3
  far_clip : f32
  right : Vec3
  fov : f32
  _pad : Vec3
  output_index : Nat
deriving DecidableEq, Repr

/-- The struct `DefaultRenderPipeline::CameraCB`: the array `camera_data[16]`. -/
structure CameraCB where
  camera_data : Fin 16 → CameraData

/-- What a camera provides on one frame: the values of the members of `CameraData` that
describe the current frame. -/
structure CameraFrame where
  position : Vec4
  projection : Mat4
  inv_projection : Mat4
  view : Mat4
  inv_view : Mat4
  projection_view : Mat4
  inv_projection_view : Mat4
  temporalaa_jitter : Vec2
  frustum_planes : List Vec4
  up : Vec3
  near_clip : f32
  forward : Vec3
  far_clip : f32
  right : Vec3
  fov : f32
  output_index : Nat
deriving DecidableEq, Repr

/-- Modelled from the spec: the per-frame update of one `CameraData` entry. The functions
that fill `camera_cb` (`update_frame_data`, `get_main_camera_data`) are declared in
`DefaultRenderPipeline.hpp`, their bodies are not among the sources. Following the spec's
"frame-to-frame double buffering of transform/camera history for temporal effects", the
entry of the new frame takes its current members from the camera and its `previous_*`
members (and `temporalaa_jitter_prev`) from the current members of the entry of the
preceding frame. -/
def CameraData.next_frame (preceding : CameraData) (frame : CameraFrame) : CameraData :=
  { position := frame.position
    projection := frame.projection
    inv_projection := frame.inv_projection
    view := frame.view
    inv_view := frame.inv_view
    projection_view := frame.projection_view
    inv_projection_view := frame.inv_projection_view
    previous_projection := preceding.projection
    previous_inv_projection := preceding.inv_projection
    previous_view := preceding.view
    previous_inv_view := preceding.inv_view
    previous_projection_view := preceding.projection_view
    previous_inv_projection_view := preceding.inv_projection_view
    temporalaa_jitter := frame.temporalaa_jitter
    temporalaa_jitter_prev := preceding.temporalaa_jitter
    frustum_planes := frame.frustum_planes
    up := frame.up
    near_clip := frame.near_clip
    forward := frame.forward
    far_clip := frame.far_clip
    right := frame.right
    fov := frame.fov
    _pad := preceding._pad
    output_index := frame.output_index }

/-- Modelled from the spec: the per-frame update of `camera_cb`, entry by entry, from what the
sixteen cameras provide on the frame. -/
def CameraCB.next_frame (cb : CameraCB) (frames : Fin 16 → CameraFrame) : CameraCB :=
  { camera_data := fun i => (cb.camera_data i).next_frame (frames i) }

/-- Modelled from the spec: the content of `camera_cb` on frame `k`, from its content on the
first frame (frame `0`) and what the cameras provide on each later frame. -/
def CameraCB.on_frame (first : CameraCB) (frames : Nat → Fin 16 → CameraFrame) : Nat → CameraCB
  | 0 => first
  | k + 1 => (CameraCB.on_frame first frames k).next_frame (frames (k + 1))

/-! ## Sample inputs -/

/-- A batch of mesh 0 with a set sort bit. -/
def sample_batch_sorted_late : RenderBatch :=
  { mesh_index := 0, component_index := 0, instance_index := 0, distance := 0,
    camera_mask := 0xFFFF, sort_bits := 1 }

/-- A batch of mesh 1 without sort bits. -/
def sample_batch_mesh_1 : RenderBatch :=
  { mesh_index := 1, component_index := 1, instance_index := 1, distance := 0,
    camera_mask := 0xFFFF, sort_bits := 0 }

/-- A batch of mesh 65536 without sort bits. -/
def sample_batch_mesh_65536 : RenderBatch :=
  { mesh_index := 0x10000, component_index := 2, instance_index := 2, distance := 0,
    camera_mask := 0xFFFF, sort_bits := 0 }

/-- A near batch of mesh 3: stored distance `0xFFFF`, sort bits 7. -/
def sample_batch_mesh_3 : RenderBatch :=
  { mesh_index := 3, component_index := 0, instance_index := 0, distance := 0xFFFF,
    camera_mask := 0xFFFF, sort_bits := 7 }

/-- A batch of mesh 4: stored distance `0`, sort bits 7. -/
def sample_batch_mesh_4 : RenderBatch :=
  { mesh_index := 4, component_index := 1, instance_index := 1, distance := 0,
    camera_mask := 0xFFFF, sort_bits := 7 }

/-- A batch with stored distance 2. -/
def sample_batch_far : RenderBatch :=
  { mesh_index := 0, component_index := 0, instance_index := 0, distance := 2,
    camera_mask := 0xFFFF, sort_bits := 0 }

/-- A batch with stored distance 1, a larger mesh index and sort bits. -/
def sample_batch_near : RenderBatch :=
  { mesh_index := 9, component_index := 1, instance_index := 1, distance := 1,
    camera_mask := 0xFFFF, sort_bits := 5 }

/-- A `LightData` with all packed words zero. -/
def sample_light_data_zero : LightData :=
  { type8_flags8_range16 := 0, direction16_cone_angle_cos16 := { x := 0, y := 0 },
    color := { x := 0, y := 0 }, radius16_length16 := 0, matrix_index := 0, remap := 0 }

/-- A `LightData` whose direction is set (three half floats) and whose cone-angle slot is
still zero. -/
def sample_light_data_directed : LightData :=
  { type8_flags8_range16 := 0, direction16_cone_angle_cos16 := { x := 0x3C003800, y := 0x3400 },
    color := { x := 0, y := 0 }, radius16_length16 := 0, matrix_index := 0, remap := 0 }

/-- A stand-in for `glm::packHalf1x16` on the sample inputs: the half-float encoding of
`1.0f`, which is `0x3C00`. -/
def sample_packHalf1x16 : f32 → Nat := fun _ => 0x3C00

/-- An entity with the given UUID and no component. -/
def Entity.bare (uuid : Nat) : Entity :=
  { uuid := uuid, tag := none, relationship := none, transform := none, mesh := none,
    light := none, sky_light := none, post_process_probe := none, camera := none,
    rigidbody := none, box_collider := none, sphere_collider := none,
    capsule_collider := none, tapered_capsule_collider := none, cylinder_collider := none,
    mesh_collider := none, character_controller := none, lua_script := none }

/-- A spot light with two children, a rigid body, a box collider and a character controller. -/
def sample_plain_entity : Entity :=
  { Entity.bare 18446744073709551615 with
    tag := some { tag := "lamp", enabled := false }
    relationship := some { parent := 42, children := [7, 0, 12345678901234567890] }
    transform := some { position := ⟨0x3F800000, 0, 0xC0000000⟩, rotation := ⟨0, 0, 0⟩,
                        scale := ⟨0x3F800000, 0x3F800000, 0x3F800000⟩ }
    light := some { type := 2, color_temperature_mode := true, temperature := 6570,
                    color := ⟨0x3F800000, 0x3F000000, 0⟩, intensity := 0x41A00000,
                    range := 0x3F800000, cut_off_angle := 0x3E5F66F3,
                    outer_cut_off_angle := 0x3E9C61AB, cast_shadows := true,
                    shadow_quality := 1 }
    rigidbody := some { type := 2, mass := 0x3F800000, linear_drag := 0,
                        angular_drag := 0x3D4CCCCD, gravity_scale := 0x3F800000,
                        allow_sleep := true, awake := true, continuous := false,
                        interpolation := false, is_sensor := false }
    box_collider := some { size := ⟨0x3F000000, 0x3F000000, 0x3F000000⟩, offset := ⟨0, 0, 0⟩,
                           density := 0x3F800000, friction := 0x3F000000, restitution := 0 }
    character_controller := some
      { character_height_standing := 0x3FACCCCD, character_radius_standing := 0x3E99999A,
        character_height_crouching := 0x3F4CCCCD, character_radius_crouching := 0x3E99999A,
        control_movement_during_jump := true, jump_force := 0x41000000,
        friction := 0x40C00000, collision_tolerance := 0x3D4CCCCD } }

/-- An entity with a tag and a rigid body whose `mass` is the signalling NaN `0x7FA00000`;
the other members have the default values of the struct. -/
def sample_signaling_nan_entity : Entity :=
  { Entity.bare 3 with
    tag := some { tag := "body", enabled := true }
    rigidbody := some { type := 2, mass := 0x7FA00000, linear_drag := 0,
                        angular_drag := 0x3D4CCCCD, gravity_scale := 0x3F800000,
                        allow_sleep := true, awake := true, continuous := false,
                        interpolation := false, is_sensor := false } }

/-- An entity with a tag and a tapered capsule collider (the default values of the struct:
height `1.0f`, both radii `0.5f`, zero offset, density `1.0f`, friction `0.5f`,
restitution `0`). -/
def sample_tapered_capsule_entity : Entity :=
  { Entity.bare 7 with
    tag := some { tag := "capsule", enabled := true }
    tapered_capsule_collider := some
      { height := 0x3F800000, top_radius := 0x3F000000, bottom_radius := 0x3F000000,
        offset := ⟨0, 0, 0⟩, density := 0x3F800000, friction := 0x3F000000,
        restitution := 0 } }

/-- An entity with a tag and a sky light with a cubemap (intensity `1.0f`). -/
def sample_sky_light_entity : Entity :=
  { Entity.bare 9 with
    tag := some { tag := "sky", enabled := true }
    sky_light := some { cubemap := some "Textures/sky.hdr", intensity := 0x3F800000,
                        rotation := 0, lod_bias := 0x3F800000 } }

/-- An entity with a transform component and no tag component. -/
def sample_untagged_entity : Entity :=
  { Entity.bare 11 with
    transform := some { position := ⟨0, 0, 0⟩, rotation := ⟨0, 0, 0⟩,
                        scale := ⟨0x3F800000, 0x3F800000, 0x3F800000⟩ } }

/-- An entity with a tag component only. -/
def sample_tagged_entity : Entity :=
  { Entity.bare 5 with tag := some { tag := "root", enabled := true } }

/-! # Theorems -/

/-! ## Sorting lemmas -/

theorem std_sort_insert_perm {α : Type} (comp : α → α → Bool) (x : α) (l : List α) :
    (std_sort_insert comp x l).Perm (x :: l) := by
  induction l with
  | nil => simp [std_sort_insert]
  | cons y ys ih =>
    unfold std_sort_insert
    split
    · exact (List.Perm.cons y ih).trans (List.Perm.swap x y ys)
    · exact List.Perm.refl _

theorem std_sort_perm {α : Type} (comp : α → α → Bool) (l : List α) :
    (std_sort comp l).Perm l := by
  induction l with
  | nil => simp [std_sort]
  | cons x xs ih =>
    unfold std_sort
    exact (std_sort_insert_perm comp x _).trans (List.Perm.cons x ih)

/-- Inserting into a list that is non-increasing for a key `k` keeps it so, when the comparator
is "strictly greater key". -/
theorem std_sort_insert_pairwise_key {α : Type} (comp : α → α → Bool) (k : α → Nat)
    (hc : ∀ a b, comp a b = true ↔ k b < k a) (x : α) (l : List α)
    (hl : l.Pairwise (fun a b => k b ≤ k a)) :
    (std_sort_insert comp x l).Pairwise (fun a b => k b ≤ k a) := by
  induction l with
  | nil => simp [std_sort_insert]
  | cons y ys ih =>
    rw [List.pairwise_cons] at hl
    unfold std_sort_insert
    split
    · rename_i h
      rw [List.pairwise_cons]
      refine ⟨?_, ih hl.2⟩
      intro z hz
      have hz2 : z ∈ x :: ys := (std_sort_insert_perm comp x ys).mem_iff.mp hz
      rw [List.mem_cons] at hz2
      rcases hz2 with rfl | hz2
      · exact Nat.le_of_lt ((hc _ _).mp h)
      · exact hl.1 z hz2
    · rename_i h
      have hxy : k y ≤ k x := by
        by_contra hlt
        exact h ((hc y x).mpr (by omega))
      rw [List.pairwise_cons]
      refine ⟨?_, List.pairwise_cons.mpr hl⟩
      intro z hz
      rw [List.mem_cons] at hz
      rcases hz with rfl | hz
      · exact hxy
      · exact Nat.le_trans (hl.1 z hz) hxy

theorem std_sort_pairwise_key {α : Type} (comp : α → α → Bool) (k : α → Nat)
    (hc : ∀ a b, comp a b = true ↔ k b < k a) (l : List α) :
    (std_sort comp l).Pairwise (fun a b => k b ≤ k a) := by
  induction l with
  | nil => simp [std_sort]
  | cons x xs ih =>
    unfold std_sort
    exact std_sort_insert_pairwise_key comp k hc x _ ih

/-! ## Render batch ordering -/

theorem RenderBatch.sort_key_greater_div (b : RenderBatch) (hb : b.wf) :
    b.sort_key_greater / 2 ^ 48 = b.distance := by
  obtain ⟨_, _, _, hd, _, _⟩ := hb
  unfold RenderBatch.sort_key_greater
  omega

/-- C1 (counterexample): two pairs of batches with `a.mesh_index < b.mesh_index` for which
`a < b` is false: in the first pair `a` has the larger `sort_bits`, in the second pair the two
mesh indices (1 and 65536) differ only above bit 15. -/
theorem RenderBatch_less_mesh_index_counterexample :
    (sample_batch_sorted_late.wf ∧ sample_batch_mesh_1.wf ∧
      sample_batch_sorted_late.mesh_index < sample_batch_mesh_1.mesh_index ∧
      sample_batch_sorted_late.less sample_batch_mesh_1 = false) ∧
    (sample_batch_mesh_1.wf ∧ sample_batch_mesh_65536.wf ∧
      sample_batch_mesh_1.mesh_index < sample_batch_mesh_65536.mesh_index ∧
      sample_batch_mesh_1.less sample_batch_mesh_65536 = false) := by
  decide

/-- C1 (amended): among batches with equal `sort_bits`, the low 16 bits of the mesh index
decide `operator<`: if `a.mesh_index % 2^16 < b.mesh_index % 2^16` then `a < b`, whatever the
two distances are. -/
theorem RenderBatch_less_of_mesh_index_lt (a b : RenderBatch)
    (hs : a.sort_bits = b.sort_bits) (hm : a.mesh_index % 2 ^ 16 < b.mesh_index % 2 ^ 16) :
    a.less b = true := by
  unfold RenderBatch.less RenderBatch.sort_key_less
  rw [hs]
  simp only [decide_eq_true_eq]
  omega

theorem RenderBatch_less_of_mesh_index_lt_witness :
    sample_batch_mesh_3.less sample_batch_mesh_4 = true :=
  RenderBatch_less_of_mesh_index_lt sample_batch_mesh_3 sample_batch_mesh_4 rfl (by decide)

/-- C2 (failing input): batches created with mesh index 0, `sort_bits` 0 and the distances
`0.1f` (bit pattern `0x3DCCCCCD`) and `100.0f` (bit pattern `0x42C80000`). Both distances are
finite and non-negative and `0.1f < 100.0f`, yet the stored 16-bit distances are `0xCCCD` and
`0`, the nearer batch does not compare less than the farther one, the farther one compares
less than the nearer one, and `sort_opaque` puts the farther batch first. -/
theorem RenderBatch_create_distance_order_fails :
    f32.finite_nonneg 0x3DCCCCCD ∧ f32.finite_nonneg 0x42C80000 ∧
    f32.value 0x3DCCCCCD < f32.value 0x42C80000 ∧
    (RenderBatch.create 0 0 0 0x3DCCCCCD 0 0xFFFF).distance = 0xCCCD ∧
    (RenderBatch.create 0 0 0 0x42C80000 0 0xFFFF).distance = 0 ∧
    RenderBatch.less (RenderBatch.create 0 0 0 0x3DCCCCCD 0 0xFFFF)
      (RenderBatch.create 0 0 0 0x42C80000 0 0xFFFF) = false ∧
    RenderBatch.less (RenderBatch.create 0 0 0 0x42C80000 0 0xFFFF)
      (RenderBatch.create 0 0 0 0x3DCCCCCD 0 0xFFFF) = true ∧
    RenderQueue.sort_opaque (RenderQueue.add (RenderQueue.add [] 0 0 0 0x3DCCCCCD 0 0xFFFF)
      0 1 1 0x42C80000 0 0xFFFF) =
      [RenderBatch.create 0 1 1 0x42C80000 0 0xFFFF, RenderBatch.create 0 0 0 0x3DCCCCCD 0 0xFFFF] := by
  refine ⟨by decide, by decide, ?_, by decide, by decide, by decide, by decide, by decide⟩
  norm_num [f32.value]

/-- C3: a batch with the larger stored 16-bit distance compares greater (`operator>`),
whatever the mesh indices and `sort_bits` are, and `sort_transparent` therefore returns a
permutation of the queue in which stored distances never increase from front to back. -/
theorem RenderBatch_greater_of_distance_gt (a b : RenderBatch) (q : RenderQueue)
    (ha : a.wf) (hb : b.wf) (hq : ∀ x ∈ q, RenderBatch.wf x) (hd : b.distance < a.distance) :
    a.greater b = true ∧
    (RenderQueue.sort_transparent q).Perm q ∧
    (RenderQueue.sort_transparent q).Pairwise (fun x y => y.distance ≤ x.distance) := by
  refine ⟨?_, std_sort_perm _ q, ?_⟩
  · obtain ⟨_, _, _, hda, _, _⟩ := ha
    obtain ⟨_, _, _, hdb, _, _⟩ := hb
    unfold RenderBatch.greater RenderBatch.sort_key_greater
    simp only [gt_iff_lt, decide_eq_true_eq]
    omega
  · have hp := std_sort_pairwise_key RenderBatch.greater RenderBatch.sort_key_greater
      (fun a b => by simp [RenderBatch.greater]) q
    have hmem : ∀ x ∈ RenderQueue.sort_transparent q, RenderBatch.wf x :=
      fun x hx => hq x ((std_sort_perm _ q).mem_iff.mp hx)
    refine List.Pairwise.imp_of_mem ?_ hp
    intro x y hx hy hxy
    rw [← RenderBatch.sort_key_greater_div x (hmem x hx),
      ← RenderBatch.sort_key_greater_div y (hmem y hy)]
    exact Nat.div_le_div_right hxy

theorem RenderBatch_greater_of_distance_gt_witness :
    sample_batch_far.greater sample_batch_near = true ∧
    (RenderQueue.sort_transparent [sample_batch_near, sample_batch_far]).Perm
      [sample_batch_near, sample_batch_far] ∧
    (RenderQueue.sort_transparent [sample_batch_near, sample_batch_far]).Pairwise
      (fun x y => y.distance ≤ x.distance) :=
  RenderBatch_greater_of_distance_gt sample_batch_far sample_batch_near
    [sample_batch_near, sample_batch_far] (by decide) (by decide) (by decide) (by decide)

/-! ## Bitwise helpers -/

/-- A value below `2^i` OR-ed with a multiple of `2^i` is their sum. -/
theorem lor_mul_two_pow (a b i : Nat) (hb : b < 2 ^ i) : b ||| a * 2 ^ i = b + a * 2 ^ i := by
  rw [Nat.lor_comm, Nat.mul_comm, ← Nat.mul_add_lt_is_or hb, Nat.add_comm]

/-- OR-ing in a value below `2^i` does not change the bits from `i` upwards. -/
theorem lor_shiftRight_of_lt (a b i : Nat) (hb : b < 2 ^ i) : (a ||| b) >>> i = a >>> i := by
  apply Nat.eq_of_testBit_eq
  intro j
  have hlt : b < 2 ^ (i + j) :=
    Nat.lt_of_lt_of_le hb (Nat.pow_le_pow_right (by decide) (Nat.le_add_right i j))
  simp [Nat.testBit_shiftRight, Nat.testBit_or, Nat.testBit_lt_two_pow hlt]

/-- OR-ing in a multiple of `2^i` does not change the bits below `i`. -/
theorem lor_mul_two_pow_mod (a b i : Nat) : (a ||| b * 2 ^ i) % 2 ^ i = a % 2 ^ i := by
  apply Nat.eq_of_testBit_eq
  intro j
  rw [← Nat.shiftLeft_eq]
  simp only [Nat.testBit_mod_two_pow, Nat.testBit_or, Nat.testBit_shiftLeft]
  by_cases h : j < i
  · have : ¬ (j ≥ i) := by omega
    simp [h, this]
  · simp [h]

/-! ## Packed words -/

/-- C4: for `instance_index < 2^24` and `camera_index < 16`, `create` stores the three fields
in disjoint bit ranges that decode back: bits 0-23 are `instance_index`, bits 24-27 are
`camera_index`, bits 28-31 are `uint32(dither * 15) & 0xF`; with the defaults
`camera_index = 0`, `dither = 0` the word equals `instance_index`. -/
theorem MeshInstancePointer_create_fields (instance_index camera_index dither_x15 : Nat)
    (hi : instance_index < 2 ^ 24) (hc : camera_index < 16) :
    (MeshInstancePointer.create instance_index camera_index dither_x15).data &&& 0xFFFFFF
        = instance_index ∧
    ((MeshInstancePointer.create instance_index camera_index dither_x15).data >>> 24) &&& 0xF
        = camera_index ∧
    (MeshInstancePointer.create instance_index camera_index dither_x15).data >>> 28
        = (dither_x15 % 2 ^ 32) &&& 0xF ∧
    (MeshInstancePointer.create instance_index 0 0).data = instance_index := by
  have e24 : (0xFFFFFF : Nat) = 2 ^ 24 - 1 := by norm_num
  have e4 : (0xF : Nat) = 2 ^ 4 - 1 := by norm_num
  have key : ∀ c d : Nat, (MeshInstancePointer.create instance_index c d).data
      = instance_index + (c % 16) * 2 ^ 24 + (d % 2 ^ 32 % 16) * 2 ^ 28 := by
    intro c d
    simp only [MeshInstancePointer.create, e24, e4, Nat.and_pow_two_sub_one_eq_mod,
      Nat.shiftLeft_eq, Nat.zero_or]
    have h1 : c % 2 ^ 4 * 2 ^ 24 % 2 ^ 32 = c % 2 ^ 4 * 2 ^ 24 := Nat.mod_eq_of_lt (by omega)
    have h2 : d % 2 ^ 32 % 2 ^ 4 * 2 ^ 28 % 2 ^ 32 = d % 2 ^ 32 % 2 ^ 4 * 2 ^ 28 :=
      Nat.mod_eq_of_lt (by omega)
    rw [h1, h2, Nat.mod_eq_of_lt hi, lor_mul_two_pow _ _ 24 hi,
      lor_mul_two_pow _ _ 28 (by omega)]
    omega
  rw [key, key]
  simp only [e24, e4, Nat.and_pow_two_sub_one_eq_mod, Nat.shiftRight_eq_div_pow]
  refine ⟨?_, ?_, ?_, ?_⟩ <;> omega

theorem MeshInstancePointer_create_fields_witness :
    (MeshInstancePointer.create 0xABCDEF 5 9).data &&& 0xFFFFFF = 0xABCDEF ∧
    ((MeshInstancePointer.create 0xABCDEF 5 9).data >>> 24) &&& 0xF = 5 ∧
    (MeshInstancePointer.create 0xABCDEF 5 9).data >>> 28 = (9 % 2 ^ 32) &&& 0xF ∧
    (MeshInstancePointer.create 0xABCDEF 0 0).data = 0xABCDEF :=
  MeshInstancePointer_create_fields 0xABCDEF 5 9 (by decide) (by decide)

theorem pack_u16_eq (low high : Nat) (hl : low < 2 ^ 16) (hh : high < 2 ^ 16) :
    pack_u16 low high = low + high * 2 ^ 16 := by
  simp only [pack_u16, Nat.shiftLeft_eq, Nat.zero_or]
  rw [Nat.mod_eq_of_lt (by omega), lor_mul_two_pow _ _ 16 hl]

/-- C7: `pack_u16` and the pair `unpack_u32_low`, `unpack_u32_high` are mutually inverse on
16-bit halves and 32-bit words. -/
theorem pack_u16_unpack (low high p : Nat) (hl : low < 2 ^ 16) (hh : high < 2 ^ 16)
    (hp : p < 2 ^ 32) :
    unpack_u32_low (pack_u16 low high) = low ∧
    unpack_u32_high (pack_u16 low high) = high ∧
    pack_u16 (unpack_u32_low p) (unpack_u32_high p) = p := by
  have e16 : (0xFFFF : Nat) = 2 ^ 16 - 1 := by norm_num
  have hlow : unpack_u32_low p = p % 2 ^ 16 := by
    simp only [unpack_u32_low, e16, Nat.and_pow_two_sub_one_eq_mod, Nat.mod_mod]
  have hhigh : unpack_u32_high p = p / 2 ^ 16 := by
    simp only [unpack_u32_high, e16, Nat.and_pow_two_sub_one_eq_mod, Nat.mod_mod,
      Nat.shiftRight_eq_div_pow]
    omega
  refine ⟨?_, ?_, ?_⟩
  · rw [pack_u16_eq low high hl hh]
    simp only [unpack_u32_low, e16, Nat.and_pow_two_sub_one_eq_mod, Nat.mod_mod]
    omega
  · rw [pack_u16_eq low high hl hh]
    simp only [unpack_u32_high, e16, Nat.and_pow_two_sub_one_eq_mod, Nat.mod_mod,
      Nat.shiftRight_eq_div_pow]
    omega
  · rw [hlow, hhigh, pack_u16_eq _ _ (by omega) (by omega)]
    omega

theorem pack_u16_unpack_witness :
    unpack_u32_low (pack_u16 0x1234 0xFEDC) = 0x1234 ∧
    unpack_u32_high (pack_u16 0x1234 0xFEDC) = 0xFEDC ∧
    pack_u16 (unpack_u32_low 0xDEADBEEF) (unpack_u32_high 0xDEADBEEF) = 0xDEADBEEF :=
  pack_u16_unpack 0x1234 0xFEDC 0xDEADBEEF (by decide) (by decide) (by decide)

/-- The word after the three setters, in the order type, flags, range. -/
theorem LightData_word_after_setters (t f h : Nat) :
    ((0 ||| (t &&& 0xFF)) ||| ((f &&& 0xFF) <<< 8)) ||| (h <<< 16)
      = t % 2 ^ 8 + (f % 2 ^ 8) * 2 ^ 8 + h * 2 ^ 16 := by
  have e8 : (0xFF : Nat) = 2 ^ 8 - 1 := by norm_num
  simp only [e8, Nat.and_pow_two_sub_one_eq_mod, Nat.shiftLeft_eq, Nat.zero_or]
  rw [lor_mul_two_pow _ _ 8 (Nat.mod_lt _ (by norm_num)), lor_mul_two_pow _ _ 16 (by omega)]

/-- The six orders of the three setters give the same word. -/
theorem LightData_setters_word (packHalf1x16 : f32 → Nat) (l : LightData)
    (t f : Nat) (r : f32) (h0 : l.type8_flags8_range16 = 0) :
    (((l.set_type t).set_flags f).set_range packHalf1x16 r).type8_flags8_range16
      = t % 2 ^ 8 + (f % 2 ^ 8) * 2 ^ 8 + half16 packHalf1x16 r * 2 ^ 16 ∧
    (((l.set_type t).set_range packHalf1x16 r).set_flags f).type8_flags8_range16
      = t % 2 ^ 8 + (f % 2 ^ 8) * 2 ^ 8 + half16 packHalf1x16 r * 2 ^ 16 ∧
    (((l.set_flags f).set_type t).set_range packHalf1x16 r).type8_flags8_range16
      = t % 2 ^ 8 + (f % 2 ^ 8) * 2 ^ 8 + half16 packHalf1x16 r * 2 ^ 16 ∧
    (((l.set_flags f).set_range packHalf1x16 r).set_type t).type8_flags8_range16
      = t % 2 ^ 8 + (f % 2 ^ 8) * 2 ^ 8 + half16 packHalf1x16 r * 2 ^ 16 ∧
    (((l.set_range packHalf1x16 r).set_type t).set_flags f).type8_flags8_range16
      = t % 2 ^ 8 + (f % 2 ^ 8) * 2 ^ 8 + half16 packHalf1x16 r * 2 ^ 16 ∧
    (((l.set_range packHalf1x16 r).set_flags f).set_type t).type8_flags8_range16
      = t % 2 ^ 8 + (f % 2 ^ 8) * 2 ^ 8 + half16 packHalf1x16 r * 2 ^ 16 := by
  have hw := LightData_word_after_setters t f (half16 packHalf1x16 r)
  simp only [LightData.set_type, LightData.set_flags, LightData.set_range, h0]
  rw [← hw]
  generalize half16 packHalf1x16 r <<< 16 = C
  generalize t &&& 0xFF = A
  generalize (f &&& 0xFF) <<< 8 = B
  refine ⟨rfl, ?_, ?_, ?_, ?_, ?_⟩
  · ac_rfl
  · ac_rfl
  · ac_rfl
  · ac_rfl
  · ac_rfl

/-- C5: starting from a zero `type8_flags8_range16`, calling `set_type(t)`, `set_flags(f)` and
`set_range(r)` once each, in any of the six orders, leaves `t & 0xFF` in bits 0-7, `f & 0xFF`
in bits 8-15 and the half-float encoding of `r` in bits 16-31; and on any `LightData` no
setter changes the bits of another field. -/
theorem LightData_type8_flags8_range16_layout (packHalf1x16 : f32 → Nat) (l : LightData)
    (t f : Nat) (r : f32) (h0 : l.type8_flags8_range16 = 0) :
    type8_flags8_range16_layout
      (((l.set_type t).set_flags f).set_range packHalf1x16 r).type8_flags8_range16
      (t &&& 0xFF) (f &&& 0xFF) (half16 packHalf1x16 r) ∧
    type8_flags8_range16_layout
      (((l.set_type t).set_range packHalf1x16 r).set_flags f).type8_flags8_range16
      (t &&& 0xFF) (f &&& 0xFF) (half16 packHalf1x16 r) ∧
    type8_flags8_range16_layout
      (((l.set_flags f).set_type t).set_range packHalf1x16 r).type8_flags8_range16
      (t &&& 0xFF) (f &&& 0xFF) (half16 packHalf1x16 r) ∧
    type8_flags8_range16_layout
      (((l.set_flags f).set_range packHalf1x16 r).set_type t).type8_flags8_range16
      (t &&& 0xFF) (f &&& 0xFF) (half16 packHalf1x16 r) ∧
    type8_flags8_range16_layout
      (((l.set_range packHalf1x16 r).set_type t).set_flags f).type8_flags8_range16
      (t &&& 0xFF) (f &&& 0xFF) (half16 packHalf1x16 r) ∧
    type8_flags8_range16_layout
      (((l.set_range packHalf1x16 r).set_flags f).set_type t).type8_flags8_range16
      (t &&& 0xFF) (f &&& 0xFF) (half16 packHalf1x16 r) ∧
    (∀ m : LightData,
      (m.set_type t).type8_flags8_range16 >>> 8 = m.type8_flags8_range16 >>> 8 ∧
      (m.set_flags f).type8_flags8_range16 &&& 0xFF = m.type8_flags8_range16 &&& 0xFF ∧
      (m.set_flags f).type8_flags8_range16 >>> 16 = m.type8_flags8_range16 >>> 16 ∧
      (m.set_range packHalf1x16 r).type8_flags8_range16 &&& 0xFFFF
        = m.type8_flags8_range16 &&& 0xFFFF) := by
  have e8 : (0xFF : Nat) = 2 ^ 8 - 1 := by norm_num
  have e16 : (0xFFFF : Nat) = 2 ^ 16 - 1 := by norm_num
  have hh : half16 packHalf1x16 r < 2 ^ 16 := Nat.mod_lt _ (by norm_num)
  have hlay : type8_flags8_range16_layout
      (t % 2 ^ 8 + (f % 2 ^ 8) * 2 ^ 8 + half16 packHalf1x16 r * 2 ^ 16)
      (t &&& 0xFF) (f &&& 0xFF) (half16 packHalf1x16 r) := by
    simp only [type8_flags8_range16_layout, e8, Nat.and_pow_two_sub_one_eq_mod,
      Nat.shiftRight_eq_div_pow]
    refine ⟨?_, ?_, ?_⟩ <;> omega
  obtain ⟨w1, w2, w3, w4, w5, w6⟩ := LightData_setters_word packHalf1x16 l t f r h0
  rw [w1, w2, w3, w4, w5, w6]
  refine ⟨hlay, hlay, hlay, hlay, hlay, hlay, ?_⟩
  intro m
  simp only [LightData.set_type, LightData.set_flags, LightData.set_range, e8, e16,
    Nat.and_pow_two_sub_one_eq_mod, Nat.shiftLeft_eq]
  refine ⟨?_, ?_, ?_, ?_⟩
  · exact lor_shiftRight_of_lt _ _ 8 (Nat.mod_lt _ (by norm_num))
  · exact lor_mul_two_pow_mod _ _ 8
  · exact lor_shiftRight_of_lt _ _ 16 (by omega)
  · exact lor_mul_two_pow_mod _ _ 16

theorem LightData_type8_flags8_range16_layout_witness :
    type8_flags8_range16_layout
      (((sample_light_data_zero.set_range sample_packHalf1x16 0x3F800000).set_type
        0x102).set_flags 0x3A5).type8_flags8_range16
      (0x102 &&& 0xFF) (0x3A5 &&& 0xFF) (half16 sample_packHalf1x16 0x3F800000) :=
  (LightData_type8_flags8_range16_layout sample_packHalf1x16 sample_light_data_zero
    0x102 0x3A5 0x3F800000 rfl).2.2.2.2.1

/-- C6: on a `LightData` whose `direction16_cone_angle_cos16.y` has zero upper 16 bits,
`set_shadow_cascade_count(n)` puts `n & 0xFFFF` into the upper 16 bits of `.y`, keeps the
lower 16 bits of `.y` and all of `.x`; `set_cone_angle_cos` writes the same 16 bits (the
half-float encoding of its argument) and keeps the same rest. -/
theorem LightData_set_shadow_cascade_count_bits (packHalf1x16 : f32 → Nat) (l : LightData)
    (n : Nat) (value : f32) (hy : l.direction16_cone_angle_cos16.y >>> 16 = 0) :
    (l.set_shadow_cascade_count n).direction16_cone_angle_cos16.y >>> 16 = n &&& 0xFFFF ∧
    (l.set_shadow_cascade_count n).direction16_cone_angle_cos16.y &&& 0xFFFF
      = l.direction16_cone_angle_cos16.y &&& 0xFFFF ∧
    (l.set_shadow_cascade_count n).direction16_cone_angle_cos16.x
      = l.direction16_cone_angle_cos16.x ∧
    (l.set_cone_angle_cos packHalf1x16 value).direction16_cone_angle_cos16.y >>> 16
      = half16 packHalf1x16 value ∧
    (l.set_cone_angle_cos packHalf1x16 value).direction16_cone_angle_cos16.y &&& 0xFFFF
      = l.direction16_cone_angle_cos16.y &&& 0xFFFF ∧
    (l.set_cone_angle_cos packHalf1x16 value).direction16_cone_angle_cos16.x
      = l.direction16_cone_angle_cos16.x := by
  have e16 : (0xFFFF : Nat) = 2 ^ 16 - 1 := by norm_num
  have hh : half16 packHalf1x16 value < 2 ^ 16 := Nat.mod_lt _ (by norm_num)
  have hlt : l.direction16_cone_angle_cos16.y < 2 ^ 16 := by
    rw [Nat.shiftRight_eq_div_pow] at hy
    omega
  simp only [LightData.set_shadow_cascade_count, LightData.set_cone_angle_cos, e16,
    Nat.and_pow_two_sub_one_eq_mod, Nat.shiftLeft_eq]
  refine ⟨?_, lor_mul_two_pow_mod _ _ 16, trivial, ?_, lor_mul_two_pow_mod _ _ 16, trivial⟩
  · rw [lor_mul_two_pow _ _ 16 hlt, Nat.shiftRight_eq_div_pow]
    omega
  · rw [lor_mul_two_pow _ _ 16 hlt, Nat.shiftRight_eq_div_pow]
    omega

theorem LightData_set_shadow_cascade_count_bits_witness :
    (sample_light_data_directed.set_shadow_cascade_count 4).direction16_cone_angle_cos16.y
        >>> 16 = 4 &&& 0xFFFF ∧
    (sample_light_data_directed.set_shadow_cascade_count 4).direction16_cone_angle_cos16.y
        &&& 0xFFFF = sample_light_data_directed.direction16_cone_angle_cos16.y &&& 0xFFFF :=
  ⟨(LightData_set_shadow_cascade_count_bits sample_packHalf1x16 sample_light_data_directed 4
      0x3F800000 (by decide)).1,
   (LightData_set_shadow_cascade_count_bits sample_packHalf1x16 sample_light_data_directed 4
      0x3F800000 (by decide)).2.1⟩

/-! ## Decimal strings -/

theorem digit_char_toNat (d : Nat) (hd : d < 10) : (digit_char d).toNat = 48 + d := by
  interval_cases d <;> rfl

theorem digits_value_append (ds : List Char) (c : Char) :
    digits_value (ds ++ [c]) = digits_value ds * 10 + (c.toNat - 48) := by
  simp [digits_value, List.foldl_append]

theorem decimal_digits_spec (fuel n : Nat) (h : n < 10 ^ fuel) (hf : 0 < fuel) :
    digits_value (decimal_digits fuel n) = n ∧
    (∀ c ∈ decimal_digits fuel n, is_digit c = true) ∧
    decimal_digits fuel n ≠ [] := by
  induction fuel generalizing n with
  | zero => omega
  | succ k ih =>
    unfold decimal_digits
    split
    · rename_i hn
      refine ⟨?_, ?_, by simp⟩
      · simp [digits_value, digit_char_toNat n hn]
      · intro c hc
        rw [List.mem_singleton] at hc
        subst hc
        simp [is_digit, digit_char_toNat n hn]
        omega
    · rename_i hn
      have hk : 0 < k := by
        rcases Nat.eq_zero_or_pos k with h0 | h0
        · subst h0; simp at h; omega
        · exact h0
      have hdiv : n / 10 < 10 ^ k := by
        rw [Nat.pow_succ] at h
        omega
      obtain ⟨h1, h2, h3⟩ := ih (n / 10) hdiv hk
      have hm : n % 10 < 10 := Nat.mod_lt _ (by norm_num)
      refine ⟨?_, ?_, by simp [h3]⟩
      · rw [digits_value_append, h1, digit_char_toNat _ hm]
        omega
      · intro c hc
        rw [List.mem_append, List.mem_singleton] at hc
        rcases hc with hc | hc
        · exact h2 c hc
        · subst hc
          simp [is_digit, digit_char_toNat _ hm]
          omega

theorem is_digit_not_space (c : Char) (h : is_digit c = true) : is_space c = false := by
  simp [is_digit, is_space] at *
  omega

theorem takeWhile_eq_self_of_all {α : Type} (p : α → Bool) (l : List α)
    (h : ∀ x ∈ l, p x = true) : l.takeWhile p = l := by
  induction l with
  | nil => rfl
  | cons x xs ih =>
    rw [List.takeWhile_cons, h x (List.mem_cons_self _ _)]
    simp only [if_true]
    rw [ih (fun y hy => h y (List.mem_cons_of_mem _ hy))]

/-- Parsing the decimal string of a 64-bit value gives the value back. -/
theorem std_stoull_to_string (n : Nat) (h : n < 2 ^ 64) :
    std_stoull (std_to_string n) = .ok n := by
  obtain ⟨h1, h2, h3⟩ := decimal_digits_spec 20 n (by omega) (by norm_num)
  unfold std_stoull std_to_string
  generalize decimal_digits 20 n = ds at h1 h2 h3
  cases ds with
  | nil => exact absurd rfl h3
  | cons c rest =>
    have hc := h2 c (List.mem_cons_self _ _)
    have hsp := is_digit_not_space c hc
    have h43 : c.toNat ≠ 43 := by
      simp [is_digit] at hc; omega
    have h45 : c.toNat ≠ 45 := by
      simp [is_digit] at hc; omega
    simp only [List.dropWhile_cons, hsp, h43, h45, if_false, Bool.false_eq_true]
    rw [takeWhile_eq_self_of_all is_digit _ h2]
    simp [h1]
    omega

/-! ## Integer conversions -/

theorem int32_of_uint32_of_int64 (i : Int) (h : is_int32 i) :
    int32_of_uint32 (uint32_of_int64 i) = i := by
  obtain ⟨h1, h2⟩ := h
  unfold int32_of_uint32 uint32_of_int64
  have hnn : (0 : Int) ≤ i % 2 ^ 32 := Int.emod_nonneg _ (by norm_num)
  have hlt : i % 2 ^ 32 < 2 ^ 32 := Int.emod_lt_of_pos _ (by norm_num)
  have hcast : (((i % 2 ^ 32).toNat : Nat) : Int) = i % 2 ^ 32 := Int.toNat_of_nonneg hnn
  have hmod : (i % 2 ^ 32).toNat % 2 ^ 32 = (i % 2 ^ 32).toNat := by
    apply Nat.mod_eq_of_lt
    omega
  rw [hmod]
  split
  · omega
  · omega

theorem uint32_of_int64_ofNat (n : Nat) (h : n < 2 ^ 32) :
    uint32_of_int64 (Int.ofNat n) = n := by
  unfold uint32_of_int64
  have h1 : (n : Int) % 2 ^ 32 = (n : Int) := by
    apply Int.emod_eq_of_lt
    · exact Int.ofNat_nonneg n
    · exact_mod_cast h
  show ((n : Int) % 2 ^ 32).toNat = n
  rw [h1]
  exact Int.toNat_natCast n

/-! ## Widening a float and narrowing it again -/

theorem f32_decompose (x : Nat) (h : x < 2 ^ 32) :
    x = x / 2 ^ 31 % 2 * 2 ^ 31 + x / 2 ^ 23 % 2 ^ 8 * 2 ^ 23 + x % 2 ^ 23 := by
  omega

theorem round_shift_exact (q shift : Nat) : round_shift (q * 2 ^ shift) shift = q := by
  have hp : 0 < 2 ^ shift := Nat.two_pow_pos shift
  unfold round_shift
  dsimp only
  rw [Nat.mul_mod_left, Nat.mul_div_cancel _ hp]
  rw [if_neg]
  rintro (h | ⟨h, -⟩) <;> omega

theorem highest_bit_spec (bits n : Nat) (h0 : n ≠ 0) (h : n < 2 ^ bits) :
    2 ^ highest_bit bits n ≤ n ∧ n < 2 ^ (highest_bit bits n + 1) ∧ highest_bit bits n < bits := by
  induction bits with
  | zero =>
    simp at h
    exact absurd h h0
  | succ b ih =>
    unfold highest_bit
    by_cases hb : 2 ^ b ≤ n
    · rw [if_pos hb]
      exact ⟨hb, h, Nat.lt_succ_self b⟩
    · rw [if_neg hb]
      obtain ⟨h1, h2, h3⟩ := ih (Nat.lt_of_not_le hb)
      exact ⟨h1, h2, Nat.lt_succ_of_lt h3⟩

/-- Widening a `float` that is not a signalling NaN to `double` and narrowing it again gives
the same bit pattern. -/
theorem f64_to_f32_f32_to_f64 (x : f32) (h : f32.not_signaling x) :
    f64_to_f32 (f32_to_f64 x) = x := by
  obtain ⟨hx, hs⟩ := h
  unfold f32.is_signaling_nan at hs
  unfold f32 at x hx hs
  have hdec := f32_decompose x hx
  generalize hS : x / 2 ^ 31 % 2 = s at hdec
  generalize hE : x / 2 ^ 23 % 2 ^ 8 = E at hdec
  generalize hM : x % 2 ^ 23 = M at hdec
  have hs2 : s < 2 := by omega
  have hE2 : E < 256 := by omega
  have hM2 : M < 2 ^ 23 := by omega
  have hq : x / 2 ^ 22 % 2 = M / 2 ^ 22 := by omega
  rw [hE, hM, hq] at hs
  by_cases h255 : E = 255
  · by_cases hM0 : M = 0
    · have e : f32_to_f64 x = s * 2 ^ 63 + 0x7FF0000000000000 := by
        unfold f32_to_f64 f64
        dsimp only
        rw [hS, hE, hM, if_pos h255, if_pos hM0]
      rw [e]
      unfold f64_to_f32 f32 f64
      dsimp only
      rw [if_pos (by omega), if_pos (by omega)]
      omega
    · have e : f32_to_f64 x = s * 2 ^ 63 + 0x7FF8000000000000 + M % 2 ^ 22 * 2 ^ 29 := by
        unfold f32_to_f64 f64
        dsimp only
        rw [hS, hE, hM, if_pos h255, if_neg hM0]
      rw [e]
      unfold f64_to_f32 f32 f64
      dsimp only
      rw [if_pos (by omega), if_neg (by omega)]
      omega
  · by_cases hE0 : E = 0
    · by_cases hM0 : M = 0
      · have e : f32_to_f64 x = s * 2 ^ 63 := by
          unfold f32_to_f64 f64
          dsimp only
          rw [hS, hE, hM, if_neg h255, if_pos hE0, if_pos hM0]
        rw [e]
        unfold f64_to_f32 f32 f64
        dsimp only
        rw [if_neg (by omega), if_pos (by omega)]
        omega
      · have e : f32_to_f64 x
            = s * 2 ^ 63 + (highest_bit 23 M + 874) * 2 ^ 52
                + (M - 2 ^ highest_bit 23 M) * 2 ^ (52 - highest_bit 23 M) := by
          unfold f32_to_f64 f64
          dsimp only
          rw [hS, hE, hM, if_neg h255, if_pos hE0, if_neg hM0]
        obtain ⟨hk1, hk2, hk3⟩ := highest_bit_spec 23 M hM0 hM2
        generalize highest_bit 23 M = k at e hk1 hk2 hk3
        rw [e]
        have hsig : 2 ^ 52 + (M - 2 ^ k) * 2 ^ (52 - k) = M * 2 ^ (52 - k) := by
          have : 2 ^ 52 = 2 ^ k * 2 ^ (52 - k) := by
            rw [← Nat.pow_add]
            congr 1
            omega
          rw [this, ← Nat.add_mul]
          congr 1
          omega
        have hlow : (M - 2 ^ k) * 2 ^ (52 - k) < 2 ^ 52 := by
          have : 2 ^ 52 = 2 ^ k * 2 ^ (52 - k) := by
            rw [← Nat.pow_add]
            congr 1
            omega
          rw [this]
          apply Nat.mul_lt_mul_of_lt_of_le _ (le_refl _) (Nat.two_pow_pos _)
          rw [Nat.pow_succ] at hk2
          omega
        generalize hlo : (M - 2 ^ k) * 2 ^ (52 - k) = lo at hsig hlow
        unfold f64_to_f32 f32 f64
        dsimp only
        have h1 : (s * 2 ^ 63 + (k + 874) * 2 ^ 52 + lo) / 2 ^ 52 % 2 ^ 11 = k + 874 := by omega
        have h2 : (s * 2 ^ 63 + (k + 874) * 2 ^ 52 + lo) % 2 ^ 52 = lo := by omega
        have h3 : (s * 2 ^ 63 + (k + 874) * 2 ^ 52 + lo) / 2 ^ 63 % 2 = s := by omega
        rw [h1, h2, h3, if_neg (by omega), if_neg (by omega)]
        have h4 : max 29 (926 - (k + 874)) = 52 - k := by omega
        rw [h4, hsig, round_shift_exact]
        omega
    · have e : f32_to_f64 x = s * 2 ^ 63 + (E + 896) * 2 ^ 52 + M * 2 ^ 29 := by
        unfold f32_to_f64 f64
        dsimp only
        rw [hS, hE, hM, if_neg h255, if_neg hE0]
      rw [e]
      unfold f64_to_f32 f32 f64
      dsimp only
      have h1 : (s * 2 ^ 63 + (E + 896) * 2 ^ 52 + M * 2 ^ 29) / 2 ^ 52 % 2 ^ 11 = E + 896 := by
        omega
      have h2 : (s * 2 ^ 63 + (E + 896) * 2 ^ 52 + M * 2 ^ 29) % 2 ^ 52 = M * 2 ^ 29 := by omega
      have h3 : (s * 2 ^ 63 + (E + 896) * 2 ^ 52 + M * 2 ^ 29) / 2 ^ 63 % 2 = s := by omega
      rw [h1, h2, h3, if_neg (by omega), if_neg (by omega)]
      have h4 : max 29 (926 - (E + 896)) = 29 := by omega
      have h5 : 2 ^ 52 + M * 2 ^ 29 = (2 ^ 23 + M) * 2 ^ 29 := by omega
      rw [h4, h5, round_shift_exact]
      omega

/-! ## Reading back the table of one component -/

theorem read_children_roundtrip (children : List Nat) (h : ∀ c ∈ children, c < 2 ^ 64) :
    (children.map (fun child => toml.node.string (std_to_string child))).mapM
      (fun child => do std_stoull (← deref child.as_string)) = Except.ok children := by
  induction children with
  | nil => rfl
  | cons c cs ih =>
    have hc := std_stoull_to_string c (h c (List.mem_cons_self _ _))
    have hcs := ih (fun x hx => h x (List.mem_cons_of_mem _ hx))
    rw [List.map_cons, List.mapM_cons, hcs]
    show (do let s ← std_stoull (std_to_string c); pure (s :: cs)) = Except.ok (c :: cs)
    rw [hc]
    rfl

theorem read_relationship_component_table (rc0 rc : RelationshipComponent)
    (hp : rc.parent < 2 ^ 64) (hc : ∀ c ∈ rc.children, c < 2 ^ 64) :
    read_relationship_component rc0 (.table (relationship_component_table rc))
      = .ok { parent := rc.parent, children := rc0.children ++ rc.children } := by
  have e : read_relationship_component rc0 (.table (relationship_component_table rc))
      = (do
          let parent ← std_stoull (std_to_string rc.parent)
          let children ← (rc.children.map
            (fun child => toml.node.string (std_to_string child))).mapM
              (fun child => do std_stoull (← deref child.as_string))
          pure { parent := parent, children := rc0.children ++ children }) := rfl
  rw [e, std_stoull_to_string _ hp, read_children_roundtrip _ hc]
  rfl

theorem read_transform_component_table (X : Externals) (c : TransformComponent)
    (position_r rotation_r scale_r : Vec3)
    (h_position : X.get_vec3_toml_array (some (X.get_toml_array c.position)) = .ok position_r)
    (h_rotation : X.get_vec3_toml_array (some (X.get_toml_array c.rotation)) = .ok rotation_r)
    (h_scale : X.get_vec3_toml_array (some (X.get_toml_array c.scale)) = .ok scale_r) :
    read_transform_component X (.table (transform_component_table X c))
      = .ok { position := position_r, rotation := rotation_r, scale := scale_r } := by
  have e : read_transform_component X (.table (transform_component_table X c))
      = (do
          let position ← X.get_vec3_toml_array (some (X.get_toml_array c.position))
          let rotation ← X.get_vec3_toml_array (some (X.get_toml_array c.rotation))
          let scale ← X.get_vec3_toml_array (some (X.get_toml_array c.scale))
          pure { position := position, rotation := rotation, scale := scale }) := rfl
  rw [e, h_position, h_rotation, h_scale]
  rfl

theorem read_transform_component_ok (X : Externals)
    (hX : ∀ v, ∃ r, X.get_vec3_toml_array (some (X.get_toml_array v)) = .ok r)
    (c : TransformComponent) :
    ∃ r, read_transform_component X (.table (transform_component_table X c)) = .ok r := by
  obtain ⟨position_r, h_position⟩ := hX c.position
  obtain ⟨rotation_r, h_rotation⟩ := hX c.rotation
  obtain ⟨scale_r, h_scale⟩ := hX c.scale
  exact ⟨_, read_transform_component_table X c position_r rotation_r scale_r
    h_position h_rotation h_scale⟩

theorem read_transform_component_quiet (X : Externals)
    (hX : ∀ v, (∀ x ∈ v.floats, f32.not_signaling x) →
      X.get_vec3_toml_array (some (X.get_toml_array v)) = .ok v)
    (c : TransformComponent) (hq : ∀ x ∈ c.floats, f32.not_signaling x) :
    read_transform_component X (.table (transform_component_table X c)) = .ok c := by
  have h_position := hX c.position
    (fun x hx => hq x (by simp [TransformComponent.floats, hx]))
  have h_rotation := hX c.rotation
    (fun x hx => hq x (by simp [TransformComponent.floats, hx]))
  have h_scale := hX c.scale (fun x hx => hq x (by simp [TransformComponent.floats, hx]))
  rw [read_transform_component_table X c c.position c.rotation c.scale
    h_position h_rotation h_scale]

theorem read_light_component_table (X : Externals) (c : LightComponent)
    (color_r : Vec3)
    (h_color : X.get_vec3_toml_array (some (X.get_toml_array c.color)) = .ok color_r)
    (h1 : is_int32 c.type)
    (h2 : c.temperature < 2 ^ 32)
    (h3 : is_int32 c.shadow_quality) :
    read_light_component X none (.table (light_component_table X c))
      = .ok
          { c with
            color := color_r
            intensity := f64_to_f32 (f32_to_f64 c.intensity)
            range := f64_to_f32 (f32_to_f64 c.range)
            cut_off_angle := f64_to_f32 (f32_to_f64 c.cut_off_angle)
            outer_cut_off_angle := f64_to_f32 (f32_to_f64 c.outer_cut_off_angle) } := by
  have e : read_light_component X none (.table (light_component_table X c))
      = (do
          let color_v ← X.get_vec3_toml_array (some (X.get_toml_array c.color))
          pure
            { c with
              type := int32_of_uint32 (uint32_of_int64 c.type)
              temperature := uint32_of_int64 (Int.ofNat c.temperature)
              shadow_quality := int32_of_uint32 (uint32_of_int64 c.shadow_quality)
              color := color_v
              intensity := f64_to_f32 (f32_to_f64 c.intensity)
              range := f64_to_f32 (f32_to_f64 c.range)
              cut_off_angle := f64_to_f32 (f32_to_f64 c.cut_off_angle)
              outer_cut_off_angle := f64_to_f32 (f32_to_f64 c.outer_cut_off_angle) }) := rfl
  rw [e,
    h_color,
    int32_of_uint32_of_int64 _ h1,
    uint32_of_int64_ofNat _ h2,
    int32_of_uint32_of_int64 _ h3]
  rfl

theorem read_light_component_ok (X : Externals)
    (hX : ∀ v, ∃ r, X.get_vec3_toml_array (some (X.get_toml_array v)) = .ok r)
    (c : LightComponent)
    (h1 : is_int32 c.type)
    (h2 : c.temperature < 2 ^ 32)
    (h3 : is_int32 c.shadow_quality) :
    ∃ r, read_light_component X none (.table (light_component_table X c)) = .ok r := by
  obtain ⟨color_r, h_color⟩ := hX c.color
  exact ⟨_, read_light_component_table X c color_r h_color h1 h2 h3⟩

theorem read_light_component_quiet (X : Externals)
    (hX : ∀ v, (∀ x ∈ v.floats, f32.not_signaling x) →
      X.get_vec3_toml_array (some (X.get_toml_array v)) = .ok v)
    (c : LightComponent) (hq : ∀ x ∈ c.floats, f32.not_signaling x)
    (h1 : is_int32 c.type)
    (h2 : c.temperature < 2 ^ 32)
    (h3 : is_int32 c.shadow_quality) :
    read_light_component X none (.table (light_component_table X c)) = .ok c := by
  have h_color := hX c.color (fun x hx => hq x (by simp [LightComponent.floats, hx]))
  rw [read_light_component_table X c c.color h_color h1 h2 h3]
  rw [f64_to_f32_f32_to_f64 c.intensity (hq _ (by simp [LightComponent.floats]))]
  rw [f64_to_f32_f32_to_f64 c.range (hq _ (by simp [LightComponent.floats]))]
  rw [f64_to_f32_f32_to_f64 c.cut_off_angle (hq _ (by simp [LightComponent.floats]))]
  rw [f64_to_f32_f32_to_f64 c.outer_cut_off_angle (hq _ (by simp [LightComponent.floats]))]

theorem read_post_process_probe_table (c : PostProcessProbe) :
    read_post_process_probe none (.table (post_process_probe_table c))
      = .ok
          { c with
            vignette_intensity := f64_to_f32 (f32_to_f64 c.vignette_intensity)
            film_grain_intensity := f64_to_f32 (f32_to_f64 c.film_grain_intensity)
            chromatic_aberration_intensity := f64_to_f32 (f32_to_f64 c.chromatic_aberration_intensity)
            sharpen_intensity := f64_to_f32 (f32_to_f64 c.sharpen_intensity) } := rfl

theorem read_post_process_probe_ok (c : PostProcessProbe) :
    ∃ r, read_post_process_probe none (.table (post_process_probe_table c)) = .ok r := by
  exact ⟨_, read_post_process_probe_table c⟩

theorem read_post_process_probe_quiet (c : PostProcessProbe)
    (hq : ∀ x ∈ c.floats, f32.not_signaling x) :
    read_post_process_probe none (.table (post_process_probe_table c)) = .ok c := by
  rw [read_post_process_probe_table c]
  rw [f64_to_f32_f32_to_f64 c.vignette_intensity (hq _ (by simp [PostProcessProbe.floats]))]
  rw [f64_to_f32_f32_to_f64 c.film_grain_intensity (hq _ (by simp [PostProcessProbe.floats]))]
  rw [f64_to_f32_f32_to_f64 c.chromatic_aberration_intensity
    (hq _ (by simp [PostProcessProbe.floats]))]
  rw [f64_to_f32_f32_to_f64 c.sharpen_intensity (hq _ (by simp [PostProcessProbe.floats]))]

theorem read_rigidbody_component_table (c : RigidbodyComponent)
    (h1 : is_int32 c.type) :
    read_rigidbody_component none (.table (rigidbody_component_table c))
      = .ok
          { c with
            mass := f64_to_f32 (f32_to_f64 c.mass)
            linear_drag := f64_to_f32 (f32_to_f64 c.linear_drag)
            angular_drag := f64_to_f32 (f32_to_f64 c.angular_drag)
            gravity_scale := f64_to_f32 (f32_to_f64 c.gravity_scale) } := by
  have e : read_rigidbody_component none (.table (rigidbody_component_table c))
      = .ok
          { c with
            type := int32_of_uint32 (uint32_of_int64 c.type)
            mass := f64_to_f32 (f32_to_f64 c.mass)
            linear_drag := f64_to_f32 (f32_to_f64 c.linear_drag)
            angular_drag := f64_to_f32 (f32_to_f64 c.angular_drag)
            gravity_scale := f64_to_f32 (f32_to_f64 c.gravity_scale) } := rfl
  rw [e, int32_of_uint32_of_int64 _ h1]

theorem read_rigidbody_component_ok (c : RigidbodyComponent)
    (h1 : is_int32 c.type) :
    ∃ r, read_rigidbody_component none (.table (rigidbody_component_table c)) = .ok r := by
  exact ⟨_, read_rigidbody_component_table c h1⟩

theorem read_rigidbody_component_quiet (c : RigidbodyComponent)
    (hq : ∀ x ∈ c.floats, f32.not_signaling x)
    (h1 : is_int32 c.type) :
    read_rigidbody_component none (.table (rigidbody_component_table c)) = .ok c := by
  rw [read_rigidbody_component_table c h1]
  rw [f64_to_f32_f32_to_f64 c.mass (hq _ (by simp [RigidbodyComponent.floats]))]
  rw [f64_to_f32_f32_to_f64 c.linear_drag (hq _ (by simp [RigidbodyComponent.floats]))]
  rw [f64_to_f32_f32_to_f64 c.angular_drag (hq _ (by simp [RigidbodyComponent.floats]))]
  rw [f64_to_f32_f32_to_f64 c.gravity_scale (hq _ (by simp [RigidbodyComponent.floats]))]

theorem read_box_collider_component_table (X : Externals) (c : BoxColliderComponent)
    (size_r offset_r : Vec3)
    (h_size : X.get_vec3_toml_array (some (X.get_toml_array c.size)) = .ok size_r)
    (h_offset : X.get_vec3_toml_array (some (X.get_toml_array c.offset)) = .ok offset_r) :
    read_box_collider_component X none
                (.table (box_collider_component_table X c))
      = .ok
          { c with
            size := size_r
            offset := offset_r
            density := f64_to_f32 (f32_to_f64 c.density)
            friction := f64_to_f32 (f32_to_f64 c.friction)
            restitution := f64_to_f32 (f32_to_f64 c.restitution) } := by
  have e : read_box_collider_component X none
                (.table (box_collider_component_table X c))
      = (do
          let size_v ← X.get_vec3_toml_array (some (X.get_toml_array c.size))
          let offset_v ← X.get_vec3_toml_array (some (X.get_toml_array c.offset))
          pure
            { c with
              size := size_v
              offset := offset_v
              density := f64_to_f32 (f32_to_f64 c.density)
              friction := f64_to_f32 (f32_to_f64 c.friction)
              restitution := f64_to_f32 (f32_to_f64 c.restitution) }) := rfl
  rw [e, h_size, h_offset]
  rfl

theorem read_box_collider_component_ok (X : Externals)
    (hX : ∀ v, ∃ r, X.get_vec3_toml_array (some (X.get_toml_array v)) = .ok r)
    (c : BoxColliderComponent) :
    ∃ r, read_box_collider_component X none
                (.table (box_collider_component_table X c)) = .ok r := by
  obtain ⟨size_r, h_size⟩ := hX c.size
  obtain ⟨offset_r, h_offset⟩ := hX c.offset
  exact ⟨_, read_box_collider_component_table X c size_r offset_r h_size h_offset⟩

theorem read_box_collider_component_quiet (X : Externals)
    (hX : ∀ v, (∀ x ∈ v.floats, f32.not_signaling x) →
      X.get_vec3_toml_array (some (X.get_toml_array v)) = .ok v)
    (c : BoxColliderComponent) (hq : ∀ x ∈ c.floats, f32.not_signaling x) :
    read_box_collider_component X none
                (.table (box_collider_component_table X c)) = .ok c := by
  have h_size := hX c.size (fun x hx => hq x (by simp [BoxColliderComponent.floats, hx]))
  have h_offset := hX c.offset (fun x hx => hq x (by simp [BoxColliderComponent.floats, hx]))
  rw [read_box_collider_component_table X c c.size c.offset h_size h_offset]
  rw [f64_to_f32_f32_to_f64 c.density (hq _ (by simp [BoxColliderComponent.floats]))]
  rw [f64_to_f32_f32_to_f64 c.friction (hq _ (by simp [BoxColliderComponent.floats]))]
  rw [f64_to_f32_f32_to_f64 c.restitution (hq _ (by simp [BoxColliderComponent.floats]))]

theorem read_sphere_collider_component_table (X : Externals) (c : SphereColliderComponent)
    (offset_r : Vec3)
    (h_offset : X.get_vec3_toml_array (some (X.get_toml_array c.offset)) = .ok offset_r) :
    read_sphere_collider_component X none
                (.table (sphere_collider_component_table X c))
      = .ok
          { c with
            offset := offset_r
            radius := f64_to_f32 (f32_to_f64 c.radius)
            density := f64_to_f32 (f32_to_f64 c.density)
            friction := f64_to_f32 (f32_to_f64 c.friction)
            restitution := f64_to_f32 (f32_to_f64 c.restitution) } := by
  have e : read_sphere_collider_component X none
                (.table (sphere_collider_component_table X c))
      = (do
          let offset_v ← X.get_vec3_toml_array (some (X.get_toml_array c.offset))
          pure
            { c with
              offset := offset_v
              radius := f64_to_f32 (f32_to_f64 c.radius)
              density := f64_to_f32 (f32_to_f64 c.density)
              friction := f64_to_f32 (f32_to_f64 c.friction)
              restitution := f64_to_f32 (f32_to_f64 c.restitution) }) := rfl
  rw [e, h_offset]
  rfl

theorem read_sphere_collider_component_ok (X : Externals)
    (hX : ∀ v, ∃ r, X.get_vec3_toml_array (some (X.get_toml_array v)) = .ok r)
    (c : SphereColliderComponent) :
    ∃ r, read_sphere_collider_component X none
                (.table (sphere_collider_component_table X c)) = .ok r := by
  obtain ⟨offset_r, h_offset⟩ := hX c.offset
  exact ⟨_, read_sphere_collider_component_table X c offset_r h_offset⟩

theorem read_sphere_collider_component_quiet (X : Externals)
    (hX : ∀ v, (∀ x ∈ v.floats, f32.not_signaling x) →
      X.get_vec3_toml_array (some (X.get_toml_array v)) = .ok v)
    (c : SphereColliderComponent) (hq : ∀ x ∈ c.floats, f32.not_signaling x) :
    read_sphere_collider_component X none
                (.table (sphere_collider_component_table X c)) = .ok c := by
  have h_offset := hX c.offset (fun x hx => hq x (by simp [SphereColliderComponent.floats, hx]))
  rw [read_sphere_collider_component_table X c c.offset h_offset]
  rw [f64_to_f32_f32_to_f64 c.radius (hq _ (by simp [SphereColliderComponent.floats]))]
  rw [f64_to_f32_f32_to_f64 c.density (hq _ (by simp [SphereColliderComponent.floats]))]
  rw [f64_to_f32_f32_to_f64 c.friction (hq _ (by simp [SphereColliderComponent.floats]))]
  rw [f64_to_f32_f32_to_f64 c.restitution (hq _ (by simp [SphereColliderComponent.floats]))]

theorem read_capsule_collider_component_table (X : Externals) (c : CapsuleColliderComponent)
    (offset_r : Vec3)
    (h_offset : X.get_vec3_toml_array (some (X.get_toml_array c.offset)) = .ok offset_r) :
    read_capsule_collider_component X none
                (.table (capsule_collider_component_table X c))
      = .ok
          { c with
            offset := offset_r
            height := f64_to_f32 (f32_to_f64 c.height)
            radius := f64_to_f32 (f32_to_f64 c.radius)
            density := f64_to_f32 (f32_to_f64 c.density)
            friction := f64_to_f32 (f32_to_f64 c.friction)
            restitution := f64_to_f32 (f32_to_f64 c.restitution) } := by
  have e : read_capsule_collider_component X none
                (.table (capsule_collider_component_table X c))
      = (do
          let offset_v ← X.get_vec3_toml_array (some (X.get_toml_array c.offset))
          pure
            { c with
              offset := offset_v
              height := f64_to_f32 (f32_to_f64 c.height)
              radius := f64_to_f32 (f32_to_f64 c.radius)
              density := f64_to_f32 (f32_to_f64 c.density)
              friction := f64_to_f32 (f32_to_f64 c.friction)
              restitution := f64_to_f32 (f32_to_f64 c.restitution) }) := rfl
  rw [e, h_offset]
  rfl

theorem read_capsule_collider_component_ok (X : Externals)
    (hX : ∀ v, ∃ r, X.get_vec3_toml_array (some (X.get_toml_array v)) = .ok r)
    (c : CapsuleColliderComponent) :
    ∃ r, read_capsule_collider_component X none
                (.table (capsule_collider_component_table X c)) = .ok r := by
  obtain ⟨offset_r, h_offset⟩ := hX c.offset
  exact ⟨_, read_capsule_collider_component_table X c offset_r h_offset⟩

theorem read_capsule_collider_component_quiet (X : Externals)
    (hX : ∀ v, (∀ x ∈ v.floats, f32.not_signaling x) →
      X.get_vec3_toml_array (some (X.get_toml_array v)) = .ok v)
    (c : CapsuleColliderComponent) (hq : ∀ x ∈ c.floats, f32.not_signaling x) :
    read_capsule_collider_component X none
                (.table (capsule_collider_component_table X c)) = .ok c := by
  have h_offset := hX c.offset (fun x hx => hq x (by simp [CapsuleColliderComponent.floats, hx]))
  rw [read_capsule_collider_component_table X c c.offset h_offset]
  rw [f64_to_f32_f32_to_f64 c.height (hq _ (by simp [CapsuleColliderComponent.floats]))]
  rw [f64_to_f32_f32_to_f64 c.radius (hq _ (by simp [CapsuleColliderComponent.floats]))]
  rw [f64_to_f32_f32_to_f64 c.density (hq _ (by simp [CapsuleColliderComponent.floats]))]
  rw [f64_to_f32_f32_to_f64 c.friction (hq _ (by simp [CapsuleColliderComponent.floats]))]
  rw [f64_to_f32_f32_to_f64 c.restitution (hq _ (by simp [CapsuleColliderComponent.floats]))]

theorem read_cylinder_collider_component_table (X : Externals) (c : CylinderColliderComponent)
    (offset_r : Vec3)
    (h_offset : X.get_vec3_toml_array (some (X.get_toml_array c.offset)) = .ok offset_r) :
    read_cylinder_collider_component X none
                (.table (cylinder_collider_component_table X c))
      = .ok
          { c with
            offset := offset_r
            height := f64_to_f32 (f32_to_f64 c.height)
            radius := f64_to_f32 (f32_to_f64 c.radius)
            density := f64_to_f32 (f32_to_f64 c.density)
            friction := f64_to_f32 (f32_to_f64 c.friction)
            restitution := f64_to_f32 (f32_to_f64 c.restitution) } := by
  have e : read_cylinder_collider_component X none
                (.table (cylinder_collider_component_table X c))
      = (do
          let offset_v ← X.get_vec3_toml_array (some (X.get_toml_array c.offset))
          pure
            { c with
              offset := offset_v
              height := f64_to_f32 (f32_to_f64 c.height)
              radius := f64_to_f32 (f32_to_f64 c.radius)
              density := f64_to_f32 (f32_to_f64 c.density)
              friction := f64_to_f32 (f32_to_f64 c.friction)
              restitution := f64_to_f32 (f32_to_f64 c.restitution) }) := rfl
  rw [e, h_offset]
  rfl

theorem read_cylinder_collider_component_ok (X : Externals)
    (hX : ∀ v, ∃ r, X.get_vec3_toml_array (some (X.get_toml_array v)) = .ok r)
    (c : CylinderColliderComponent) :
    ∃ r, read_cylinder_collider_component X none
                (.table (cylinder_collider_component_table X c)) = .ok r := by
  obtain ⟨offset_r, h_offset⟩ := hX c.offset
  exact ⟨_, read_cylinder_collider_component_table X c offset_r h_offset⟩

theorem read_cylinder_collider_component_quiet (X : Externals)
    (hX : ∀ v, (∀ x ∈ v.floats, f32.not_signaling x) →
      X.get_vec3_toml_array (some (X.get_toml_array v)) = .ok v)
    (c : CylinderColliderComponent) (hq : ∀ x ∈ c.floats, f32.not_signaling x) :
    read_cylinder_collider_component X none
                (.table (cylinder_collider_component_table X c)) = .ok c := by
  have h_offset := hX c.offset (fun x hx => hq x (by simp [CylinderColliderComponent.floats, hx]))
  rw [read_cylinder_collider_component_table X c c.offset h_offset]
  rw [f64_to_f32_f32_to_f64 c.height (hq _ (by simp [CylinderColliderComponent.floats]))]
  rw [f64_to_f32_f32_to_f64 c.radius (hq _ (by simp [CylinderColliderComponent.floats]))]
  rw [f64_to_f32_f32_to_f64 c.density (hq _ (by simp [CylinderColliderComponent.floats]))]
  rw [f64_to_f32_f32_to_f64 c.friction (hq _ (by simp [CylinderColliderComponent.floats]))]
  rw [f64_to_f32_f32_to_f64 c.restitution (hq _ (by simp [CylinderColliderComponent.floats]))]

theorem read_mesh_collider_component_table (X : Externals) (c : MeshColliderComponent)
    (offset_r : Vec3)
    (h_offset : X.get_vec3_toml_array (some (X.get_toml_array c.offset)) = .ok offset_r) :
    read_mesh_collider_component X none
                (.table (mesh_collider_component_table X c))
      = .ok
          { c with
            offset := offset_r
            friction := f64_to_f32 (f32_to_f64 c.friction)
            restitution := f64_to_f32 (f32_to_f64 c.restitution) } := by
  have e : read_mesh_collider_component X none
                (.table (mesh_collider_component_table X c))
      = (do
          let offset_v ← X.get_vec3_toml_array (some (X.get_toml_array c.offset))
          pure
            { c with
              offset := offset_v
              friction := f64_to_f32 (f32_to_f64 c.friction)
              restitution := f64_to_f32 (f32_to_f64 c.restitution) }) := rfl
  rw [e, h_offset]
  rfl

theorem read_mesh_collider_component_ok (X : Externals)
    (hX : ∀ v, ∃ r, X.get_vec3_toml_array (some (X.get_toml_array v)) = .ok r)
    (c : MeshColliderComponent) :
    ∃ r, read_mesh_collider_component X none
                (.table (mesh_collider_component_table X c)) = .ok r := by
  obtain ⟨offset_r, h_offset⟩ := hX c.offset
  exact ⟨_, read_mesh_collider_component_table X c offset_r h_offset⟩

theorem read_mesh_collider_component_quiet (X : Externals)
    (hX : ∀ v, (∀ x ∈ v.floats, f32.not_signaling x) →
      X.get_vec3_toml_array (some (X.get_toml_array v)) = .ok v)
    (c : MeshColliderComponent) (hq : ∀ x ∈ c.floats, f32.not_signaling x) :
    read_mesh_collider_component X none
                (.table (mesh_collider_component_table X c)) = .ok c := by
  have h_offset := hX c.offset (fun x hx => hq x (by simp [MeshColliderComponent.floats, hx]))
  rw [read_mesh_collider_component_table X c c.offset h_offset]
  rw [f64_to_f32_f32_to_f64 c.friction (hq _ (by simp [MeshColliderComponent.floats]))]
  rw [f64_to_f32_f32_to_f64 c.restitution (hq _ (by simp [MeshColliderComponent.floats]))]

theorem read_character_controller_component_table (c : CharacterControllerComponent) :
    read_character_controller_component none
                (.table (character_controller_component_table c))
      = .ok
          { c with
            character_height_standing := f64_to_f32 (f32_to_f64 c.character_height_standing)
            character_radius_standing := f64_to_f32 (f32_to_f64 c.character_radius_standing)
            character_height_crouching := f64_to_f32 (f32_to_f64 c.character_height_crouching)
            character_radius_crouching := f64_to_f32 (f32_to_f64 c.character_radius_crouching)
            jump_force := f64_to_f32 (f32_to_f64 c.jump_force)
            friction := f64_to_f32 (f32_to_f64 c.friction)
            collision_tolerance := f64_to_f32 (f32_to_f64 c.collision_tolerance) } := rfl

theorem read_character_controller_component_ok (c : CharacterControllerComponent) :
    ∃ r, read_character_controller_component none
                (.table (character_controller_component_table c)) = .ok r := by
  exact ⟨_, read_character_controller_component_table c⟩

theorem read_character_controller_component_quiet (c : CharacterControllerComponent)
    (hq : ∀ x ∈ c.floats, f32.not_signaling x) :
    read_character_controller_component none
                (.table (character_controller_component_table c)) = .ok c := by
  rw [read_character_controller_component_table c]
  rw [f64_to_f32_f32_to_f64 c.character_height_standing
    (hq _ (by simp [CharacterControllerComponent.floats]))]
  rw [f64_to_f32_f32_to_f64 c.character_radius_standing
    (hq _ (by simp [CharacterControllerComponent.floats]))]
  rw [f64_to_f32_f32_to_f64 c.character_height_crouching
    (hq _ (by simp [CharacterControllerComponent.floats]))]
  rw [f64_to_f32_f32_to_f64 c.character_radius_crouching
    (hq _ (by simp [CharacterControllerComponent.floats]))]
  rw [f64_to_f32_f32_to_f64 c.jump_force (hq _ (by simp [CharacterControllerComponent.floats]))]
  rw [f64_to_f32_f32_to_f64 c.friction (hq _ (by simp [CharacterControllerComponent.floats]))]
  rw [f64_to_f32_f32_to_f64 c.collision_tolerance
    (hq _ (by simp [CharacterControllerComponent.floats]))]

/-! ## Loading the tables of one entity -/

theorem push_if_present_append {C : Type} (entities : List toml.node) (c : Option C)
    (key : String) (table : C → List (String × toml.node)) :
    push_if_present entities c key table = entities ++ push_if_present [] c key table := by
  cases c <;> simp [push_if_present, push_component]

theorem load_append (X : Externals) (d : Entity) (l₁ l₂ : List toml.node) :
    (l₁ ++ l₂).foldlM (deserialize_component X) d
      = (do let d' ← l₁.foldlM (deserialize_component X) d
            l₂.foldlM (deserialize_component X) d') :=
  List.foldlM_append ..

theorem load_singleton (X : Externals) (d : Entity) (C : Type) (c : C) (key : String)
    (table : C → List (String × toml.node)) :
    (push_if_present [] (some c) key table).foldlM (deserialize_component X) d
      = (do let d' ← deserialize_component X d (.table [(key, .table (table c))])
            pure d') := rfl

theorem load_relationship_component (X : Externals) (d : Entity)
    (c : Option RelationshipComponent)
    (hwf : ∀ rc, c = some rc → rc.parent < 2 ^ 64 ∧ ∀ ch ∈ rc.children, ch < 2 ^ 64)
    (hd : ∀ rc, d.relationship = some rc → rc.children = []) :
    (push_if_present [] c "relationship_component" relationship_component_table).foldlM
        (deserialize_component X) d
      = .ok { d with relationship := c.orElse (fun _ => d.relationship) } := by
  cases c with
  | none => rfl
  | some rc =>
    obtain ⟨h1, h2⟩ := hwf rc rfl
    have e : deserialize_component X d
          (.table [("relationship_component", .table (relationship_component_table rc))])
        = (do
            let r ← read_relationship_component
              (d.relationship.getD { parent := 0, children := [] })
              (.table (relationship_component_table rc))
            pure { d with relationship := some r }) := rfl
    rw [load_singleton, e, read_relationship_component_table _ rc h1 h2]
    have hnil : (d.relationship.getD { parent := 0, children := [] }).children = [] := by
      cases hr : d.relationship with
      | none => rfl
      | some r => exact hd r hr
    rw [hnil]
    rfl

theorem load_transform_component (X : Externals) (d : Entity) (c : Option TransformComponent)
    (hok : ∀ c', c = some c' →
      ∃ r, read_transform_component X (.table (transform_component_table X c')) = .ok r) :
    (push_if_present [] c "transform_component" (transform_component_table X)).foldlM
        (deserialize_component X) d
      = .ok { d with
          transform := (c.bind (fun c' =>
            (read_transform_component X
              (.table (transform_component_table X c'))).toOption)).orElse
                (fun _ => d.transform) } := by
  cases c with
  | none => rfl
  | some c' =>
    obtain ⟨r, hr⟩ := hok c' rfl
    have e : deserialize_component X d
          (.table [("transform_component", .table (transform_component_table X c'))])
        = (do
            let r ← read_transform_component X (.table (transform_component_table X c'))
            pure { d with transform := some r }) := rfl
    have e2 : (some c').bind (fun c' =>
          (read_transform_component X (.table (transform_component_table X c'))).toOption)
        = (read_transform_component X (.table (transform_component_table X c'))).toOption := rfl
    rw [load_singleton, e, e2, hr]
    rfl

theorem load_light_component (X : Externals) (d : Entity)
    (c : Option LightComponent)
    (hok : ∀ c', c = some c' →
      ∃ r, read_light_component X none (.table (light_component_table X c')) = .ok r)
    (hd : d.light = none) :
    (push_if_present [] c "light_component" (light_component_table X)).foldlM
        (deserialize_component X) d
      = .ok { d with
          light := c.bind (fun c' =>
            (read_light_component X none (.table (light_component_table X c'))).toOption) } := by
  cases c with
  | none =>
    cases d
    simp only at hd
    subst hd
    rfl
  | some c' =>
    obtain ⟨r, hr⟩ := hok c' rfl
    have e : deserialize_component X d
          (.table [("light_component", .table (light_component_table X c'))])
        = (do
            let r ← read_light_component X d.light
              (.table (light_component_table X c'))
            pure { d with light := some r }) := rfl
    have e2 : (some c').bind (fun c' =>
          (read_light_component X none (.table (light_component_table X c'))).toOption)
        = (read_light_component X none (.table (light_component_table X c'))).toOption :=
      rfl
    rw [load_singleton, e, hd, e2, hr]
    rfl

theorem load_post_process_probe_component (X : Externals) (d : Entity)
    (c : Option PostProcessProbe)
    (hok : ∀ c', c = some c' →
      ∃ r, read_post_process_probe none (.table (post_process_probe_table c')) = .ok r)
    (hd : d.post_process_probe = none) :
    (push_if_present [] c "post_process_probe" post_process_probe_table).foldlM
        (deserialize_component X) d
      = .ok { d with
          post_process_probe := c.bind (fun c' =>
            (read_post_process_probe none (.table (post_process_probe_table c'))).toOption) } := by
  cases c with
  | none =>
    cases d
    simp only at hd
    subst hd
    rfl
  | some c' =>
    obtain ⟨r, hr⟩ := hok c' rfl
    have e : deserialize_component X d
          (.table [("post_process_probe", .table (post_process_probe_table c'))])
        = (do
            let r ← read_post_process_probe d.post_process_probe
              (.table (post_process_probe_table c'))
            pure { d with post_process_probe := some r }) := rfl
    have e2 : (some c').bind (fun c' =>
          (read_post_process_probe none (.table (post_process_probe_table c'))).toOption)
        = (read_post_process_probe none (.table (post_process_probe_table c'))).toOption :=
      rfl
    rw [load_singleton, e, hd, e2, hr]
    rfl

theorem load_rigidbody_component (X : Externals) (d : Entity)
    (c : Option RigidbodyComponent)
    (hok : ∀ c', c = some c' →
      ∃ r, read_rigidbody_component none (.table (rigidbody_component_table c')) = .ok r)
    (hd : d.rigidbody = none) :
    (push_if_present [] c "rigidbody_component" rigidbody_component_table).foldlM
        (deserialize_component X) d
      = .ok { d with
          rigidbody := c.bind (fun c' =>
            (read_rigidbody_component none (.table (rigidbody_component_table c'))).toOption) } := by
  cases c with
  | none =>
    cases d
    simp only at hd
    subst hd
    rfl
  | some c' =>
    obtain ⟨r, hr⟩ := hok c' rfl
    have e : deserialize_component X d
          (.table [("rigidbody_component", .table (rigidbody_component_table c'))])
        = (do
            let r ← read_rigidbody_component d.rigidbody
              (.table (rigidbody_component_table c'))
            pure { d with rigidbody := some r }) := rfl
    have e2 : (some c').bind (fun c' =>
          (read_rigidbody_component none (.table (rigidbody_component_table c'))).toOption)
        = (read_rigidbody_component none (.table (rigidbody_component_table c'))).toOption :=
      rfl
    rw [load_singleton, e, hd, e2, hr]
    rfl

theorem load_box_collider_component (X : Externals) (d : Entity)
    (c : Option BoxColliderComponent)
    (hok : ∀ c', c = some c' →
      ∃ r, read_box_collider_component X none
                (.table (box_collider_component_table X c')) = .ok r)
    (hd : d.box_collider = none) :
    (push_if_present [] c "box_collider_component" (box_collider_component_table X)).foldlM
        (deserialize_component X) d
      = .ok { d with
          box_collider := c.bind (fun c' =>
            (read_box_collider_component X none
                (.table (box_collider_component_table X c'))).toOption) } := by
  cases c with
  | none =>
    cases d
    simp only at hd
    subst hd
    rfl
  | some c' =>
    obtain ⟨r, hr⟩ := hok c' rfl
    have e : deserialize_component X d
          (.table [("box_collider_component", .table (box_collider_component_table X c'))])
        = (do
            let r ← read_box_collider_component X d.box_collider
              (.table (box_collider_component_table X c'))
            pure { d with box_collider := some r }) := rfl
    have e2 : (some c').bind (fun c' =>
          (read_box_collider_component X none
                (.table (box_collider_component_table X c'))).toOption)
        = (read_box_collider_component X none
                (.table (box_collider_component_table X c'))).toOption :=
      rfl
    rw [load_singleton, e, hd, e2, hr]
    rfl

theorem load_sphere_collider_component (X : Externals) (d : Entity)
    (c : Option SphereColliderComponent)
    (hok : ∀ c', c = some c' →
      ∃ r, read_sphere_collider_component X none
                (.table (sphere_collider_component_table X c')) = .ok r)
    (hd : d.sphere_collider = none) :
    (push_if_present [] c "sphere_collider_component" (sphere_collider_component_table X)).foldlM
        (deserialize_component X) d
      = .ok { d with
          sphere_collider := c.bind (fun c' =>
            (read_sphere_collider_component X none
                (.table (sphere_collider_component_table X c'))).toOption) } := by
  cases c with
  | none =>
    cases d
    simp only at hd
    subst hd
    rfl
  | some c' =>
    obtain ⟨r, hr⟩ := hok c' rfl
    have e : deserialize_component X d
          (.table [("sphere_collider_component", .table (sphere_collider_component_table X c'))])
        = (do
            let r ← read_sphere_collider_component X d.sphere_collider
              (.table (sphere_collider_component_table X c'))
            pure { d with sphere_collider := some r }) := rfl
    have e2 : (some c').bind (fun c' =>
          (read_sphere_collider_component X none
                (.table (sphere_collider_component_table X c'))).toOption)
        = (read_sphere_collider_component X none
                (.table (sphere_collider_component_table X c'))).toOption :=
      rfl
    rw [load_singleton, e, hd, e2, hr]
    rfl

theorem load_capsule_collider_component (X : Externals) (d : Entity)
    (c : Option CapsuleColliderComponent)
    (hok : ∀ c', c = some c' →
      ∃ r, read_capsule_collider_component X none
                (.table (capsule_collider_component_table X c')) = .ok r)
    (hd : d.capsule_collider = none) :
    (push_if_present [] c "capsule_collider_component" (capsule_collider_component_table X)).foldlM
        (deserialize_component X) d
      = .ok { d with
          capsule_collider := c.bind (fun c' =>
            (read_capsule_collider_component X none
                (.table (capsule_collider_component_table X c'))).toOption) } := by
  cases c with
  | none =>
    cases d
    simp only at hd
    subst hd
    rfl
  | some c' =>
    obtain ⟨r, hr⟩ := hok c' rfl
    have e : deserialize_component X d
          (.table [("capsule_collider_component", .table (capsule_collider_component_table X c'))])
        = (do
            let r ← read_capsule_collider_component X d.capsule_collider
              (.table (capsule_collider_component_table X c'))
            pure { d with capsule_collider := some r }) := rfl
    have e2 : (some c').bind (fun c' =>
          (read_capsule_collider_component X none
                (.table (capsule_collider_component_table X c'))).toOption)
        = (read_capsule_collider_component X none
                (.table (capsule_collider_component_table X c'))).toOption :=
      rfl
    rw [load_singleton, e, hd, e2, hr]
    rfl

theorem load_cylinder_collider_component (X : Externals) (d : Entity)
    (c : Option CylinderColliderComponent)
    (hok : ∀ c', c = some c' →
      ∃ r, read_cylinder_collider_component X none
                (.table (cylinder_collider_component_table X c')) = .ok r)
    (hd : d.cylinder_collider = none) :
    (push_if_present [] c "cylinder_collider_component" (cylinder_collider_component_table X)).foldlM
        (deserialize_component X) d
      = .ok { d with
          cylinder_collider := c.bind (fun c' =>
            (read_cylinder_collider_component X none
                (.table (cylinder_collider_component_table X c'))).toOption) } := by
  cases c with
  | none =>
    cases d
    simp only at hd
    subst hd
    rfl
  | some c' =>
    obtain ⟨r, hr⟩ := hok c' rfl
    have e : deserialize_component X d
          (.table [("cylinder_collider_component", .table (cylinder_collider_component_table X c'))])
        = (do
            let r ← read_cylinder_collider_component X d.cylinder_collider
              (.table (cylinder_collider_component_table X c'))
            pure { d with cylinder_collider := some r }) := rfl
    have e2 : (some c').bind (fun c' =>
          (read_cylinder_collider_component X none
                (.table (cylinder_collider_component_table X c'))).toOption)
        = (read_cylinder_collider_component X none
                (.table (cylinder_collider_component_table X c'))).toOption :=
      rfl
    rw [load_singleton, e, hd, e2, hr]
    rfl

theorem load_mesh_collider_component (X : Externals) (d : Entity)
    (c : Option MeshColliderComponent)
    (hok : ∀ c', c = some c' →
      ∃ r, read_mesh_collider_component X none
                (.table (mesh_collider_component_table X c')) = .ok r)
    (hd : d.mesh_collider = none) :
    (push_if_present [] c "mesh_collider_component" (mesh_collider_component_table X)).foldlM
        (deserialize_component X) d
      = .ok { d with
          mesh_collider := c.bind (fun c' =>
            (read_mesh_collider_component X none
                (.table (mesh_collider_component_table X c'))).toOption) } := by
  cases c with
  | none =>
    cases d
    simp only at hd
    subst hd
    rfl
  | some c' =>
    obtain ⟨r, hr⟩ := hok c' rfl
    have e : deserialize_component X d
          (.table [("mesh_collider_component", .table (mesh_collider_component_table X c'))])
        = (do
            let r ← read_mesh_collider_component X d.mesh_collider
              (.table (mesh_collider_component_table X c'))
            pure { d with mesh_collider := some r }) := rfl
    have e2 : (some c').bind (fun c' =>
          (read_mesh_collider_component X none
                (.table (mesh_collider_component_table X c'))).toOption)
        = (read_mesh_collider_component X none
                (.table (mesh_collider_component_table X c'))).toOption :=
      rfl
    rw [load_singleton, e, hd, e2, hr]
    rfl

theorem load_character_controller_component (X : Externals) (d : Entity)
    (c : Option CharacterControllerComponent)
    (hok : ∀ c', c = some c' →
      ∃ r, read_character_controller_component none
                (.table (character_controller_component_table c')) = .ok r)
    (hd : d.character_controller = none) :
    (push_if_present [] c "character_controller_component" character_controller_component_table).foldlM
        (deserialize_component X) d
      = .ok { d with
          character_controller := c.bind (fun c' =>
            (read_character_controller_component none
                (.table (character_controller_component_table c'))).toOption) } := by
  cases c with
  | none =>
    cases d
    simp only at hd
    subst hd
    rfl
  | some c' =>
    obtain ⟨r, hr⟩ := hok c' rfl
    have e : deserialize_component X d
          (.table [("character_controller_component", .table (character_controller_component_table c'))])
        = (do
            let r ← read_character_controller_component d.character_controller
              (.table (character_controller_component_table c'))
            pure { d with character_controller := some r }) := rfl
    have e2 : (some c').bind (fun c' =>
          (read_character_controller_component none
                (.table (character_controller_component_table c'))).toOption)
        = (read_character_controller_component none
                (.table (character_controller_component_table c'))).toOption :=
      rfl
    rw [load_singleton, e, hd, e2, hr]
    rfl

theorem push_if_present_none {C : Type} (entities : List toml.node) (key : String)
    (table : C → List (String × toml.node)) :
    push_if_present entities (none : Option C) key table = entities := rfl

theorem push_if_present_some {C : Type} (entities : List toml.node) (c : C) (key : String)
    (table : C → List (String × toml.node)) :
    push_if_present entities (some c) key table
      = entities ++ [.table [(key, .table (table c))]] := rfl

theorem except_ok_bind {ε α β : Type} (a : α) (f : α → Except ε β) :
    (Except.ok a >>= f) = f a := rfl

theorem deserialize_entity_head (X : Externals) (scene : Scene) (us : String)
    (tag : TagComponent) (rest : List toml.node) (preserve_uuid : Bool) :
    deserialize_entity X scene
        (.table [("uuid", .string us)] ::
          .table [("tag_component", .table (tag_component_table tag))] :: rest) preserve_uuid
      = (do
          let uuid ← std_stoull us
          rest.foldlM (deserialize_component X)
            { (if preserve_uuid then scene.create_entity_with_uuid uuid tag.tag
               else scene.create_entity tag.tag) with tag := some tag }) := rfl

theorem serialize_entity_plain (X : Externals) (e : Entity) (tag : TagComponent)
    (htag : e.tag = some tag)
    (hmesh : e.mesh = none) (hsky : e.sky_light = none) (hcam : e.camera = none)
    (htcc : e.tapered_capsule_collider = none) (hlua : e.lua_script = none) :
    serialize_entity X [] e = .ok
      (.table [("uuid", .string (std_to_string e.uuid))] ::
        .table [("tag_component", .table (tag_component_table tag))] ::
        (push_if_present [] e.relationship "relationship_component"
            relationship_component_table ++
        (push_if_present [] e.transform "transform_component" (transform_component_table X) ++
        (push_if_present [] e.light "light_component" (light_component_table X) ++
        (push_if_present [] e.post_process_probe "post_process_probe"
            post_process_probe_table ++
        (push_if_present [] e.rigidbody "rigidbody_component" rigidbody_component_table ++
        (push_if_present [] e.box_collider "box_collider_component"
            (box_collider_component_table X) ++
        (push_if_present [] e.sphere_collider "sphere_collider_component"
            (sphere_collider_component_table X) ++
        (push_if_present [] e.capsule_collider "capsule_collider_component"
            (capsule_collider_component_table X) ++
        (push_if_present [] e.cylinder_collider "cylinder_collider_component"
            (cylinder_collider_component_table X) ++
        (push_if_present [] e.mesh_collider "mesh_collider_component"
            (mesh_collider_component_table X) ++
        push_if_present [] e.character_controller "character_controller_component"
            character_controller_component_table))))))))))) := by
  unfold serialize_entity
  rw [htag, hmesh, hsky, hcam, htcc, hlua]
  simp only [push_if_present_none, push_if_present_some]
  rw [push_if_present_append _ e.character_controller,
    push_if_present_append _ e.mesh_collider,
    push_if_present_append _ e.cylinder_collider,
    push_if_present_append _ e.capsule_collider,
    push_if_present_append _ e.sphere_collider,
    push_if_present_append _ e.box_collider,
    push_if_present_append _ e.rigidbody,
    push_if_present_append _ e.post_process_probe,
    push_if_present_append _ e.light,
    push_if_present_append _ e.transform,
    push_if_present_append _ e.relationship]
  simp only [List.append_assoc, List.nil_append, List.cons_append]
  rfl

theorem option_bind_toOption {ε C : Type} (c : Option C) (f : C → Except ε C)
    (h : ∀ c', c = some c' → f c' = .ok c') :
    c.bind (fun c' => (f c').toOption) = c := by
  cases c with
  | none => rfl
  | some c' =>
    show (f c').toOption = some c'
    rw [h c' rfl]
    rfl

/-- The loop of `deserialize_entity` over the tables that `serialize_entity` built for the
plain-data components, started on an entity `d` that has none of the components added with
`registry.emplace` and no children, when every table is read without a fault: each component
of the result is the one read from its table. -/
theorem load_plain_components (X : Externals) (e d : Entity) (hwf : e.wf)
    (hrel : ∀ rc, d.relationship = some rc → rc.children = [])
    (hlight : d.light = none) (hpp : d.post_process_probe = none) (hrb : d.rigidbody = none)
    (hbox : d.box_collider = none) (hsph : d.sphere_collider = none)
    (hcap : d.capsule_collider = none) (hcyl : d.cylinder_collider = none)
    (hmc : d.mesh_collider = none) (hchc : d.character_controller = none)
    (hok_transform : ∀ c, e.transform = some c →
      ∃ r, read_transform_component X (.table (transform_component_table X c)) = .ok r)
    (hok_light : ∀ c, e.light = some c →
      ∃ r, read_light_component X none (.table (light_component_table X c)) = .ok r)
    (hok_post_process_probe : ∀ c, e.post_process_probe = some c →
      ∃ r, read_post_process_probe none (.table (post_process_probe_table c)) = .ok r)
    (hok_rigidbody : ∀ c, e.rigidbody = some c →
      ∃ r, read_rigidbody_component none (.table (rigidbody_component_table c)) = .ok r)
    (hok_box_collider : ∀ c, e.box_collider = some c →
      ∃ r, read_box_collider_component X none (.table (box_collider_component_table X c)) = .ok r)
    (hok_sphere_collider : ∀ c, e.sphere_collider = some c →
      ∃ r, read_sphere_collider_component X none (.table (sphere_collider_component_table X c)) = .ok r)
    (hok_capsule_collider : ∀ c, e.capsule_collider = some c →
      ∃ r, read_capsule_collider_component X none (.table (capsule_collider_component_table X c)) = .ok r)
    (hok_cylinder_collider : ∀ c, e.cylinder_collider = some c →
      ∃ r, read_cylinder_collider_component X none (.table (cylinder_collider_component_table X c)) = .ok r)
    (hok_mesh_collider : ∀ c, e.mesh_collider = some c →
      ∃ r, read_mesh_collider_component X none (.table (mesh_collider_component_table X c)) = .ok r)
    (hok_character_controller : ∀ c, e.character_controller = some c →
      ∃ r, read_character_controller_component none (.table (character_controller_component_table c)) = .ok r) :
    (push_if_present [] e.relationship "relationship_component"
            relationship_component_table ++
        (push_if_present [] e.transform "transform_component" (transform_component_table X) ++
        (push_if_present [] e.light "light_component" (light_component_table X) ++
        (push_if_present [] e.post_process_probe "post_process_probe"
            post_process_probe_table ++
        (push_if_present [] e.rigidbody "rigidbody_component" rigidbody_component_table ++
        (push_if_present [] e.box_collider "box_collider_component"
            (box_collider_component_table X) ++
        (push_if_present [] e.sphere_collider "sphere_collider_component"
            (sphere_collider_component_table X) ++
        (push_if_present [] e.capsule_collider "capsule_collider_component"
            (capsule_collider_component_table X) ++
        (push_if_present [] e.cylinder_collider "cylinder_collider_component"
            (cylinder_collider_component_table X) ++
        (push_if_present [] e.mesh_collider "mesh_collider_component"
            (mesh_collider_component_table X) ++
        push_if_present [] e.character_controller "character_controller_component"
            character_controller_component_table)))))))))).foldlM
      (deserialize_component X) d
    = .ok { d with
        relationship := e.relationship.orElse (fun _ => d.relationship)
        transform := (e.transform.bind (fun c =>
          (read_transform_component X (.table (transform_component_table X c))).toOption)).orElse
            (fun _ => d.transform)
        light := e.light.bind (fun c =>
          (read_light_component X none (.table (light_component_table X c))).toOption)
        post_process_probe := e.post_process_probe.bind (fun c =>
          (read_post_process_probe none (.table (post_process_probe_table c))).toOption)
        rigidbody := e.rigidbody.bind (fun c =>
          (read_rigidbody_component none (.table (rigidbody_component_table c))).toOption)
        box_collider := e.box_collider.bind (fun c =>
          (read_box_collider_component X none (.table (box_collider_component_table X c))).toOption)
        sphere_collider := e.sphere_collider.bind (fun c =>
          (read_sphere_collider_component X none (.table (sphere_collider_component_table X c))).toOption)
        capsule_collider := e.capsule_collider.bind (fun c =>
          (read_capsule_collider_component X none (.table (capsule_collider_component_table X c))).toOption)
        cylinder_collider := e.cylinder_collider.bind (fun c =>
          (read_cylinder_collider_component X none (.table (cylinder_collider_component_table X c))).toOption)
        mesh_collider := e.mesh_collider.bind (fun c =>
          (read_mesh_collider_component X none (.table (mesh_collider_component_table X c))).toOption)
        character_controller := e.character_controller.bind (fun c =>
          (read_character_controller_component none (.table (character_controller_component_table c))).toOption) } := by
  obtain ⟨_, hwrel, _, _, _⟩ := hwf
  rw [load_append, load_relationship_component X d e.relationship hwrel hrel, except_ok_bind,
    load_append, load_transform_component X _ _ hok_transform, except_ok_bind]
  dsimp only
  rw [load_append, load_light_component X _ _ hok_light, except_ok_bind]
  swap
  · exact hlight
  dsimp only
  rw [load_append, load_post_process_probe_component X _ _ hok_post_process_probe,
    except_ok_bind]
  swap
  · exact hpp
  dsimp only
  rw [load_append, load_rigidbody_component X _ _ hok_rigidbody, except_ok_bind]
  swap
  · exact hrb
  dsimp only
  rw [load_append, load_box_collider_component X _ _ hok_box_collider, except_ok_bind]
  swap
  · exact hbox
  dsimp only
  rw [load_append, load_sphere_collider_component X _ _ hok_sphere_collider, except_ok_bind]
  swap
  · exact hsph
  dsimp only
  rw [load_append, load_capsule_collider_component X _ _ hok_capsule_collider, except_ok_bind]
  swap
  · exact hcap
  dsimp only
  rw [load_append, load_cylinder_collider_component X _ _ hok_cylinder_collider,
    except_ok_bind]
  swap
  · exact hcyl
  dsimp only
  rw [load_append, load_mesh_collider_component X _ _ hok_mesh_collider, except_ok_bind]
  swap
  · exact hmc
  dsimp only
  rw [load_character_controller_component X _ _ hok_character_controller]
  exact hchc

/-- Serializing an entity with a tag and plain-data components only, and deserializing the
array, when every table is read without a fault: the array starts with the `uuid` table, and
the result is the entity the scene created, with the tag and with each component as read
from its table. -/
theorem deserialize_serialized_plain (X : Externals) (scene : Scene) (e : Entity)
    (tag : TagComponent) (preserve_uuid : Bool)
    (hscene : scene.creates_plain) (hwf : e.wf) (htag : e.tag = some tag)
    (hmesh : e.mesh = none) (hsky : e.sky_light = none) (hcam : e.camera = none)
    (htcc : e.tapered_capsule_collider = none) (hlua : e.lua_script = none)
    (hok_transform : ∀ c, e.transform = some c →
      ∃ r, read_transform_component X (.table (transform_component_table X c)) = .ok r)
    (hok_light : ∀ c, e.light = some c →
      ∃ r, read_light_component X none (.table (light_component_table X c)) = .ok r)
    (hok_post_process_probe : ∀ c, e.post_process_probe = some c →
      ∃ r, read_post_process_probe none (.table (post_process_probe_table c)) = .ok r)
    (hok_rigidbody : ∀ c, e.rigidbody = some c →
      ∃ r, read_rigidbody_component none (.table (rigidbody_component_table c)) = .ok r)
    (hok_box_collider : ∀ c, e.box_collider = some c →
      ∃ r, read_box_collider_component X none (.table (box_collider_component_table X c)) = .ok r)
    (hok_sphere_collider : ∀ c, e.sphere_collider = some c →
      ∃ r, read_sphere_collider_component X none (.table (sphere_collider_component_table X c)) = .ok r)
    (hok_capsule_collider : ∀ c, e.capsule_collider = some c →
      ∃ r, read_capsule_collider_component X none (.table (capsule_collider_component_table X c)) = .ok r)
    (hok_cylinder_collider : ∀ c, e.cylinder_collider = some c →
      ∃ r, read_cylinder_collider_component X none (.table (cylinder_collider_component_table X c)) = .ok r)
    (hok_mesh_collider : ∀ c, e.mesh_collider = some c →
      ∃ r, read_mesh_collider_component X none (.table (mesh_collider_component_table X c)) = .ok r)
    (hok_character_controller : ∀ c, e.character_controller = some c →
      ∃ r, read_character_controller_component none (.table (character_controller_component_table c)) = .ok r) :
    ∃ arr d0, serialize_entity X [] e = .ok arr ∧
      toml.array_get arr 0 = some (.table [("uuid", .string (std_to_string e.uuid))]) ∧
      d0 = (if preserve_uuid then scene.create_entity_with_uuid e.uuid tag.tag
            else scene.create_entity tag.tag) ∧
      deserialize_entity X scene arr preserve_uuid = .ok { d0 with
        tag := some tag
        relationship := e.relationship.orElse (fun _ => d0.relationship)
        transform := (e.transform.bind (fun c =>
          (read_transform_component X (.table (transform_component_table X c))).toOption)).orElse
            (fun _ => d0.transform)
        light := e.light.bind (fun c =>
          (read_light_component X none (.table (light_component_table X c))).toOption)
        post_process_probe := e.post_process_probe.bind (fun c =>
          (read_post_process_probe none (.table (post_process_probe_table c))).toOption)
        rigidbody := e.rigidbody.bind (fun c =>
          (read_rigidbody_component none (.table (rigidbody_component_table c))).toOption)
        box_collider := e.box_collider.bind (fun c =>
          (read_box_collider_component X none (.table (box_collider_component_table X c))).toOption)
        sphere_collider := e.sphere_collider.bind (fun c =>
          (read_sphere_collider_component X none (.table (sphere_collider_component_table X c))).toOption)
        capsule_collider := e.capsule_collider.bind (fun c =>
          (read_capsule_collider_component X none (.table (capsule_collider_component_table X c))).toOption)
        cylinder_collider := e.cylinder_collider.bind (fun c =>
          (read_cylinder_collider_component X none (.table (cylinder_collider_component_table X c))).toOption)
        mesh_collider := e.mesh_collider.bind (fun c =>
          (read_mesh_collider_component X none (.table (mesh_collider_component_table X c))).toOption)
        character_controller := e.character_controller.bind (fun c =>
          (read_character_controller_component none (.table (character_controller_component_table c))).toOption) } := by
  have hser := serialize_entity_plain X e tag htag hmesh hsky hcam htcc hlua
  obtain ⟨_, hlight, _, hpp, _, hrb, hbox, hsph, hcap, _, hcyl, hmc, hchc, _, hrel⟩ :=
    hscene (if preserve_uuid then scene.create_entity_with_uuid e.uuid tag.tag
      else scene.create_entity tag.tag)
      (by
        cases preserve_uuid
        · exact Or.inl ⟨_, rfl⟩
        · exact Or.inr ⟨_, _, rfl⟩)
  have hload := load_plain_components X e
    { (if preserve_uuid then scene.create_entity_with_uuid e.uuid tag.tag
       else scene.create_entity tag.tag) with tag := some tag }
    hwf hrel hlight hpp hrb hbox hsph hcap hcyl hmc hchc
    hok_transform hok_light hok_post_process_probe hok_rigidbody hok_box_collider
    hok_sphere_collider hok_capsule_collider hok_cylinder_collider hok_mesh_collider
    hok_character_controller
  have hde := deserialize_entity_head X scene (std_to_string e.uuid) tag
    (push_if_present [] e.relationship "relationship_component"
            relationship_component_table ++
        (push_if_present [] e.transform "transform_component" (transform_component_table X) ++
        (push_if_present [] e.light "light_component" (light_component_table X) ++
        (push_if_present [] e.post_process_probe "post_process_probe"
            post_process_probe_table ++
        (push_if_present [] e.rigidbody "rigidbody_component" rigidbody_component_table ++
        (push_if_present [] e.box_collider "box_collider_component"
            (box_collider_component_table X) ++
        (push_if_present [] e.sphere_collider "sphere_collider_component"
            (sphere_collider_component_table X) ++
        (push_if_present [] e.capsule_collider "capsule_collider_component"
            (capsule_collider_component_table X) ++
        (push_if_present [] e.cylinder_collider "cylinder_collider_component"
            (cylinder_collider_component_table X) ++
        (push_if_present [] e.mesh_collider "mesh_collider_component"
            (mesh_collider_component_table X) ++
        push_if_present [] e.character_controller "character_controller_component"
            character_controller_component_table)))))))))) preserve_uuid
  rw [std_stoull_to_string _ hwf.1, except_ok_bind, hload] at hde
  exact ⟨_, _, hser, rfl, rfl, hde⟩

theorem Externals.reference_vec3_ok (v : Vec3) :
    ∃ r, Externals.reference.get_vec3_toml_array
      (some (Externals.reference.get_toml_array v)) = .ok r :=
  ⟨_, rfl⟩

theorem Externals.reference_vec3 (v : Vec3) (h : ∀ x ∈ v.floats, f32.not_signaling x) :
    Externals.reference.get_vec3_toml_array (some (Externals.reference.get_toml_array v))
      = .ok v := by
  have e : Externals.reference.get_vec3_toml_array
        (some (Externals.reference.get_toml_array v))
      = .ok { x := f64_to_f32 (f32_to_f64 v.x), y := f64_to_f32 (f32_to_f64 v.y),
              z := f64_to_f32 (f32_to_f64 v.z) } := rfl
  rw [e, f64_to_f32_f32_to_f64 v.x (h _ (by simp [Vec3.floats])),
    f64_to_f32_f32_to_f64 v.y (h _ (by simp [Vec3.floats])),
    f64_to_f32_f32_to_f64 v.z (h _ (by simp [Vec3.floats]))]

theorem Scene.reference_creates_plain : Scene.reference.creates_plain := by
  intro e h
  rcases h with ⟨name, rfl⟩ | ⟨uuid, name, rfl⟩
  · refine ⟨rfl, rfl, rfl, rfl, rfl, rfl, rfl, rfl, rfl, rfl, rfl, rfl, rfl, rfl, ?_⟩
    intro rc h
    cases h
    rfl
  · refine ⟨rfl, rfl, rfl, rfl, rfl, rfl, rfl, rfl, rfl, rfl, rfl, rfl, rfl, rfl, ?_⟩
    intro rc h
    cases h
    rfl

theorem sample_plain_entity_wf : sample_plain_entity.wf := by
  refine ⟨by decide, ?_, ?_, ?_, ?_⟩
  · intro rc h
    cases h
    exact ⟨by decide, by decide⟩
  · intro mc h
    cases h
  · intro lc h
    cases h
    exact ⟨by decide, by decide, by decide⟩
  · intro rb h
    cases h
    decide

theorem sample_plain_entity_no_signaling_nan : sample_plain_entity.no_signaling_nan := by
  refine ⟨?_, ?_, ?_, ?_, ?_, ?_, ?_, ?_, ?_, ?_⟩ <;>
  · intro c h
    cases h
    try decide

theorem load_one (X : Externals) (d : Entity) (ent : toml.node) :
    [ent].foldlM (deserialize_component X) d = (deserialize_component X d ent >>= pure) := rfl

theorem deserialize_component_tapered_capsule (X : Externals) (d : Entity) (node : toml.node) :
    deserialize_component X d (.table [("tapered_capsule_collider_component", node)])
      = (do
          let r ← read_tapered_capsule_collider_component X d.tapered_capsule_collider node
          pure { d with tapered_capsule_collider := some r }) := rfl

theorem read_tapered_capsule_collider_component_fails (X : Externals)
    (existing : Option TaperedCapsuleColliderComponent) (tcc : TaperedCapsuleColliderComponent) :
    ∃ f, read_tapered_capsule_collider_component X existing
      (.table (tapered_capsule_collider_component_table X tcc)) = .error f := by
  cases existing with
  | none => exact ⟨.null_dereference, rfl⟩
  | some c => exact ⟨.emplace_existing, rfl⟩

/-- C9 (failing input): an entity with a tag and a tapered capsule collider. The table that
`serialize_entity` builds for the collider has no key `radius` (it has `top_radius`), so the
macro `GET_FLOAT(tcc_node, "radius")` dereferences a null pointer: whatever the external
helpers and the scene are, `deserialize_entity` does not return an entity on the serialized
array, and on the sample entity it stops with a null dereference. -/
theorem tapered_capsule_collider_roundtrip_fails (X : Externals) (scene : Scene)
    (preserve_uuid : Bool) (uuid : Nat) (tag : TagComponent)
    (tcc : TaperedCapsuleColliderComponent) :
    toml.table_get (tapered_capsule_collider_component_table X tcc) "radius" = none ∧
    GET_FLOAT (.table (tapered_capsule_collider_component_table X tcc)) "radius"
      = .error .null_dereference ∧
    serialize_entity X []
        { Entity.bare uuid with tag := some tag, tapered_capsule_collider := some tcc }
      = .ok [.table [("uuid", .string (std_to_string uuid))],
             .table [("tag_component", .table (tag_component_table tag))],
             .table [("tapered_capsule_collider_component",
               .table (tapered_capsule_collider_component_table X tcc))]] ∧
    (∀ d, deserialize_entity X scene
        [.table [("uuid", .string (std_to_string uuid))],
         .table [("tag_component", .table (tag_component_table tag))],
         .table [("tapered_capsule_collider_component",
           .table (tapered_capsule_collider_component_table X tcc))]] preserve_uuid ≠ .ok d) ∧
    (∃ arr, serialize_entity Externals.reference [] sample_tapered_capsule_entity = .ok arr ∧
      deserialize_entity Externals.reference Scene.reference arr true
        = .error .null_dereference) := by
  refine ⟨rfl, rfl, rfl, ?_, ⟨_, rfl, rfl⟩⟩
  intro d
  rw [deserialize_entity_head]
  cases std_stoull (std_to_string uuid) with
  | error f => exact fun h => by cases h
  | ok u =>
    rw [except_ok_bind, load_one, deserialize_component_tapered_capsule]
    obtain ⟨f, hf⟩ := read_tapered_capsule_collider_component_fails X
      ({ (if preserve_uuid then scene.create_entity_with_uuid u tag.tag
          else scene.create_entity tag.tag) with tag := some tag } :
            Entity).tapered_capsule_collider tcc
    rw [hf]
    exact fun h => by cases h

theorem deserialize_component_sky_light (X : Externals) (d : Entity) (node : toml.node) :
    deserialize_component X d (.table [("sky_light_component", node)])
      = (do
          let r ← read_sky_light_component X d.sky_light node
          pure { d with sky_light := some r }) := rfl

theorem read_sky_light_component_fails (X : Externals)
    (existing : Option SkyLightComponent) (light : SkyLightComponent) :
    ∃ f, read_sky_light_component X existing
      (.table (sky_light_component_table X light)) = .error f := by
  cases existing with
  | none => exact ⟨.null_dereference, rfl⟩
  | some c => exact ⟨.emplace_existing, rfl⟩

/-- C10 (failing input): an entity with a tag and a sky light. The table that
`serialize_entity` builds for the sky light has no key `path` (the cubemap path is stored
under `cubemap_path`), so the macro `GET_STRING(sky_node, "path")` dereferences a null
pointer: whatever the external helpers and the scene are, `deserialize_entity` does not
return an entity on the serialized array, and on the sample entity it stops with a null
dereference. -/
theorem sky_light_roundtrip_fails (X : Externals) (scene : Scene)
    (preserve_uuid : Bool) (uuid : Nat) (tag : TagComponent) (light : SkyLightComponent) :
    toml.table_get (sky_light_component_table X light) "path" = none ∧
    GET_STRING (.table (sky_light_component_table X light)) "path"
      = .error .null_dereference ∧
    serialize_entity X [] { Entity.bare uuid with tag := some tag, sky_light := some light }
      = .ok [.table [("uuid", .string (std_to_string uuid))],
             .table [("tag_component", .table (tag_component_table tag))],
             .table [("sky_light_component", .table (sky_light_component_table X light))]] ∧
    (∀ d, deserialize_entity X scene
        [.table [("uuid", .string (std_to_string uuid))],
         .table [("tag_component", .table (tag_component_table tag))],
         .table [("sky_light_component", .table (sky_light_component_table X light))]]
        preserve_uuid ≠ .ok d) ∧
    (∃ arr, serialize_entity Externals.reference [] sample_sky_light_entity = .ok arr ∧
      deserialize_entity Externals.reference Scene.reference arr true
        = .error .null_dereference) := by
  refine ⟨rfl, rfl, rfl, ?_, ⟨_, rfl, rfl⟩⟩
  intro d
  rw [deserialize_entity_head]
  cases std_stoull (std_to_string uuid) with
  | error f => exact fun h => by cases h
  | ok u =>
    rw [except_ok_bind, load_one, deserialize_component_sky_light]
    obtain ⟨f, hf⟩ := read_sky_light_component_fails X
      ({ (if preserve_uuid then scene.create_entity_with_uuid u tag.tag
          else scene.create_entity tag.tag) with tag := some tag } : Entity).sky_light light
    rw [hf]
    exact fun h => by cases h

/-! ## The head of the serialized array -/

/-- The array that `serialize_entity` builds from an empty array starts with the table that
holds the UUID, followed by the tag table when the entity has a tag component. -/
theorem serialize_entity_prefix (X : Externals) (e : Entity) (arr : List toml.node)
    (h : serialize_entity X [] e = .ok arr) :
    ∃ rest, arr = .table [("uuid", .string (std_to_string e.uuid))] ::
      (push_if_present [] e.tag "tag_component" tag_component_table ++ rest) := by
  unfold serialize_entity at h
  dsimp only at h
  rw [push_if_present_append _ e.character_controller,
    push_if_present_append _ e.mesh_collider,
    push_if_present_append _ e.cylinder_collider,
    push_if_present_append _ e.tapered_capsule_collider,
    push_if_present_append _ e.capsule_collider,
    push_if_present_append _ e.sphere_collider,
    push_if_present_append _ e.box_collider,
    push_if_present_append _ e.rigidbody,
    push_if_present_append _ e.camera,
    push_if_present_append _ e.post_process_probe,
    push_if_present_append _ e.sky_light,
    push_if_present_append _ e.light,
    push_if_present_append _ e.mesh,
    push_if_present_append _ e.transform,
    push_if_present_append _ e.relationship,
    push_if_present_append _ e.tag] at h
  simp only [List.append_assoc, List.nil_append, List.cons_append] at h
  cases hl : e.lua_script with
  | none =>
    rw [hl] at h
    cases h
    exact ⟨_, rfl⟩
  | some c =>
    rw [hl] at h
    dsimp only at h
    cases hs : c.lua_system with
    | none =>
      rw [hs] at h
      cases h
    | some p =>
      rw [hs] at h
      simp only [deref, push_component, List.append_assoc, List.cons_append] at h
      cases h
      exact ⟨_, rfl⟩

/-- C12 (counterexample): an entity without a tag component. For the entity with only a
transform component the serialized array holds the transform table at index 1, which has no
key `tag_component`; for the entity with no component at all the array has no element at
index 1. In both cases `deserialize_entity` dereferences a null pointer at its first reads. -/
theorem serialize_entity_untagged_counterexample :
    sample_untagged_entity.tag = none ∧
    (∃ arr, serialize_entity Externals.reference [] sample_untagged_entity = .ok arr ∧
      (∃ t, toml.array_get arr 1 = some (.table t) ∧ toml.table_get t "tag_component" = none) ∧
      deserialize_entity Externals.reference Scene.reference arr true
        = .error .null_dereference) ∧
    (Entity.bare 11).tag = none ∧
    (∃ arr, serialize_entity Externals.reference [] (Entity.bare 11) = .ok arr ∧
      toml.array_get arr 1 = none ∧
      deserialize_entity Externals.reference Scene.reference arr true
        = .error .null_dereference) :=
  ⟨rfl, ⟨_, rfl, ⟨_, rfl, rfl⟩, rfl⟩, rfl, ⟨_, rfl, rfl, rfl⟩⟩

/-- C12 (amended): for every entity that has a `TagComponent`, the array that
`serialize_entity` builds from an empty array has the table holding `uuid` at index 0 and the
table holding `tag_component` (with `tag` and `enabled`) at index 1, and the three reads at
the start of `deserialize_entity` (the UUID string, the tag string, the enabled flag) find
their element, key and value type. -/
theorem serialize_entity_tagged_head (X : Externals) (e : Entity) (tag : TagComponent)
    (arr : List toml.node) (htag : e.tag = some tag)
    (h : serialize_entity X [] e = .ok arr) :
    toml.array_get arr 0 = some (.table [("uuid", .string (std_to_string e.uuid))]) ∧
    toml.array_get arr 1 = some (.table [("tag_component",
      .table [("tag", .string tag.tag), ("enabled", .boolean tag.enabled)])]) ∧
    (do let t ← deref (← deref (toml.array_get arr 0)).as_table
        deref (← deref (toml.table_get t "uuid")).as_string) = .ok (std_to_string e.uuid) ∧
    (do let t ← deref (← deref (toml.array_get arr 1)).as_table
        let tag_node ← deref (← deref (toml.table_get t "tag_component")).as_table
        deref (← deref (toml.table_get tag_node "tag")).as_string) = .ok tag.tag ∧
    (do let t ← deref (← deref (toml.array_get arr 1)).as_table
        let tag_node ← deref (← deref (toml.table_get t "tag_component")).as_table
        deref (← deref (toml.table_get tag_node "enabled")).as_boolean) = .ok tag.enabled := by
  obtain ⟨rest, hrest⟩ := serialize_entity_prefix X e arr h
  rw [htag] at hrest
  subst hrest
  exact ⟨rfl, rfl, rfl, rfl, rfl⟩

theorem serialize_entity_tagged_head_witness :
    toml.array_get
      [.table [("uuid", .string (std_to_string 5))],
       .table [("tag_component", .table (tag_component_table { tag := "root", enabled := true }))]]
      0 = some (.table [("uuid", .string (std_to_string sample_tagged_entity.uuid))]) ∧
    toml.array_get
      [.table [("uuid", .string (std_to_string 5))],
       .table [("tag_component", .table (tag_component_table { tag := "root", enabled := true }))]]
      1 = some (.table [("tag_component",
        .table [("tag", .string "root"), ("enabled", .boolean true)])]) :=
  ⟨(serialize_entity_tagged_head Externals.reference sample_tagged_entity
      { tag := "root", enabled := true } _ rfl rfl).1,
   (serialize_entity_tagged_head Externals.reference sample_tagged_entity
      { tag := "root", enabled := true } _ rfl rfl).2.1⟩

/-- C11: a 64-bit UUID survives the text encoding. The decimal string of the entity UUID, of
the parent UUID and of every child UUID parses back to the same value; the serialized array
starts with the table that holds the decimal string of the UUID; and with
`preserve_uuid = true` the deserialized entity is the one that
`create_entity_with_uuid(u, name)` created for the UUID `u` of the original, with the parent
and the children of the original relationship component. The helpers outside the sources
are assumed to read the `Vec3` arrays they wrote without a fault and to create new entities
without the loaded components. -/
theorem uuid_text_roundtrip (X : Externals) (scene : Scene) (e : Entity)
    (tag : TagComponent)
    (hX : ∀ v, ∃ r, X.get_vec3_toml_array (some (X.get_toml_array v)) = .ok r)
    (hscene : scene.creates_plain) (hwf : e.wf) (htag : e.tag = some tag)
    (hmesh : e.mesh = none) (hsky : e.sky_light = none) (hcam : e.camera = none)
    (htcc : e.tapered_capsule_collider = none) (hlua : e.lua_script = none) :
    std_stoull (std_to_string e.uuid) = .ok e.uuid ∧
    (∀ rc, e.relationship = some rc →
      std_stoull (std_to_string rc.parent) = .ok rc.parent ∧
      ∀ c ∈ rc.children, std_stoull (std_to_string c) = .ok c) ∧
    ∃ arr d, serialize_entity X [] e = .ok arr ∧
      toml.array_get arr 0 = some (.table [("uuid", .string (std_to_string e.uuid))]) ∧
      deserialize_entity X scene arr true = .ok d ∧
      d.uuid = (scene.create_entity_with_uuid e.uuid tag.tag).uuid ∧
      (∀ rc, e.relationship = some rc → d.relationship = some rc) := by
  obtain ⟨arr, d0, hser, hhead, hd0, hde⟩ := deserialize_serialized_plain X scene e tag true
    hscene hwf htag hmesh hsky hcam htcc hlua
    (fun c _ => read_transform_component_ok X hX c)
    (fun c h => read_light_component_ok X hX c (hwf.2.2.2.1 c h).1 (hwf.2.2.2.1 c h).2.1
      (hwf.2.2.2.1 c h).2.2)
    (fun c _ => read_post_process_probe_ok c)
    (fun c h => read_rigidbody_component_ok c (hwf.2.2.2.2 c h))
    (fun c _ => read_box_collider_component_ok X hX c)
    (fun c _ => read_sphere_collider_component_ok X hX c)
    (fun c _ => read_capsule_collider_component_ok X hX c)
    (fun c _ => read_cylinder_collider_component_ok X hX c)
    (fun c _ => read_mesh_collider_component_ok X hX c)
    (fun c _ => read_character_controller_component_ok c)
  simp only [if_true] at hd0
  subst hd0
  refine ⟨std_stoull_to_string _ hwf.1, ?_, arr, _, hser, hhead, hde, rfl, ?_⟩
  · intro rc hrc
    obtain ⟨hp, hc⟩ := hwf.2.1 rc hrc
    exact ⟨std_stoull_to_string _ hp, fun c hcm => std_stoull_to_string _ (hc c hcm)⟩
  · intro rc hrc
    simp [hrc]

theorem uuid_text_roundtrip_witness :
    std_stoull (std_to_string sample_plain_entity.uuid) = .ok sample_plain_entity.uuid ∧
    (∀ rc, sample_plain_entity.relationship = some rc →
      std_stoull (std_to_string rc.parent) = .ok rc.parent ∧
      ∀ c ∈ rc.children, std_stoull (std_to_string c) = .ok c) ∧
    ∃ arr d, serialize_entity Externals.reference [] sample_plain_entity = .ok arr ∧
      toml.array_get arr 0
        = some (.table [("uuid", .string (std_to_string sample_plain_entity.uuid))]) ∧
      deserialize_entity Externals.reference Scene.reference arr true = .ok d ∧
      d.uuid = (Scene.reference.create_entity_with_uuid sample_plain_entity.uuid "lamp").uuid ∧
      (∀ rc, sample_plain_entity.relationship = some rc → d.relationship = some rc) :=
  uuid_text_roundtrip Externals.reference Scene.reference sample_plain_entity
    { tag := "lamp", enabled := false } Externals.reference_vec3_ok
    Scene.reference_creates_plain sample_plain_entity_wf rfl rfl rfl rfl rfl rfl

/-! ## The system registry -/

theorem SystemRegistry.emplace_absent (r : SystemRegistry) (key : Nat) (value : Option ESystem)
    (h : r.contains key = false) (k : Nat) :
    r.emplace key value k = if k = key then some value else r k := by
  simp [SystemRegistry.emplace, h]

theorem App.unregister_system_registry (ti : TypeInfo) (T : Nat) (app : App) (k : Nat) :
    (app.unregister_system ti T).system_registry k
      = if k = ti.hash_code T then none else app.system_registry k := by
  unfold App.unregister_system
  by_cases h : app.system_registry.contains (ti.hash_code T) = true
  · simp [h, SystemRegistry.erase]
  · simp only [h, if_false]
    by_cases hk : k = ti.hash_code T
    · subst hk
      simp only [SystemRegistry.contains, Option.isSome_iff_ne_none, ne_eq, not_not] at h
      simp [h]
    · simp [hk]

/-- C13: `register_system<T>` passes its assertion exactly when no system is registered under
the type key of `T`; after a successful call `has_system<T>()` is true and `get_system<T>()`
is not null; after `unregister_system<T>()` `has_system<T>()` is false and `get_system<T>()`
is null; and both calls leave `has_system<U>()` and `get_system<U>()` as they were for every
type `U` with another type key. -/
theorem App_register_unregister_system (ti : TypeInfo) (T : Nat) (app : App) :
    ((app.register_system ti T).isSome = true ↔ app.has_system ti T = false) ∧
    (∀ app', app.register_system ti T = some app' →
      app'.has_system ti T = true ∧ (app'.get_system ti T).isSome = true ∧
      ∀ U, ti.hash_code U ≠ ti.hash_code T →
        app'.has_system ti U = app.has_system ti U ∧
        app'.get_system ti U = app.get_system ti U) ∧
    (app.unregister_system ti T).has_system ti T = false ∧
    (app.unregister_system ti T).get_system ti T = none ∧
    (∀ U, ti.hash_code U ≠ ti.hash_code T →
      (app.unregister_system ti T).has_system ti U = app.has_system ti U ∧
      (app.unregister_system ti T).get_system ti U = app.get_system ti U) := by
  refine ⟨?_, ?_, ?_, ?_, ?_⟩
  · unfold App.register_system App.has_system
    cases h : app.system_registry.contains (ti.hash_code T) <;> simp [h]
  · intro app' happ
    unfold App.register_system at happ
    cases h : app.system_registry.contains (ti.hash_code T) with
    | true => simp [h] at happ
    | false =>
      simp only [h, Bool.false_eq_true, if_false, Option.some.injEq] at happ
      subst happ
      have hem := SystemRegistry.emplace_absent app.system_registry (ti.hash_code T)
        (some { dynamic_type := T }) h
      refine ⟨?_, ?_, ?_⟩
      · simp [App.has_system, SystemRegistry.contains, hem]
      · simp [App.get_system, SystemRegistry.contains, SystemRegistry.index_get, hem,
          dynamic_cast]
      · intro U hU
        simp [App.has_system, App.get_system, SystemRegistry.contains,
          SystemRegistry.index_get, hem, hU]
  · simp [App.has_system, SystemRegistry.contains, App.unregister_system_registry]
  · simp [App.get_system, SystemRegistry.contains, App.unregister_system_registry]
  · intro U hU
    simp [App.has_system, App.get_system, SystemRegistry.contains, SystemRegistry.index_get,
      App.unregister_system_registry, hU]

/-! ## Command line arguments -/

theorem AppCommandLineArgs.create_getElem? (argc : Int) (argv : Nat → String) (i : Nat) :
    (AppCommandLineArgs.create argc argv).args[i]?
      = if i < argc.toNat then some { arg_str := argv i, arg_index := i % 2 ^ 32 }
        else none := by
  unfold AppCommandLineArgs.create
  simp only [List.getElem?_map, List.getElem?_range]
  by_cases h : i < argc.toNat
  · simp [List.getElem?_range h, h]
  · have : (List.range argc.toNat)[i]? = none := by
      rw [List.getElem?_eq_none_iff]
      simpa using h
    simp [this, h]

theorem AppCommandLineArgs_get_eq (s : AppCommandLineArgs) (k : Nat) :
    s.get k = .ok s.args[k]? := by
  unfold AppCommandLineArgs.get vector_at
  cases s.args[k]? <;> rfl

theorem AppCommandLineArgs_create_get (argc : Int) (argv : Nat → String) (i : Nat)
    (hargc : argc < 2 ^ 31) (hi : (i : Int) < argc) :
    (AppCommandLineArgs.create argc argv).get i
      = .ok (some { arg_str := argv i, arg_index := i }) := by
  rw [AppCommandLineArgs_get_eq, AppCommandLineArgs.create_getElem?]
  have h1 : i < argc.toNat := by omega
  have h2 : i % 2 ^ 32 = i := Nat.mod_eq_of_lt (by omega)
  rw [if_pos h1, h2]

/-- C14: `get(index)` always returns normally: the argument stored at position `index` when
`index < args.size()`, `std::nullopt` otherwise; and for an object built from `(argc, argv)`
(with `argc` an `int`), `get(i)` for `i < argc` holds `argv[i]` and the index `i`. -/
theorem AppCommandLineArgs_get_total (self : AppCommandLineArgs) (index : Nat)
    (argc : Int) (argv : Nat → String) (i : Nat) (hargc : argc < 2 ^ 31)
    (hi : (i : Int) < argc) :
    self.get index = .ok self.args[index]? ∧
    (∀ h : index < self.args.length, self.get index = .ok (some (self.args[index]))) ∧
    (self.args.length ≤ index → self.get index = .ok none) ∧
    (AppCommandLineArgs.create argc argv).get i
      = .ok (some { arg_str := argv i, arg_index := i }) := by
  refine ⟨AppCommandLineArgs_get_eq _ _, ?_, ?_,
    AppCommandLineArgs_create_get argc argv i hargc hi⟩
  · intro h
    rw [AppCommandLineArgs_get_eq, List.getElem?_eq_getElem h]
  · intro h
    rw [AppCommandLineArgs_get_eq, List.getElem?_eq_none_iff.mpr h]

theorem AppCommandLineArgs_get_total_witness :
    (AppCommandLineArgs.create 2 (fun i => if i = 0 then "app" else "--fast")).get 5
      = .ok none ∧
    (AppCommandLineArgs.create 2 (fun i => if i = 0 then "app" else "--fast")).get 1
      = .ok (some { arg_str := "--fast", arg_index := 1 }) :=
  ⟨(AppCommandLineArgs_get_total
      (AppCommandLineArgs.create 2 (fun i => if i = 0 then "app" else "--fast")) 5 2
      (fun i => if i = 0 then "app" else "--fast") 1 (by decide) (by decide)).2.2.1
      (by decide),
   (AppCommandLineArgs_get_total
      (AppCommandLineArgs.create 2 (fun i => if i = 0 then "app" else "--fast")) 5 2
      (fun i => if i = 0 then "app" else "--fast") 1 (by decide) (by decide)).2.2.2⟩

theorem AppCommandLineArgs.contains_from_iff (l : List AppCommandLineArgs.Arg) (a : String) :
    AppCommandLineArgs.contains_from l a = true ↔
      ∃ (i : Nat) (arg : AppCommandLineArgs.Arg), l[i]? = some arg ∧ arg.arg_str = a := by
  induction l with
  | nil => simp [AppCommandLineArgs.contains_from]
  | cons x xs ih =>
    unfold AppCommandLineArgs.contains_from
    by_cases hx : x.arg_str = a
    · simp only [hx, if_true, true_iff]
      exact ⟨0, x, List.getElem?_cons_zero, hx⟩
    · simp only [hx, if_false]
      rw [ih]
      constructor
      · rintro ⟨i, arg, h1, h2⟩
        exact ⟨i + 1, arg, by simpa using h1, h2⟩
      · rintro ⟨i, arg, h1, h2⟩
        cases i with
        | zero =>
          simp at h1
          subst h1
          exact absurd h2 hx
        | succ j => exact ⟨j, arg, by simpa using h1, h2⟩

theorem AppCommandLineArgs.get_index_from_eq_some (l : List AppCommandLineArgs.Arg)
    (a : String) (k : Nat) :
    AppCommandLineArgs.get_index_from l a = some k ↔
      ∃ (i : Nat) (arg : AppCommandLineArgs.Arg), l[i]? = some arg ∧ arg.arg_str = a ∧ arg.arg_index = k ∧
        ∀ j, j < i → ∀ b : AppCommandLineArgs.Arg, l[j]? = some b → b.arg_str ≠ a := by
  induction l with
  | nil => simp [AppCommandLineArgs.get_index_from]
  | cons x xs ih =>
    unfold AppCommandLineArgs.get_index_from
    by_cases hx : x.arg_str = a
    · simp only [hx, if_true, Option.some.injEq]
      constructor
      · intro hk
        exact ⟨0, x, List.getElem?_cons_zero, hx, hk,
          fun j hj => absurd hj (Nat.not_lt_zero j)⟩
      · rintro ⟨i, arg, h1, h2, h3, h4⟩
        cases i with
        | zero =>
          simp at h1
          subst h1
          exact h3
        | succ j => exact absurd hx (h4 0 (Nat.succ_pos j) x List.getElem?_cons_zero)
    · simp only [hx, if_false]
      rw [ih]
      constructor
      · rintro ⟨i, arg, h1, h2, h3, h4⟩
        refine ⟨i + 1, arg, by simpa using h1, h2, h3, ?_⟩
        intro j hj b hb
        cases j with
        | zero =>
          simp at hb
          subst hb
          exact hx
        | succ j' => exact h4 j' (by omega) b (by simpa using hb)
      · rintro ⟨i, arg, h1, h2, h3, h4⟩
        cases i with
        | zero =>
          simp at h1
          subst h1
          exact absurd h2 hx
        | succ i' =>
          refine ⟨i', arg, by simpa using h1, h2, h3, ?_⟩
          intro j hj b hb
          exact h4 (j + 1) (by omega) b (by simpa using hb)

theorem AppCommandLineArgs.get_index_from_eq_none (l : List AppCommandLineArgs.Arg)
    (a : String) :
    AppCommandLineArgs.get_index_from l a = none ↔
      AppCommandLineArgs.contains_from l a = false := by
  induction l with
  | nil => simp [AppCommandLineArgs.get_index_from, AppCommandLineArgs.contains_from]
  | cons x xs ih =>
    unfold AppCommandLineArgs.get_index_from AppCommandLineArgs.contains_from
    by_cases hx : x.arg_str = a
    · simp [hx]
    · simp only [hx, if_false]
      exact ih

/-- C15: for the object built from `(argc, argv)` (with `argc` an `int`) and every string
`a`: `contains(a)` is true exactly when some `argv[i]` with `i < argc` equals `a`;
`get_index(a)` returns `i` exactly when `i` is the smallest such index; it returns
`std::nullopt` exactly when `contains(a)` is false; and whenever `get_index(a) = i`, `get(i)`
holds an argument whose `arg_str` equals `a`. -/
theorem AppCommandLineArgs_contains_get_index (argc : Int) (argv : Nat → String) (a : String)
    (hargc : argc < 2 ^ 31) :
    ((AppCommandLineArgs.create argc argv).contains a = true ↔
      ∃ i : Nat, (i : Int) < argc ∧ argv i = a) ∧
    (∀ i : Nat, (AppCommandLineArgs.create argc argv).get_index a = some i ↔
      ((i : Int) < argc ∧ argv i = a ∧ ∀ j : Nat, j < i → argv j ≠ a)) ∧
    ((AppCommandLineArgs.create argc argv).get_index a = none ↔
      (AppCommandLineArgs.create argc argv).contains a = false) ∧
    (∀ i : Nat, (AppCommandLineArgs.create argc argv).get_index a = some i →
      ∃ arg, (AppCommandLineArgs.create argc argv).get i = .ok (some arg) ∧
        arg.arg_str = a) := by
  have hel := AppCommandLineArgs.create_getElem? argc argv
  have hidx : ∀ i : Nat, (AppCommandLineArgs.create argc argv).get_index a = some i ↔
      ((i : Int) < argc ∧ argv i = a ∧ ∀ j : Nat, j < i → argv j ≠ a) := by
    intro i
    unfold AppCommandLineArgs.get_index
    rw [AppCommandLineArgs.get_index_from_eq_some]
    constructor
    · rintro ⟨k, arg, h1, h2, h3, h4⟩
      rw [hel] at h1
      by_cases hk : k < argc.toNat
      · rw [if_pos hk] at h1
        cases h1
        have hki : k % 2 ^ 32 = k := Nat.mod_eq_of_lt (by omega)
        simp only at h2 h3
        rw [hki] at h3
        subst h3
        refine ⟨by omega, h2, ?_⟩
        intro j hj
        have hjl : j < argc.toNat := by omega
        have := h4 j hj { arg_str := argv j, arg_index := j % 2 ^ 32 }
          (by rw [hel, if_pos hjl])
        exact this
      · rw [if_neg hk] at h1
        cases h1
    · rintro ⟨h1, h2, h3⟩
      have hil : i < argc.toNat := by omega
      refine ⟨i, { arg_str := argv i, arg_index := i % 2 ^ 32 }, by rw [hel, if_pos hil], h2,
        Nat.mod_eq_of_lt (by omega), ?_⟩
      intro j hj b hb
      have hjl : j < argc.toNat := by omega
      rw [hel, if_pos hjl] at hb
      cases hb
      exact h3 j hj
  refine ⟨?_, hidx, AppCommandLineArgs.get_index_from_eq_none _ a, ?_⟩
  · unfold AppCommandLineArgs.contains
    rw [AppCommandLineArgs.contains_from_iff]
    constructor
    · rintro ⟨i, arg, h1, h2⟩
      rw [hel] at h1
      by_cases hk : i < argc.toNat
      · rw [if_pos hk] at h1
        cases h1
        exact ⟨i, by omega, h2⟩
      · rw [if_neg hk] at h1
        cases h1
    · rintro ⟨i, h1, h2⟩
      have hil : i < argc.toNat := by omega
      exact ⟨i, _, by rw [hel, if_pos hil], h2⟩
  · intro i hi
    obtain ⟨h1, h2, _⟩ := (hidx i).mp hi
    refine ⟨{ arg_str := argv i, arg_index := i }, ?_, h2⟩
    exact (AppCommandLineArgs_create_get argc argv i hargc h1)

theorem AppCommandLineArgs_contains_get_index_witness :
    (AppCommandLineArgs.create 3
      (fun i => if i = 0 then "app" else "--fast")).get_index "--fast" = some 1 :=
  ((AppCommandLineArgs_contains_get_index 3 (fun i => if i = 0 then "app" else "--fast")
    "--fast" (by decide)).2.1 1).mpr ⟨by decide, by decide, by
      intro j hj
      have : j = 0 := by omega
      subst this
      decide⟩

/-! ## Smooth damping -/

/-- C16: in exact arithmetic the value `out` that `smooth_damp` returns satisfies
`dot(target - current, out - target) ≤ 0`, for all arguments. -/
theorem smooth_damp_no_overshoot {K : Type} [LinearOrderedField K] {n : Nat} (sqrt : K → K)
    (current target current_velocity : Fin n → K) (smooth_time max_speed delta_time : K) :
    Finset.univ.sum (fun i => (target i - current i) *
      ((smooth_damp sqrt current target current_velocity smooth_time max_speed delta_time).1 i
        - target i)) ≤ 0 := by
  unfold smooth_damp compAdd
  dsimp only
  split_ifs with h1 h2 h2
  · simp
  · exact not_lt.mp h2
  · simp
  · exact not_lt.mp h2

/-! ## Camera history -/

/-- C17: on every frame after the first, each `previous_*` member of a camera's
`CameraData`, and `temporalaa_jitter_prev`, equals the value that its current counterpart
held on the preceding frame. -/
theorem CameraData_history_double_buffered (first : CameraCB)
    (frames : Nat → Fin 16 → CameraFrame) (k : Nat) (i : Fin 16) :
    ((CameraCB.on_frame first frames (k + 1)).camera_data i).previous_projection
      = ((CameraCB.on_frame first frames k).camera_data i).projection ∧
    ((CameraCB.on_frame first frames (k + 1)).camera_data i).previous_inv_projection
      = ((CameraCB.on_frame first frames k).camera_data i).inv_projection ∧
    ((CameraCB.on_frame first frames (k + 1)).camera_data i).previous_view
      = ((CameraCB.on_frame first frames k).camera_data i).view ∧
    ((CameraCB.on_frame first frames (k + 1)).camera_data i).previous_inv_view
      = ((CameraCB.on_frame first frames k).camera_data i).inv_view ∧
    ((CameraCB.on_frame first frames (k + 1)).camera_data i).previous_projection_view
      = ((CameraCB.on_frame first frames k).camera_data i).projection_view ∧
    ((CameraCB.on_frame first frames (k + 1)).camera_data i).previous_inv_projection_view
      = ((CameraCB.on_frame first frames k).camera_data i).inv_projection_view ∧
    ((CameraCB.on_frame first frames (k + 1)).camera_data i).temporalaa_jitter_prev
      = ((CameraCB.on_frame first frames k).camera_data i).temporalaa_jitter :=
  ⟨rfl, rfl, rfl, rfl, rfl, rfl, rfl⟩

end ox
